import Mathlib

/-!
Verification development for the CATS results parser
(scripts/parse-cats-results.py).

The script ingests per-test JSON records produced by the CATS fuzzer into a
normalized SQLite database and classifies warn/error results with a fixed,
ordered list of false-positive rules.  This file gives a shallow embedding of
the parts of the script that the specification's claims are about:

  - Python JSON values (`Json`), with Python's exception behaviour made
    explicit: every operation that can raise (attribute access on a non-dict,
    `.lower()` on a non-string, `int()` of a bad string, indexing a missing
    key) returns `Except PyError _`.
  - `detect_false_positive`, translated rule block by rule block in the
    source's textual order.
  - the pure row-building part of `insert_test_record`, the batching loop of
    `process_directory` (with an oracle for commit failures, since those come
    from the external store), `parse_json_file`, `extract_test_number`, and
    the schema/exit-code logic of `main`.
  - the get-or-create dimension resolvers (`get_or_create_fuzzer`,
    `get_or_create_path`) over an explicit store state.

Machine integers do not matter here (Python ints are unbounded and SQLite
stores them as-is), so numbers are `Int`.  JSON floats do not occur in the
claims and are not modelled.  String lowering models `str.lower` on ASCII,
which is the alphabet of every string the rules compare against.
-/

/-- The Python exception kinds that the embedded code can raise. -/
inductive PyError where
  | attributeError
  | typeError
  | keyError
  | valueError
deriving Repr, DecidableEq

/-- Python JSON values as produced by `json.load`: None, bool, int, str,
list, dict.  Dicts are association lists with first-match lookup. -/
inductive Json where
  | null
  | bool (b : Bool)
  | num (n : Int)
  | str (s : String)
  | arr (l : List Json)
  | obj (kvs : List (String × Json))

/-- A parsed top-level JSON record (the `data` dict). -/
abbrev PyDict := List (String × Json)

/-- Python truthiness of a JSON value. -/
def truthy : Json → Bool
  | .null => false
  | .bool b => b
  | .num n => n != 0
  | .str s => s != ""
  | .arr l => !l.isEmpty
  | .obj l => !l.isEmpty

/-- Python `x or d`: the left operand if truthy, otherwise the default. -/
def pyOr (j d : Json) : Json := if truthy j then j else d

/-- ASCII lowering of one character (models `str.lower` on the ASCII
strings this script compares against). -/
def lowerChar (c : Char) : Char :=
  if 'A' ≤ c ∧ c ≤ 'Z' then Char.ofNat (c.toNat + 32) else c

/-- ASCII lowering of a string. -/
def lowerStr (s : String) : String := String.mk (s.data.map lowerChar)

/-- Python `needle in hay` for strings: substring containment. -/
def strContains (hay needle : String) : Bool :=
  hay.data.tails.any (fun t => needle.data.isPrefixOf t)

/-- `data.get(k, d)` on the top-level dict (total: `data` is a dict). -/
def dGetD (data : PyDict) (k : String) (d : Json) : Json :=
  (List.lookup k data).getD d

/-- `data.get(k)` on the top-level dict; a missing key gives `None`. -/
def dGetN (data : PyDict) (k : String) : Json :=
  (List.lookup k data).getD .null

/-- `j.get(k, d)` on a JSON value: raises AttributeError unless `j` is a
dict. -/
def pyGetD (j : Json) (k : String) (d : Json) : Except PyError Json :=
  match j with
  | .obj kvs => .ok ((List.lookup k kvs).getD d)
  | _ => .error .attributeError

/-- `j.get(k)` on a JSON value: `None` when the key is absent; raises
AttributeError unless `j` is a dict. -/
def pyGetN (j : Json) (k : String) : Except PyError Json :=
  match j with
  | .obj kvs => .ok ((List.lookup k kvs).getD .null)
  | _ => .error .attributeError

/-- `data[k]` on the top-level dict: KeyError when absent. -/
def pyIdx (data : PyDict) (k : String) : Except PyError Json :=
  match List.lookup k data with
  | some v => .ok v
  | none => .error .keyError

/-- `j[k]` on a JSON value: KeyError when the key is absent, TypeError
unless `j` is a dict. -/
def pyIdxJ (j : Json) (k : String) : Except PyError Json :=
  match j with
  | .obj kvs =>
    match List.lookup k kvs with
    | some v => .ok v
    | none => .error .keyError
  | _ => .error .typeError

/-- `j.lower()`: raises AttributeError unless `j` is a string. -/
def pyLower (j : Json) : Except PyError String :=
  match j with
  | .str s => .ok (lowerStr s)
  | _ => .error .attributeError

/-- Coerce to a string for a string-method call such as `.replace`. -/
def pyStr (j : Json) : Except PyError String :=
  match j with
  | .str s => .ok s
  | _ => .error .attributeError

/-- `j.startswith(p)`: raises AttributeError unless `j` is a string. -/
def pyStartsWith (j : Json) (p : String) : Except PyError Bool :=
  match j with
  | .str s => .ok (p.data.isPrefixOf s.data)
  | _ => .error .attributeError

/-- `j.endswith(p)`: raises AttributeError unless `j` is a string. -/
def pyEndsWith (j : Json) (p : String) : Except PyError Bool :=
  match j with
  | .str s => .ok (p.data.isSuffixOf s.data)
  | _ => .error .attributeError

/-- Python `needle in j` for a string operand: TypeError unless `j` is a
string. -/
def pyContains (j : Json) (needle : String) : Except PyError Bool :=
  match j with
  | .str s => .ok (strContains s needle)
  | _ => .error .typeError

/-- Python `j == s` for a string literal: equality never raises and is
false across types. -/
def jEqStr (j : Json) (s : String) : Bool :=
  match j with
  | .str t => t == s
  | _ => false

/-- Python `j == m` for an int literal (`True == 1` in Python). -/
def jEqNum (j : Json) (m : Int) : Bool :=
  match j with
  | .num n => n == m
  | .bool b => (if b then (1 : Int) else 0) == m
  | _ => false

/-- ASCII whitespace, as stripped by `str.strip()` on the inputs in play. -/
def isWs (c : Char) : Bool :=
  c == ' ' || c == '\t' || c == '\n' || c == '\r'

/-- `str.strip()` on a character list. -/
def stripWs (l : List Char) : List Char :=
  ((l.dropWhile isWs).reverse.dropWhile isWs).reverse

/-- Digit run to a number, requiring a nonempty all-digit list. -/
def digitsToNat : List Char → Option Nat
  | [] => none
  | [c] => if c.isDigit then some (c.toNat - '0'.toNat) else none
  | c :: rest =>
    if c.isDigit then
      (digitsToNat rest).map (fun n => (c.toNat - '0'.toNat) * 10 ^ rest.length + n)
    else none

/-- Python `int(s)` on an ASCII numeral: strip whitespace, optional sign,
then digits; anything else raises ValueError (modelled as `none`). -/
def pyIntOfStr (s : String) : Option Int :=
  match stripWs s.data with
  | '+' :: ds => (digitsToNat ds).map Int.ofNat
  | '-' :: ds => (digitsToNat ds).map (fun n => -(n : Int))
  | ds => (digitsToNat ds).map Int.ofNat

/-- Python `int(j)`: ints pass through, bools coerce, strings parse
(ValueError on failure), everything else raises TypeError. -/
def pyInt (j : Json) : Except PyError Int :=
  match j with
  | .num n => .ok n
  | .bool b => .ok (if b then 1 else 0)
  | .str s =>
    match pyIntOfStr s with
    | some n => .ok n
    | none => .error .valueError
  | _ => .error .typeError

/-- `test_id.replace('Test ', '')`: delete every occurrence of the pattern,
scanning left to right without overlap. -/
def replTestSpace : List Char → List Char
  | 'T' :: 'e' :: 's' :: 't' :: ' ' :: rest => replTestSpace rest
  | c :: rest => c :: replTestSpace rest
  | [] => []

/-- CATSResultsParser.extract_test_number: `int(test_id.replace('Test ',
'').strip())`, with ValueError mapped to 0. -/
def extract_test_number (test_id : String) : Int :=
  match pyIntOfStr (String.mk (replTestSpace test_id.data)) with
  | some n => n
  | none => 0

/-! False-positive rule identifiers (class constants `FP_RULE_*`). -/

def FP_RULE_RATE_LIMIT : String := "RATE_LIMIT_429"
def FP_RULE_OAUTH_AUTH : String := "OAUTH_AUTH_401_403"
def FP_RULE_VALIDATION_400 : String := "VALIDATION_400"
def FP_RULE_NOT_FOUND_404 : String := "NOT_FOUND_404"
def FP_RULE_IDOR_ADMIN : String := "IDOR_ADMIN"
def FP_RULE_IDOR_LIST : String := "IDOR_LIST"
def FP_RULE_IDOR_OPTIONAL : String := "IDOR_OPTIONAL"
def FP_RULE_HTTP_METHODS : String := "HTTP_METHODS"
def FP_RULE_RESPONSE_CONTRACT : String := "RESPONSE_CONTRACT"
def FP_RULE_CONFLICT_409 : String := "CONFLICT_409"
def FP_RULE_CONTENT_TYPE_GO_HTTP : String := "CONTENT_TYPE_GO_HTTP"
def FP_RULE_INJECTION_JSON_API : String := "INJECTION_JSON_API"
def FP_RULE_XSS_QUERY_PARAMS : String := "XSS_QUERY_PARAMS"
def FP_RULE_HEADER_VALIDATION : String := "HEADER_VALIDATION_400"
def FP_RULE_LEADING_ZEROS : String := "LEADING_ZEROS_400"
def FP_RULE_CONNECTION_ERROR : String := "CONNECTION_ERROR_999"
def FP_RULE_STRING_BOUNDARY_OPTIONAL : String := "STRING_BOUNDARY_OPTIONAL"
def FP_RULE_TRANSFER_ENCODING : String := "TRANSFER_ENCODING_501"
def FP_RULE_DELETED_RESOURCE_LIST : String := "DELETED_RESOURCE_LIST"
def FP_RULE_FORM_URLENCODED_JSON_TEST : String := "FORM_URLENCODED_JSON_TEST"
def FP_RULE_DELETE_ME_CHALLENGE : String := "DELETE_ME_CHALLENGE"
def FP_RULE_ADMIN_SETTINGS_RESERVED : String := "ADMIN_SETTINGS_RESERVED"
def FP_RULE_PATH_PARAM_VALIDATION : String := "PATH_PARAM_VALIDATION"
def FP_RULE_EMPTY_BODY_REQUIRED : String := "EMPTY_BODY_REQUIRED_FIELDS"
def FP_RULE_EMPTY_PATH_PARAM : String := "EMPTY_PATH_PARAM_405"
def FP_RULE_EMPTY_JSON_BODY_NOT_FOUND : String := "EMPTY_JSON_BODY_NOT_FOUND"
def FP_RULE_STRING_BOUNDARY_EMPTY_PATH : String := "STRING_BOUNDARY_EMPTY_PATH"
def FP_RULE_NO_BODY_ENDPOINT : String := "NO_BODY_ENDPOINT"
def FP_RULE_SCHEMA_MISMATCH_VALID_ERROR : String := "SCHEMA_MISMATCH_VALID_ERROR"
def FP_RULE_SURVEY_VALIDATION_400 : String := "SURVEY_VALIDATION_400"
def FP_RULE_SURVEY_DELETE_CONFLICT_409 : String := "SURVEY_DELETE_CONFLICT_409"
def FP_RULE_JSONPATCH_INVALID_400 : String := "JSONPATCH_INVALID_400"
def FP_RULE_SURVEY_RESPONSE_VALIDATION_400 : String := "SURVEY_RESPONSE_VALIDATION_400"
def FP_RULE_METADATA_BULK_VALIDATION_400 : String := "METADATA_BULK_VALIDATION_400"
def FP_RULE_METADATA_LIST_RANDOM_200 : String := "METADATA_LIST_RANDOM_200"
def FP_RULE_SSRF_VALIDATION_400 : String := "SSRF_VALIDATION_400"
def FP_RULE_SURVEY_EXAMPLES_CONFLICT_409 : String := "SURVEY_EXAMPLES_CONFLICT_409"
def FP_RULE_SURVEY_METADATA_CONFLICT_409 : String := "SURVEY_METADATA_CONFLICT_409"
def FP_RULE_EMPTY_ARRAY_BODY_200 : String := "EMPTY_ARRAY_BODY_200"
def FP_RULE_SAML_ACS_NO_IDP : String := "SAML_ACS_NO_IDP"
def FP_RULE_SURVEY_RESPONSE_SCHEMA_ALLOF : String := "SURVEY_RESPONSE_SCHEMA_ALLOF"

/-! Keyword and fuzzer-name tables used by the rules. -/

/-- Rule 2 keyword list (`oauth_keywords`). -/
def oauth_keywords : List String :=
  ["unauthorized", "forbidden", "invalidtoken", "invalidgrant",
   "authenticationfailed", "authenticationerror", "authorizationerror",
   "invalid_token", "invalid_grant", "access_denied",
   "unexpected response code: 401", "unexpected response code: 403"]

/-- Rule 3 fuzzer list (`validation_fuzzers`). -/
def validation_fuzzers : List String :=
  ["ZeroWidthCharsInValuesFields", "ZeroWidthCharsInNamesFields",
   "HangulCharsInStringFields", "ArabicCharsInStringFields",
   "HangulFillerFields",
   "BidirectionalOverrideFields",
   "ZalgoTextInFields",
   "AbugidasInStringFields",
   "FullwidthBracketsFields",
   "SpecialCharsInStringFields", "ControlCharsInStringFields",
   "EmojisInStringFields", "TrailingSpacesInFields",
   "LeadingSpacesInFields", "OverflowArraySizeFields",
   "ExtremeNegativeNumbersInNumericFields", "ExtremePositiveNumbersInNumericFields",
   "VeryLargeStrings", "VeryLargeUnicodeStrings", "MalformedJson",
   "DuplicateKeysFields", "InvalidJsonInRequestBody",
   "NullValuesInFields", "EmptyStringsInFields",
   "SQLInjection", "XSSInjection", "PathTraversal"]

/-- Rule 3 fuzzer-name substring patterns. -/
def validation_name_patterns : List String :=
  ["injection", "overflow", "chars", "unicode", "malformed", "hangul",
   "zalgo", "bidirectional", "fullwidth", "abugida"]

/-- Rule 4 fuzzer list (`not_found_fuzzers`). -/
def not_found_fuzzers : List String :=
  ["RandomResourcesFuzzer", "InsecureDirectObjectReferences",
   "RandomForeignKeyReference", "NonExistentResource",
   "RandomResources",
   "AcceptLanguageHeaders",
   "CheckSecurityHeaders",
   "DuplicateHeaders",
   "ExtraHeaders",
   "HappyPath",
   "LargeNumberOfRandomAlphanumericHeaders",
   "NewFields",
   "InvalidReferencesFields",
   "ZeroWidthCharsInValuesFields",
   "HangulFillerFields",
   "AbugidasInStringFields",
   "FullwidthBracketsFields",
   "IterateThroughEnumValuesFields",
   "RemoveFields",
   "DefaultValuesInFields",
   "ExtremePositiveNumbersInIntegerFields",
   "ExtremeNegativeNumbersInIntegerFields",
   "IntegerFieldsRightBoundary",
   "LeadingSpacesInHeaders",
   "MaxLengthExactValuesInStringFields",
   "TrailingSpacesInHeaders",
   "EmptyStringsInFields",
   "ExamplesFields",
   "MaximumExactNumbersInNumericFields",
   "MinLengthExactValuesInStringFields",
   "MinimumExactNumbersInNumericFields",
   "NullValuesInFields",
   "RemoveHeaders",
   "StringFieldsLeftBoundary",
   "StringFieldsRightBoundary",
   "VeryLargeStringsInFields"]

/-- Rule 4 response-body vocabulary (`legitimate_not_found_messages`). -/
def legitimate_not_found_messages : List String :=
  ["not found",
   "add-on not found",
   "invocation not found",
   "user not found",
   "group not found",
   "webhook not found",
   "threat model not found",
   "diagram not found",
   "document not found",
   "threat not found",
   "not defined in the api specification"]

/-- Rule 4b list-endpoint paths (`list_endpoints`). -/
def list_endpoints : List String :=
  ["/addons", "/invocations", "/webhooks", "/threat_models",
   "/webhooks/subscriptions"]

/-- Rule 6 fuzzer list (`contract_fuzzers`). -/
def contract_fuzzers : List String :=
  ["ResponseHeadersMatchContractHeaders",
   "ResponseContentTypeMatchesContract"]

/-- Rule 9 fuzzer list (`injection_fuzzers`). -/
def injection_fuzzers : List String :=
  ["XssInjectionInStringFields",
   "NoSqlInjectionInStringFields",
   "CommandInjectionInStringFields",
   "SqlInjectionInStringFields"]

/-- Rule 10 fuzzer list (`header_validation_fuzzers`). -/
def header_validation_fuzzers : List String :=
  ["AcceptLanguageHeaders",
   "UnsupportedContentTypesHeaders",
   "DummyContentLengthHeaders",
   "LargeNumberOfRandomAlphanumericHeaders",
   "DuplicateHeaders",
   "ExtraHeaders"]

/-- Rule 17 path patterns, paired with their `rstrip('/')` forms, which the
source computes inline (`list_patterns`). -/
def deleted_resource_list_patterns : List (String × String) :=
  [("/me/client_credentials", "/me/client_credentials"),
   ("/admin/quotas/users/", "/admin/quotas/users"),
   ("/admin/quotas/addons/", "/admin/quotas/addons"),
   ("/admin/quotas/webhooks/", "/admin/quotas/webhooks")]

/-- Rule 19 fuzzer list (`json_validation_fuzzers`). -/
def json_validation_fuzzers : List String :=
  ["MalformedJson", "DuplicateKeysFields", "RandomDummyInvalidJsonBody"]

/-- Rule 25 vocabulary (`not_found_phrases`). -/
def not_found_phrases : List String :=
  ["not found", "does not exist", "no such"]

/-- The apostrophe character, for building the source's literal
"doesn't match the regular expression". -/
def apos : String := String.singleton (Char.ofNat 39)

/-- The source's path-parameter error fragment with an apostrophe. -/
def doesnt_match_regex_msg : String :=
  "doesn" ++ apos ++ "t match the regular expression"

/-- The local variables bound at the top of `detect_false_positive` before
any rule runs.  `response_code` and `fuzzer` stay raw JSON values (the
source only compares them or lowers `fuzzer` later); the four text fields
are strings by the time the rules see them. -/
structure Ctx where
  data : PyDict
  response_code : Json
  result_reason : String
  result_details : String
  result : String
  fuzzer : Json
  scenario : String

/-- Result of one rule block: `some (flag, rule)` when the block returns,
`none` when control falls through to the next block. -/
abbrev RuleR := Except PyError (Option (Bool × Option String))

/-- Rule 1: rate limiting (HTTP 429) is infrastructure protection. -/
def fpRule1 (c : Ctx) : RuleR :=
  if jEqNum c.response_code 429 then .ok (some (true, some FP_RULE_RATE_LIMIT))
  else .ok none

/-- Rule 2: expected auth failures (401/403) with auth vocabulary in the
reason or details text. -/
def fpRule2 (c : Ctx) : RuleR :=
  if jEqNum c.response_code 401 || jEqNum c.response_code 403 then
    let text_to_check := c.result_reason ++ " " ++ c.result_details
    if oauth_keywords.any (fun k => strContains text_to_check k) then
      .ok (some (true, some FP_RULE_OAUTH_AUTH))
    else .ok none
  else .ok none

/-- Rule 3: 400 from fuzzers that intentionally send malformed data, by
exact fuzzer name or by name pattern (the pattern check lowercases the raw
fuzzer value and so raises on a non-string fuzzer). -/
def fpRule3 (c : Ctx) : RuleR := do
  if jEqNum c.response_code 400 then
    if validation_fuzzers.any (fun v => jEqStr c.fuzzer v) then
      return some (true, some FP_RULE_VALIDATION_400)
    let fuzzer_lower ← pyLower c.fuzzer
    if validation_name_patterns.any (fun p => strContains fuzzer_lower p) then
      return some (true, some FP_RULE_VALIDATION_400)
    return none
  else
    return none

/-- Rule 4: expected 404s — by fuzzer name, by reason text, or by known
not-found vocabulary in the response body or the details. -/
def fpRule4 (c : Ctx) : RuleR := do
  if jEqNum c.response_code 404 then
    if not_found_fuzzers.any (fun v => jEqStr c.fuzzer v) then
      return some (true, some FP_RULE_NOT_FOUND_404)
    if strContains c.result_reason "unexpected response code: 404" then
      return some (true, some FP_RULE_NOT_FOUND_404)
    let rb ← pyGetN (dGetD c.data "response" (.obj [])) "responseBody"
    let response_body ← pyLower (pyOr rb (.str ""))
    if legitimate_not_found_messages.any (fun m => strContains response_body m) then
      return some (true, some FP_RULE_NOT_FOUND_404)
    if legitimate_not_found_messages.any (fun m => strContains c.result_details m) then
      return some (true, some FP_RULE_NOT_FOUND_404)
    return none
  else
    return none

/-- Rule 4b helper: `any(path == ep or path.startswith(ep + '?') or
path.startswith(ep + '/') for ep in list_endpoints)` with Python's
short-circuit order. -/
def anyEndpointMatch (path : Json) : List String → Except PyError Bool
  | [] => .ok false
  | ep :: rest => do
    if jEqStr path ep then
      return true
    if (← pyStartsWith path (ep ++ "?")) then
      return true
    if (← pyStartsWith path (ep ++ "/")) then
      return true
    anyEndpointMatch path rest

/-- Rule 4b: IDOR exemptions for admin endpoints, list endpoints, and
optional association fields. -/
def fpRule4b (c : Ctx) : RuleR := do
  if jEqStr c.fuzzer "InsecureDirectObjectReferences" then
    let path := dGetD c.data "path" (.str "")
    let request_method ← pyGetD (dGetD c.data "request" (.obj [])) "httpMethod" (.str "")
    if (← pyStartsWith path "/admin/") then
      return some (true, some FP_RULE_IDOR_ADMIN)
    if (← pyStartsWith path "/addons/") && jEqStr request_method "DELETE" then
      return some (true, some FP_RULE_IDOR_ADMIN)
    if jEqNum c.response_code 200 && jEqStr request_method "GET" then
      if (← anyEndpointMatch path list_endpoints) then
        return some (true, some FP_RULE_IDOR_LIST)
      if strContains (← pyLower path) "list" then
        return some (true, some FP_RULE_IDOR_LIST)
    if (jEqNum c.response_code 200 || jEqNum c.response_code 201 || jEqNum c.response_code 204)
        && (jEqStr request_method "POST" || jEqStr request_method "PUT") then
      if ["threat_model_id", "webhook_id", "addon_id"].any
          (fun f => strContains c.scenario f) then
        return some (true, some FP_RULE_IDOR_OPTIONAL)
    return none
  else
    return none

/-- Rule 5: unsupported HTTP methods correctly rejected with 400/405. -/
def fpRule5 (c : Ctx) : RuleR :=
  if ["HttpMethods", "NonRestHttpMethods", "CustomHttpMethods"].any
      (fun v => jEqStr c.fuzzer v) then
    if jEqNum c.response_code 400 || jEqNum c.response_code 405 then
      .ok (some (true, some FP_RULE_HTTP_METHODS))
    else .ok none
  else .ok none

/-- Rule 6: response-contract fuzzers are always classified as contract
mismatches. -/
def fpRule6 (c : Ctx) : RuleR :=
  if contract_fuzzers.any (fun v => jEqStr c.fuzzer v) then
    .ok (some (true, some FP_RULE_RESPONSE_CONTRACT))
  else .ok none

/-- Rule 7: 409 on POST /admin/groups is a duplicate-name conflict. -/
def fpRule7 (c : Ctx) : RuleR := do
  if jEqNum c.response_code 409 then
    let path := dGetD c.data "path" (.str "")
    let request_method ← pyGetD (dGetD c.data "request" (.obj [])) "httpMethod" (.str "")
    if jEqStr path "/admin/groups" && jEqStr request_method "POST" then
      return some (true, some FP_RULE_CONFLICT_409)
    return none
  else
    return none

/-- Rule 8: Go HTTP layer text/plain 400 flagged as a content-type
mismatch. -/
def fpRule8 (c : Ctx) : RuleR := do
  if strContains c.result_reason "content type not matching"
      || strContains c.result_details "content type not matching" then
    let response_content_type ←
      pyGetD (dGetD c.data "response" (.obj [])) "responseContentType" (.str "")
    if (← pyStartsWith response_content_type "text/plain") && jEqNum c.response_code 400 then
      return some (true, some FP_RULE_CONTENT_TYPE_GO_HTTP)
    return none
  else
    return none

/-- Rule 9: injection findings on a pure JSON API (reflection or storage is
not execution). -/
def fpRule9 (c : Ctx) : RuleR :=
  if injection_fuzzers.any (fun v => jEqStr c.fuzzer v) then
    if strContains (lowerStr c.result_reason) "reflected"
        || strContains (lowerStr c.result_reason) "potential" then
      .ok (some (true, some FP_RULE_INJECTION_JSON_API))
    else if jEqStr c.fuzzer "NoSqlInjectionInStringFields" then
      if strContains (lowerStr c.result_reason) "detected"
          || strContains (lowerStr c.result_reason) "vulnerability" then
        .ok (some (true, some FP_RULE_INJECTION_JSON_API))
      else .ok none
    else .ok none
  else .ok none

/-- Rule 9b: XSS on query parameters of a JSON API. -/
def fpRule9b (c : Ctx) : RuleR := do
  if jEqStr c.fuzzer "XssInjectionInStringFields" then
    let request_method ← pyGetD (dGetD c.data "request" (.obj [])) "httpMethod" (.str "")
    if jEqStr request_method "GET" then
      return some (true, some FP_RULE_XSS_QUERY_PARAMS)
    if c.result == "warn" then
      return some (true, some FP_RULE_XSS_QUERY_PARAMS)
    return none
  else
    return none

/-- Rule 10: malformed headers correctly rejected with 400. -/
def fpRule10 (c : Ctx) : RuleR :=
  if header_validation_fuzzers.any (fun v => jEqStr c.fuzzer v) then
    if jEqNum c.response_code 400 then
      .ok (some (true, some FP_RULE_HEADER_VALIDATION))
    else .ok none
  else .ok none

/-- Rule 13 (source order: after rule 10): leading-zero numerals correctly
rejected with 400. -/
def fpRule13 (c : Ctx) : RuleR :=
  if jEqStr c.fuzzer "PrefixNumbersWithZeroFields" then
    if jEqNum c.response_code 400 then
      .ok (some (true, some FP_RULE_LEADING_ZEROS))
    else .ok none
  else .ok none

/-- Rule 15: response code 999 is a connection error, not an API bug. -/
def fpRule15 (c : Ctx) : RuleR :=
  if jEqNum c.response_code 999 then
    .ok (some (true, some FP_RULE_CONNECTION_ERROR))
  else .ok none

/-- Rule 16: StringFieldsLeftBoundary succeeding on an optional field.  The
first disjunct compares an uppercase needle against the lowercased scenario
exactly as the source does. -/
def fpRule16 (c : Ctx) : RuleR :=
  if jEqStr c.fuzzer "StringFieldsLeftBoundary" then
    if jEqNum c.response_code 200 || jEqNum c.response_code 201
        || jEqNum c.response_code 204 then
      if strContains (lowerStr c.scenario) "is required [FALSE]"
          || strContains c.scenario "is required [false]" then
        .ok (some (true, some FP_RULE_STRING_BOUNDARY_OPTIONAL))
      else .ok none
    else .ok none
  else .ok none

/-- Rule 12 (source order: after rule 16): 501 for unsupported transfer
encodings. -/
def fpRule12 (c : Ctx) : RuleR := do
  if jEqNum c.response_code 501 then
    if jEqStr c.fuzzer "DummyTransferEncodingHeaders" then
      return some (true, some FP_RULE_TRANSFER_ENCODING)
    let rb ← pyGetN (dGetD c.data "response" (.obj [])) "responseBody"
    let response_body ← pyLower (pyOr rb (.str ""))
    if strContains response_body "unsupported transfer encoding" then
      return some (true, some FP_RULE_TRANSFER_ENCODING)
    if strContains (lowerStr c.result_reason) "transfer encoding" then
      return some (true, some FP_RULE_TRANSFER_ENCODING)
    return none
  else
    return none

/-- Rule 17 helper: `any(path.startswith(pattern) or path ==
pattern.rstrip('/') for pattern in list_patterns)`. -/
def anyDeletedListMatch (path : Json) : List (String × String) → Except PyError Bool
  | [] => .ok false
  | (pat, patStripped) :: rest => do
    if (← pyStartsWith path pat) then
      return true
    if jEqStr path patStripped then
      return true
    anyDeletedListMatch path rest

/-- Rule 17: deleted-resource checks against list endpoints that correctly
return 200 with an empty result. -/
def fpRule17 (c : Ctx) : RuleR := do
  if jEqStr c.fuzzer "CheckDeletedResourcesNotAvailable" then
    let path := dGetD c.data "path" (.str "")
    if (← anyDeletedListMatch path deleted_resource_list_patterns) then
      return some (true, some FP_RULE_DELETED_RESOURCE_LIST)
    return none
  else
    return none

/-- Rule 19 helper: the header scan that finds the request Content-Type
(first matching header wins, Python `break`). -/
def findContentType : List Json → Except PyError String
  | [] => .ok ""
  | h :: t => do
    let k ← pyGetD h "key" (.str "")
    if (← pyLower k) == "content-type" then
      pyLower (← pyGetD h "value" (.str ""))
    else
      findContentType t

/-- Rule 19: JSON-validation fuzzers against form-urlencoded endpoints.  A
truthy non-list `headers` value raises when Python iterates or subscripts
it, which the non-`arr` branch models. -/
def fpRule19 (c : Ctx) : RuleR := do
  if json_validation_fuzzers.any (fun v => jEqStr c.fuzzer v) then
    let raw ← pyGetN (dGetD c.data "request" (.obj [])) "headers"
    let content_type ←
      match pyOr raw (.arr []) with
      | .arr l => findContentType l
      | _ => .error .typeError
    if strContains content_type "application/x-www-form-urlencoded" then
      return some (true, some FP_RULE_FORM_URLENCODED_JSON_TEST)
    return none
  else
    return none

/-- Rule 20: DELETE /me without the two-step challenge correctly gets
400. -/
def fpRule20 (c : Ctx) : RuleR := do
  if jEqNum c.response_code 400 then
    let path := dGetD c.data "path" (.str "")
    let request_method ← pyGetD (dGetD c.data "request" (.obj [])) "httpMethod" (.str "")
    if jEqStr path "/me" && jEqStr request_method "DELETE" then
      return some (true, some FP_RULE_DELETE_ME_CHALLENGE)
    return none
  else
    return none

/-- Rule 21: reserved admin-settings keys correctly rejected with 400. -/
def fpRule21 (c : Ctx) : RuleR := do
  if jEqNum c.response_code 400 then
    let path := dGetD c.data "path" (.str "")
    let rb ← pyGetN (dGetD c.data "response" (.obj [])) "responseBody"
    let response_body ← pyLower (pyOr rb (.str ""))
    if (← pyStartsWith path "/admin/settings/") && strContains response_body "reserved" then
      return some (true, some FP_RULE_ADMIN_SETTINGS_RESERVED)
    if (← pyStartsWith path "/admin/settings/") && strContains c.result_details "reserved" then
      return some (true, some FP_RULE_ADMIN_SETTINGS_RESERVED)
    return none
  else
    return none

/-- Rule 22: path-parameter regex mismatches reported by the OpenAPI
filter. -/
def fpRule22 (c : Ctx) : RuleR := do
  if jEqNum c.response_code 400 then
    let jb ← pyGetN (dGetD c.data "response" (.obj [])) "jsonBody"
    let json_body := pyOr jb (.obj [])
    let ed ← pyGetN json_body "error_description"
    let error_desc ← pyLower (pyOr ed (.str ""))
    if strContains error_desc "openapi3filter.requesterror: parameter"
        && strContains error_desc doesnt_match_regex_msg then
      return some (true, some FP_RULE_PATH_PARAM_VALIDATION)
    let rb ← pyGetN (dGetD c.data "response" (.obj [])) "responseBody"
    let response_body ← pyLower (pyOr rb (.str ""))
    if strContains response_body "parameter"
        && strContains response_body doesnt_match_regex_msg then
      return some (true, some FP_RULE_PATH_PARAM_VALIDATION)
    return none
  else
    return none

/-- Rule 23: EmptyJsonBody with missing required properties correctly gets
400. -/
def fpRule23 (c : Ctx) : RuleR := do
  if jEqStr c.fuzzer "EmptyJsonBody" && jEqNum c.response_code 400 then
    let jb ← pyGetN (dGetD c.data "response" (.obj [])) "jsonBody"
    let json_body := pyOr jb (.obj [])
    let ed ← pyGetN json_body "error_description"
    let error_desc ← pyLower (pyOr ed (.str ""))
    if strContains error_desc "property" && strContains error_desc "is missing" then
      return some (true, some FP_RULE_EMPTY_BODY_REQUIRED)
    if strContains error_desc "is required" then
      return some (true, some FP_RULE_EMPTY_BODY_REQUIRED)
    let rb ← pyGetN (dGetD c.data "response" (.obj [])) "responseBody"
    let response_body ← pyLower (pyOr rb (.str ""))
    if strContains response_body "property" && strContains response_body "is missing" then
      return some (true, some FP_RULE_EMPTY_BODY_REQUIRED)
    if strContains response_body "is required" then
      return some (true, some FP_RULE_EMPTY_BODY_REQUIRED)
    return none
  else
    return none

/-- Rule 24: RandomResources with an empty final path segment routed to a
405. -/
def fpRule24 (c : Ctx) : RuleR := do
  if jEqStr c.fuzzer "RandomResources" && jEqNum c.response_code 405 then
    let url ← pyGetD (dGetD c.data "request" (.obj [])) "url" (.str "")
    if (← pyEndsWith url "/") then
      return some (true, some FP_RULE_EMPTY_PATH_PARAM)
    if (← pyContains url "//") then
      return some (true, some FP_RULE_EMPTY_PATH_PARAM)
    return none
  else
    return none

/-- Rule 25: EmptyJsonBody against a random UUID correctly gets 404. -/
def fpRule25 (c : Ctx) : RuleR := do
  if jEqStr c.fuzzer "EmptyJsonBody" && jEqNum c.response_code 404 then
    let jb ← pyGetN (dGetD c.data "response" (.obj [])) "jsonBody"
    let json_body := pyOr jb (.obj [])
    let ed ← pyGetN json_body "error_description"
    let error_desc ← pyLower (pyOr ed (.str ""))
    if not_found_phrases.any (fun p => strContains error_desc p) then
      return some (true, some FP_RULE_EMPTY_JSON_BODY_NOT_FOUND)
    if strContains c.result_reason "not found" then
      return some (true, some FP_RULE_EMPTY_JSON_BODY_NOT_FOUND)
    return none
  else
    return none

/-- Rule 26: StringFieldsLeftBoundary emptying a path parameter so a
different route answers with 200/405. -/
def fpRule26 (c : Ctx) : RuleR := do
  if jEqStr c.fuzzer "StringFieldsLeftBoundary" then
    let url ← pyGetD (dGetD c.data "request" (.obj [])) "url" (.str "")
    let ends ← pyEndsWith url "/"
    let doubled ← if ends then pure true else pyContains url "//"
    if doubled then
      if jEqNum c.response_code 200 || jEqNum c.response_code 405 then
        return some (true, some FP_RULE_STRING_BOUNDARY_EMPTY_PATH)
    return none
  else
    return none

/-- Rule 27: endpoints that do not accept a request body correctly return
400. -/
def fpRule27 (c : Ctx) : RuleR := do
  if jEqNum c.response_code 400 then
    let jb ← pyGetN (dGetD c.data "response" (.obj [])) "jsonBody"
    let json_body := pyOr jb (.obj [])
    let ed ← pyGetN json_body "error_description"
    let error_desc ← pyLower (pyOr ed (.str ""))
    if strContains error_desc "does not accept a request body" then
      return some (true, some FP_RULE_NO_BODY_ENDPOINT)
    let rb ← pyGetN (dGetD c.data "response" (.obj [])) "responseBody"
    let response_body_text ← pyLower (pyOr rb (.str ""))
    if strContains response_body_text "does not accept a request body" then
      return some (true, some FP_RULE_NO_BODY_ENDPOINT)
    return none
  else
    return none

/-- Rule 28: survey create/update endpoints correctly rejecting fuzzed
payloads with 400. -/
def fpRule28 (c : Ctx) : RuleR := do
  if jEqNum c.response_code 400 then
    let path := dGetD c.data "path" (.str "")
    let request_method ← pyGetD (dGetD c.data "request" (.obj [])) "httpMethod" (.str "")
    if (← pyContains path "/admin/surveys")
        && (jEqStr request_method "POST" || jEqStr request_method "PUT") then
      if strContains c.result_reason "unexpected response code" then
        return some (true, some FP_RULE_SURVEY_VALIDATION_400)
    return none
  else
    return none

/-- Rule 29: DELETE on a survey with responses correctly gets 409. -/
def fpRule29 (c : Ctx) : RuleR := do
  if jEqNum c.response_code 409 then
    let path := dGetD c.data "path" (.str "")
    let request_method ← pyGetD (dGetD c.data "request" (.obj [])) "httpMethod" (.str "")
    if (← pyContains path "/admin/surveys/") && jEqStr request_method "DELETE" then
      return some (true, some FP_RULE_SURVEY_DELETE_CONFLICT_409)
    return none
  else
    return none

/-- Rule 30: PATCH endpoints correctly rejecting malformed JSON Patch with
400. -/
def fpRule30 (c : Ctx) : RuleR := do
  if jEqNum c.response_code 400 then
    let request_method ← pyGetD (dGetD c.data "request" (.obj [])) "httpMethod" (.str "")
    if jEqStr request_method "PATCH" then
      if strContains c.result_reason "unexpected response code" then
        return some (true, some FP_RULE_JSONPATCH_INVALID_400)
    return none
  else
    return none

/-- Rule 31: survey-response endpoints correctly rejecting fuzzed input
with 400. -/
def fpRule31 (c : Ctx) : RuleR := do
  if jEqNum c.response_code 400 then
    let path := dGetD c.data "path" (.str "")
    let request_method ← pyGetD (dGetD c.data "request" (.obj [])) "httpMethod" (.str "")
    if (← pyContains path "/survey_responses")
        && (jEqStr request_method "POST" || jEqStr request_method "PUT") then
      if strContains c.result_reason "unexpected response code" then
        return some (true, some FP_RULE_SURVEY_RESPONSE_VALIDATION_400)
    return none
  else
    return none

/-- Rule 32: bulk metadata endpoints correctly rejecting malformed payloads
with 400. -/
def fpRule32 (c : Ctx) : RuleR := do
  if jEqNum c.response_code 400 then
    let path := dGetD c.data "path" (.str "")
    if (← pyContains path "/metadata/bulk") then
      if strContains c.result_reason "unexpected response code" then
        return some (true, some FP_RULE_METADATA_BULK_VALIDATION_400)
    return none
  else
    return none

/-- Rule 33: GET on a metadata list of a random parent correctly returns
200 with an empty array. -/
def fpRule33 (c : Ctx) : RuleR := do
  if jEqNum c.response_code 200 && jEqStr c.fuzzer "RandomResources" then
    let path := dGetD c.data "path" (.str "")
    let request_method ← pyGetD (dGetD c.data "request" (.obj [])) "httpMethod" (.str "")
    if (← pyContains path "/metadata") && jEqStr request_method "GET" then
      return some (true, some FP_RULE_METADATA_LIST_RANDOM_200)
    return none
  else
    return none

/-- Python key membership `k in dict` on a JSON object. -/
def objHasKey (kvs : List (String × Json)) (k : String) : Bool :=
  (List.lookup k kvs).isSome

/-- Rule 34: schema-mismatch warnings whose body is in fact a valid Error
shape (guarded by `isinstance(json_body, dict)` in the source). -/
def fpRule34 (c : Ctx) : RuleR := do
  if c.result == "warn" && strContains c.result_reason "not matching response schema" then
    let jb ← pyGetN (dGetD c.data "response" (.obj [])) "jsonBody"
    let json_body := pyOr jb (.obj [])
    match json_body with
    | .obj kvs =>
      if objHasKey kvs "error" && objHasKey kvs "error_description" then
        return some (true, some FP_RULE_SCHEMA_MISMATCH_VALID_ERROR)
      if objHasKey kvs "error" && jEqNum c.response_code 400 then
        return some (true, some FP_RULE_SCHEMA_MISMATCH_VALID_ERROR)
      if jEqStr ((List.lookup "notAJson" kvs).getD .null) "400 Bad Request" then
        return some (true, some FP_RULE_SCHEMA_MISMATCH_VALID_ERROR)
      return none
    | _ => return none
  else
    return none

/-- Rule 35: SSRF fuzzers whose payload is only echoed inside a 400
validation message. -/
def fpRule35 (c : Ctx) : RuleR :=
  if (jEqStr c.fuzzer "SSRFInUrlFields" || jEqStr c.fuzzer "SsrfInjectionInStringFields")
      && jEqNum c.response_code 400 then
    .ok (some (true, some FP_RULE_SSRF_VALIDATION_400))
  else .ok none

/-- Rule 36: ExamplesFields survey create colliding with seed data (409). -/
def fpRule36 (c : Ctx) : RuleR := do
  if jEqNum c.response_code 409 && jEqStr c.fuzzer "ExamplesFields" then
    let path := dGetD c.data "path" (.str "")
    if (← pyContains path "/admin/surveys") then
      return some (true, some FP_RULE_SURVEY_EXAMPLES_CONFLICT_409)
    return none
  else
    return none

/-- Rule 37: survey metadata POST colliding with seeded keys (409). -/
def fpRule37 (c : Ctx) : RuleR := do
  if jEqNum c.response_code 409 then
    let path := dGetD c.data "path" (.str "")
    let request_method ← pyGetD (dGetD c.data "request" (.obj [])) "httpMethod" (.str "")
    if (← pyContains path "/admin/surveys/") then
      if (← pyContains path "/metadata") && jEqStr request_method "POST" then
        return some (true, some FP_RULE_SURVEY_METADATA_CONFLICT_409)
    return none
  else
    return none

/-- Rule 38: an empty JSON array body is a correct no-op 200. -/
def fpRule38 (c : Ctx) : RuleR :=
  if jEqStr c.fuzzer "EmptyJsonArrayBody" && jEqNum c.response_code 200 then
    .ok (some (true, some FP_RULE_EMPTY_ARRAY_BODY_200))
  else .ok none

/-- Rule 39: /saml/acs returns 400 because no real IdP is configured. -/
def fpRule39 (c : Ctx) : RuleR :=
  if jEqNum c.response_code 400 then
    if jEqStr (dGetD c.data "path" (.str "")) "/saml/acs" then
      .ok (some (true, some FP_RULE_SAML_ACS_NO_IDP))
    else .ok none
  else .ok none

/-- Rule 40: survey-response schema warnings caused by allOf+nullable. -/
def fpRule40 (c : Ctx) : RuleR := do
  if c.result == "warn" && strContains c.result_reason "not matching response schema" then
    let path := dGetD c.data "path" (.str "")
    if (← pyContains path "/survey_responses") then
      let jb ← pyGetN (dGetD c.data "response" (.obj [])) "jsonBody"
      let json_body := pyOr jb (.obj [])
      match json_body with
      | .obj kvs =>
        if objHasKey kvs "id" && objHasKey kvs "survey_id" then
          return some (true, some FP_RULE_SURVEY_RESPONSE_SCHEMA_ALLOF)
        return none
      | _ => return none
    return none
  else
    return none

/-- First-match evaluation of the rule blocks: an error in an earlier block
masks later blocks, exactly as sequential Python statements do. -/
def runRules : List RuleR → RuleR
  | [] => .ok none
  | e :: rest =>
    match e with
    | .error err => .error err
    | .ok (some r) => .ok (some r)
    | .ok none => runRules rest

/-- The return of `detect_false_positive` after the rule blocks ran: a
matching rule's pair is returned as-is, falling off the end returns
`(False, None)`, and a raised exception propagates. -/
def detectTail (e : RuleR) : Except PyError (Bool × Option String) :=
  match e with
  | .error err => .error err
  | .ok (some p) => .ok p
  | .ok none => .ok (false, none)

/-- The rule blocks of `detect_false_positive` in the source's textual
order. -/
def allRules (c : Ctx) : List RuleR :=
  [fpRule1 c, fpRule2 c, fpRule3 c, fpRule4 c, fpRule4b c, fpRule5 c,
   fpRule6 c, fpRule7 c, fpRule8 c, fpRule9 c, fpRule9b c, fpRule10 c,
   fpRule13 c, fpRule15 c, fpRule16 c, fpRule12 c, fpRule17 c,
   fpRule19 c, fpRule20 c, fpRule21 c, fpRule22 c, fpRule23 c,
   fpRule24 c, fpRule25 c, fpRule26 c, fpRule27 c, fpRule28 c,
   fpRule29 c, fpRule30 c, fpRule31 c, fpRule32 c, fpRule33 c,
   fpRule34 c, fpRule35 c, fpRule36 c, fpRule37 c, fpRule38 c,
   fpRule39 c, fpRule40 c]

/-- CATSResultsParser.detect_false_positive.  The prelude binds the local
variables in source order (each `.lower()` can raise), success results
short-circuit to `(False, None)`, and the rule blocks run in the source's
textual order with first-match-wins. -/
def detect_false_positive (data : PyDict) : Except PyError (Bool × Option String) := do
  let response_code ← pyGetD (dGetD data "response" (.obj [])) "responseCode" (.num 0)
  let result_reason ← pyLower (pyOr (dGetN data "resultReason") (.str ""))
  let result_details ← pyLower (pyOr (dGetN data "resultDetails") (.str ""))
  let result ← pyLower (dGetD data "result" (.str ""))
  let fuzzer := dGetD data "fuzzer" (.str "")
  let scenario ← pyLower (pyOr (dGetN data "scenario") (.str ""))
  if !(result == "error" || result == "warn") then
    return (false, none)
  else
    detectTail (runRules (allRules
      ⟨data, response_code, result_reason, result_details, result, fuzzer, scenario⟩))

/-! Ingestion pipeline: parse_json_file, insert_test_record (its pure
row-building content), the batching loop of process_directory, and main. -/

/-- The required top-level fields checked by `parse_json_file`. -/
def required_fields : List String :=
  ["testId", "traceId", "scenario", "expectedResult",
   "result", "fuzzer", "path", "server", "request", "response"]

/-- CATSResultsParser.parse_json_file on an already-decoded document:
`none` models a JSON decode error (or unreadable file), and a document
missing a required field is rejected.  Both outcomes make the caller skip
the file. -/
def parse_json_file (content : Option PyDict) : Option PyDict :=
  match content with
  | none => none
  | some data =>
    if (required_fields.filter (fun f => !(List.lookup f data).isSome)).isEmpty then
      some data
    else
      none

/-- The logical content of one ingested test (the `tests` row joined with
its request/response rows and headers, with dimension references given by
their natural keys instead of surrogate ids). -/
structure Row where
  test_id : Json
  test_number : Int
  trace_id : Json
  scenario : Json
  expected_result : Json
  result : Json
  fuzzer : Json
  server : Json
  path : Json
  contract_path : Json
  result_reason : Json
  result_details : Json
  source_file : String
  is_false_positive : Nat
  fp_rule : Option String
  req_method : Json
  req_url : Json
  req_timestamp : Json
  resp_method : Json
  response_code : Json
  response_time_ms : Int
  num_words : Int
  num_lines : Int
  content_length_bytes : Int
  response_content_type : Json
  req_headers : List (Json × Json)
  resp_headers : List (Json × Json)

/-- Element-wise part of `buildHeaders`. -/
def buildHeadersList : List Json → Except PyError (List (Json × Json))
  | [] => .ok []
  | h :: t => do
    let k ← pyIdxJ h "key"
    let v ← pyIdxJ h "value"
    let rest ← buildHeadersList t
    return (k, v) :: rest

/-- Header rows built by `insert_test_record`'s comprehension over
`headers or []`: each element must subscript as `h['key']`, `h['value']`. -/
def buildHeaders : Json → Except PyError (List (Json × Json))
  | .arr l => buildHeadersList l
  | _ => .error .typeError

/-- CATSResultsParser.insert_test_record, restricted to its pure content:
the field accesses, coercions, test-number extraction and classification
that determine the inserted rows, in source order.  A raised exception
anywhere gives `.error` and the record contributes no rows (the real code
would leave any rows already added to the open transaction pending; no
claim observes that partial state). -/
def buildRow (data : PyDict) (source_file : String) : Except PyError Row := do
  let result ← pyIdx data "result"
  let fuzzer ← pyIdx data "fuzzer"
  let server ← pyIdx data "server"
  let path ← pyIdx data "path"
  let contract_path := dGetD data "contractPath" (.str "")
  let test_number := extract_test_number (← pyStr (← pyIdx data "testId"))
  let fp ← detect_false_positive data
  let testId ← pyIdx data "testId"
  let traceId ← pyIdx data "traceId"
  let scenario ← pyIdx data "scenario"
  let expectedResult ← pyIdx data "expectedResult"
  let request ← pyIdx data "request"
  let req_method ← pyIdxJ request "httpMethod"
  let req_url ← pyIdxJ request "url"
  let req_timestamp ← pyGetD request "timestamp" (.str "")
  let response ← pyIdx data "response"
  let resp_method ← pyIdxJ response "httpMethod"
  let response_code ← pyIdxJ response "responseCode"
  let response_time_ms ← pyInt (pyOr (← pyGetD response "responseTimeInMs" (.num 0)) (.num 0))
  let num_words ← pyInt (pyOr (← pyGetD response "numberOfWordsInResponse" (.num 0)) (.num 0))
  let num_lines ← pyInt (pyOr (← pyGetD response "numberOfLinesInResponse" (.num 0)) (.num 0))
  let content_length_bytes ← pyInt (pyOr (← pyGetD response "contentLengthInBytes" (.num 0)) (.num 0))
  let response_content_type ← pyGetN response "responseContentType"
  let req_headers ← buildHeaders (pyOr (← pyGetN request "headers") (.arr []))
  let resp_headers ← buildHeaders (pyOr (← pyGetN response "headers") (.arr []))
  return { test_id := testId, test_number, trace_id := traceId, scenario,
           expected_result := expectedResult, result, fuzzer, server, path,
           contract_path,
           result_reason := dGetN data "resultReason",
           result_details := dGetN data "resultDetails",
           source_file,
           is_false_positive := if fp.1 then 1 else 0,
           fp_rule := fp.2,
           req_method, req_url, req_timestamp, resp_method, response_code,
           response_time_ms, num_words, num_lines, content_length_bytes,
           response_content_type, req_headers, resp_headers }

/-- One input file as the pipeline sees it: its stem (glob name without the
.json suffix), its decoded content (`none` when JSON decoding fails), and
an environment oracle saying whether the store raises while this record's
rows are inserted (e.g. a constraint violation). -/
structure FileRec where
  stem : String
  content : Option PyDict
  insRaises : Bool

/-- A record accepted into the current batch. -/
structure PRec where
  stem : String
  data : PyDict
  insRaises : Bool

/-- Outcome of `insert_test_record` for one batched record: the rows it
contributes, or `none` when the insert raised (either the store raised, or
the record's own field accesses / classification raised) and the per-record
handler caught it. -/
def recRow (r : PRec) : Option Row :=
  if r.insRaises then none
  else
    match buildRow r.data (r.stem ++ ".json") with
    | .ok row => some row
    | .error _ => none

/-- Mutable run state: committed rows plus the `stats` counters. -/
structure RunSt where
  rows : List Row
  processed : Nat
  errors : Nat
  skipped : Nat

/-- The per-record loop inside the batch transaction: each insert is tried
independently; a success appends to the transaction's pending rows and
bumps `processed`, a failure bumps `errors`. -/
def runRecsLoop : List PRec → List Row × Nat × Nat
  | [] => ([], 0, 0)
  | r :: t =>
    let rest := runRecsLoop t
    match recRow r with
    | some row => (row :: rest.1, rest.2.1 + 1, rest.2.2)
    | none => (rest.1, rest.2.1, rest.2.2.succ)

/-- One batch under `with self.transaction()`: if the commit succeeds the
pending rows become durable; if the transaction raises past the per-record
handlers the pending rows are rolled back and the outer handler adds
`len(batch)` to the error counter.  The Python-side counters incremented
inside the loop are not transactional and survive either way. -/
def runBatch (commitOk : Bool) (batch : List PRec) (st : RunSt) : RunSt :=
  let res := runRecsLoop batch
  if commitOk then
    { st with rows := st.rows ++ res.1,
              processed := st.processed + res.2.1,
              errors := st.errors + res.2.2 }
  else
    { st with processed := st.processed + res.2.1,
              errors := st.errors + res.2.2 + batch.length }

/-- The file loop of `process_directory`: parse, accumulate, and flush the
batch when it reaches `batch_size` or the current file is the last one.
`commitOk` is the environment oracle for each flushed batch, indexed in
flush order. -/
def processLoop (bs : Nat) (commitOk : Nat → Bool) :
    List FileRec → List PRec → Nat → RunSt → RunSt
  | [], _, _, st => st
  | f :: rest, batch, bIdx, st =>
    let step : List PRec × RunSt :=
      match parse_json_file f.content with
      | some d => (batch ++ [⟨f.stem, d, f.insRaises⟩], st)
      | none => (batch, { st with skipped := st.skipped + 1 })
    if bs ≤ step.1.length || rest.isEmpty then
      processLoop bs commitOk rest [] (bIdx + 1) (runBatch (commitOk bIdx) step.1 step.2)
    else
      processLoop bs commitOk rest step.1 bIdx step.2

/-- Stable insertion sort with the given key, modelling Python's stable
`sorted`. -/
def insertByKey (key : FileRec → Int) (f : FileRec) : List FileRec → List FileRec
  | [] => [f]
  | g :: t => if key f ≤ key g then f :: g :: t else g :: insertByKey key f t

/-- Sort of the globbed file list by extracted test number
(`sorted(input_dir.glob('Test*.json'), key=...extract_test_number(p.stem))`). -/
def sortFiles : List FileRec → List FileRec
  | [] => []
  | f :: t => insertByKey (fun g => extract_test_number g.stem) f (sortFiles t)

/-- CATSResultsParser.process_directory: sort the enumerated files, return
untouched when none match, otherwise run the batched loop. -/
def process_directory (bs : Nat) (commitOk : Nat → Bool) (files : List FileRec)
    (st : RunSt) : RunSt :=
  let json_files := sortFiles files
  if json_files.isEmpty then st
  else processLoop bs commitOk json_files [] 0 st

/-- The environment of one `main` invocation: CLI flag, pre-existing
output state, and whether the post-ingestion steps raise. -/
structure Env where
  createSchemaFlag : Bool
  outputExistsBefore : Bool
  priorHasSchema : Bool
  analyzeRaises : Bool
  reportRaises : Bool

/-- Whether main's `if args.create_schema or not Path(args.output).exists()`
branch creates the schema.  `sqlite3.connect` in `connect()` has already
created the output file by the time this check runs, so the existence test
is always true and only the flag matters. -/
def schemaCreatedOf (env : Env) : Bool :=
  let existsAfterConnect := true
  env.createSchemaFlag || !existsAfterConnect

/-- Whether the tables exist when the first query runs. -/
def hasTablesOf (env : Env) : Bool :=
  schemaCreatedOf env || (env.outputExistsBefore && env.priorHasSchema)

/-- The main entry point after argument validation: connect, conditionally
create the schema, process the directory, run ANALYZE, print statistics.
Any exception reaching the top-level handler is logged and exits 1.  When
the tables are missing, the first query raises — `_load_caches` when input
files were found, `print_statistics` otherwise — before any record is
ingested. -/
def mainRun (env : Env) (files : List FileRec) (bs : Nat) (commitOk : Nat → Bool) :
    Nat × RunSt :=
  if !hasTablesOf env then
    (1, ⟨[], 0, 0, 0⟩)
  else
    let st := process_directory bs commitOk files ⟨[], 0, 0, 0⟩
    if env.analyzeRaises || env.reportRaises then (1, st) else (0, st)

/-! Shape conditions under which `detect_false_positive` cannot raise:
every field it may touch is either absent, falsy, or of the JSON shape the
code expects. -/

/-- Is the value a JSON string? -/
def isStrB : Json → Bool
  | .str _ => true
  | _ => false

/-- Does `(j or '').lower()` succeed — is `j` falsy or a string? -/
def lowOkB (j : Json) : Bool := isStrB (pyOr j (.str ""))

/-- One request header element as rule 19's scan expects it: a dict whose
key/value entries (when present) are strings. -/
def headerOkB : Json → Bool
  | .obj kvs =>
    isStrB ((List.lookup "key" kvs).getD (.str "")) &&
    isStrB ((List.lookup "value" kvs).getD (.str ""))
  | _ => false

/-- Shape of the `response` block: a dict whose responseBody is falsy or a
string, whose responseContentType (when present) is a string, and whose
jsonBody is falsy or a dict with a falsy-or-string error_description. -/
def respShapeB : Json → Bool
  | .obj kvs =>
    lowOkB ((List.lookup "responseBody" kvs).getD .null) &&
    isStrB ((List.lookup "responseContentType" kvs).getD (.str "")) &&
    (match pyOr ((List.lookup "jsonBody" kvs).getD .null) (.obj []) with
     | .obj kvs2 => lowOkB ((List.lookup "error_description" kvs2).getD .null)
     | _ => false)
  | _ => false

/-- Shape of the `request` block: a dict whose url (when present) is a
string and whose headers are falsy or a list of well-shaped header
dicts. -/
def reqShapeB : Json → Bool
  | .obj kvs =>
    isStrB ((List.lookup "url" kvs).getD (.str "")) &&
    (match pyOr ((List.lookup "headers" kvs).getD .null) (.arr []) with
     | .arr l => l.all headerOkB
     | _ => false)
  | _ => false

/-- A record whose fields, where present, have the JSON shapes
`detect_false_positive` dereferences: such a record cannot make the
classifier raise. -/
def wellShaped (data : PyDict) : Bool :=
  isStrB (dGetD data "result" (.str "")) &&
  isStrB (dGetD data "fuzzer" (.str "")) &&
  isStrB (dGetD data "path" (.str "")) &&
  lowOkB (dGetN data "resultReason") &&
  lowOkB (dGetN data "resultDetails") &&
  lowOkB (dGetN data "scenario") &&
  respShapeB (dGetD data "response" (.obj [])) &&
  reqShapeB (dGetD data "request" (.obj []))

/-! Dimension resolvers.  The store state carries the dimension rows (with
their surrogate ids), the in-memory cache, and the next AUTOINCREMENT id.
`INSERT OR IGNORE` inserts only when no row holds the UNIQUE natural key;
the following SELECT calls `fetchone()[0]`, which raises TypeError when the
SELECT found no row. -/

/-- Store state for the `fuzzers` dimension (UNIQUE on name). -/
structure FuzzerSt where
  rows : List (Nat × String)
  cache : List (String × Nat)
  nextId : Nat

/-- CATSResultsParser.get_or_create_fuzzer. -/
def get_or_create_fuzzer (name : String) (st : FuzzerSt) :
    Except PyError (Nat × FuzzerSt) :=
  match List.lookup name st.cache with
  | some i => .ok (i, st)
  | none =>
    let fresh := st.rows.all (fun r => r.2 != name)
    let rows1 := if fresh then st.rows ++ [(st.nextId, name)] else st.rows
    let next1 := if fresh then st.nextId + 1 else st.nextId
    match rows1.find? (fun r => r.2 == name) with
    | some r =>
      .ok (r.1, { rows := rows1, cache := st.cache ++ [(name, r.1)], nextId := next1 })
    | none => .error .typeError

/-- Store state for the `paths` dimension: rows hold (id, path,
contract_path-or-NULL); the UNIQUE constraint is on `path` alone, while the
cache key is the pair `(path, contract_path or '')`. -/
structure PathSt where
  rows : List (Nat × String × Option String)
  cache : List ((String × String) × Nat)
  nextId : Nat

/-- The SELECT's NULL-aware match on contract_path:
`contract_path = ? OR (contract_path IS NULL AND ? IS NULL)`. -/
def cpMatches : Option String → Option String → Bool
  | some a, some b => a == b
  | none, none => true
  | _, _ => false

/-- CATSResultsParser.get_or_create_path.  `contract_path or None` maps the
empty string to NULL before insert and select. -/
def get_or_create_path (path contract_path : String) (st : PathSt) :
    Except PyError (Nat × PathSt) :=
  let key : String × String := (path, contract_path)
  match List.lookup key st.cache with
  | some i => .ok (i, st)
  | none =>
    let cpOpt : Option String := if contract_path == "" then none else some contract_path
    let fresh := st.rows.all (fun r => r.2.1 != path)
    let rows1 := if fresh then st.rows ++ [(st.nextId, path, cpOpt)] else st.rows
    let next1 := if fresh then st.nextId + 1 else st.nextId
    match rows1.find? (fun r => r.2.1 == path && cpMatches r.2.2 cpOpt) with
    | some r =>
      .ok (r.1, { rows := rows1, cache := st.cache ++ [(key, r.1)], nextId := next1 })
    | none => .error .typeError

/-! Concrete inputs for the scenario claims. -/

/-- The accepted records of a file list, in order: what the batch loop
feeds to the insert path. -/
def parsedRecs (files : List FileRec) : List PRec :=
  files.filterMap
    (fun f => (parse_json_file f.content).map (fun d => ⟨f.stem, d, f.insRaises⟩))

/-- A minimal valid CATS record (all required fields present, result
success). -/
def sampleDict (i : Nat) : PyDict :=
  [("testId", .str ("Test " ++ toString i)),
   ("traceId", .str "trace"),
   ("scenario", .str "scenario"),
   ("expectedResult", .str "2XX"),
   ("result", .str "success"),
   ("fuzzer", .str "HappyPath"),
   ("path", .str "/threat_models"),
   ("server", .str "http://localhost:8080"),
   ("request", .obj [("httpMethod", .str "GET"),
                     ("url", .str "http://localhost:8080/threat_models")]),
   ("response", .obj [("httpMethod", .str "GET"), ("responseCode", .num 200)])]

/-- Scenario D input: 150 valid files; the store raises while inserting
the record of file index 7 (a record of the first batch). -/
def fileC5 (i : Nat) : FileRec := ⟨"Test " ++ toString i, some (sampleDict i), i == 7⟩

/-- The 150 files of Scenario D. -/
def filesC5 : List FileRec := (List.range 150).map fileC5

/-- Scenario C input: one syntactically invalid file among two valid
ones. -/
def filesC6 : List FileRec :=
  [⟨"Test 1", some (sampleDict 1), false⟩,
   ⟨"Test 2", none, false⟩,
   ⟨"Test 3", some (sampleDict 3), false⟩]

/-! Theorems.  First the monadic reduction helpers, then the per-rule
lemmas feeding the claims. -/

theorem ok_bind {α β : Type} (a : α) (f : α → Except PyError β) :
    (Except.ok a >>= f) = f a := rfl

theorem error_bind {α β : Type} (e : PyError) (f : α → Except PyError β) :
    ((Except.error e : Except PyError α) >>= f) = Except.error e := rfl

theorem runRules_nil_good {P : Bool × Option String → Prop} :
    ∀ p, runRules [] = .ok (some p) → P p := by
  intro p h
  simp [runRules] at h

theorem runRules_cons_good {P : Bool × Option String → Prop} {e : RuleR} {rest : List RuleR}
    (he : ∀ p, e = .ok (some p) → P p)
    (hr : ∀ p, runRules rest = .ok (some p) → P p) :
    ∀ p, runRules (e :: rest) = .ok (some p) → P p := by
  intro p h
  unfold runRules at h
  split at h
  · exact absurd h (by simp)
  · exact he _ (by simp_all)
  · exact hr _ h

theorem fpRule1_good (c : Ctx) :
    ∀ p, fpRule1 c = .ok (some p) → p.1 = true ∧ p.2.isSome = true := by
  intro p h
  unfold fpRule1 at h
  (try simp only [bind, Except.bind, pure, Except.pure] at h) <;>
    (repeat' split at h) <;>
    (try simp only [Except.ok.injEq, Option.some.injEq] at h) <;>
    (try subst_vars) <;> simp_all

theorem fpRule2_good (c : Ctx) :
    ∀ p, fpRule2 c = .ok (some p) → p.1 = true ∧ p.2.isSome = true := by
  intro p h
  unfold fpRule2 at h
  (try simp only [bind, Except.bind, pure, Except.pure] at h) <;>
    (repeat' split at h) <;>
    (try simp only [Except.ok.injEq, Option.some.injEq] at h) <;>
    (try subst_vars) <;> simp_all

theorem fpRule3_good (c : Ctx) :
    ∀ p, fpRule3 c = .ok (some p) → p.1 = true ∧ p.2.isSome = true := by
  intro p h
  unfold fpRule3 at h
  (try simp only [bind, Except.bind, pure, Except.pure] at h) <;>
    (repeat' split at h) <;>
    (try simp only [Except.ok.injEq, Option.some.injEq] at h) <;>
    (try subst_vars) <;> simp_all

theorem fpRule4_good (c : Ctx) :
    ∀ p, fpRule4 c = .ok (some p) → p.1 = true ∧ p.2.isSome = true := by
  intro p h
  unfold fpRule4 at h
  (try simp only [bind, Except.bind, pure, Except.pure] at h) <;>
    (repeat' split at h) <;>
    (try simp only [Except.ok.injEq, Option.some.injEq] at h) <;>
    (try subst_vars) <;> simp_all

theorem fpRule4b_good (c : Ctx) :
    ∀ p, fpRule4b c = .ok (some p) → p.1 = true ∧ p.2.isSome = true := by
  intro p h
  unfold fpRule4b at h
  (try simp only [bind, Except.bind, pure, Except.pure] at h) <;>
    (repeat' split at h) <;>
    (try simp only [Except.ok.injEq, Option.some.injEq] at h) <;>
    (try subst_vars) <;> simp_all

theorem fpRule5_good (c : Ctx) :
    ∀ p, fpRule5 c = .ok (some p) → p.1 = true ∧ p.2.isSome = true := by
  intro p h
  unfold fpRule5 at h
  (try simp only [bind, Except.bind, pure, Except.pure] at h) <;>
    (repeat' split at h) <;>
    (try simp only [Except.ok.injEq, Option.some.injEq] at h) <;>
    (try subst_vars) <;> simp_all

theorem fpRule6_good (c : Ctx) :
    ∀ p, fpRule6 c = .ok (some p) → p.1 = true ∧ p.2.isSome = true := by
  intro p h
  unfold fpRule6 at h
  (try simp only [bind, Except.bind, pure, Except.pure] at h) <;>
    (repeat' split at h) <;>
    (try simp only [Except.ok.injEq, Option.some.injEq] at h) <;>
    (try subst_vars) <;> simp_all

theorem fpRule7_good (c : Ctx) :
    ∀ p, fpRule7 c = .ok (some p) → p.1 = true ∧ p.2.isSome = true := by
  intro p h
  unfold fpRule7 at h
  (try simp only [bind, Except.bind, pure, Except.pure] at h) <;>
    (repeat' split at h) <;>
    (try simp only [Except.ok.injEq, Option.some.injEq] at h) <;>
    (try subst_vars) <;> simp_all

theorem fpRule8_good (c : Ctx) :
    ∀ p, fpRule8 c = .ok (some p) → p.1 = true ∧ p.2.isSome = true := by
  intro p h
  unfold fpRule8 at h
  (try simp only [bind, Except.bind, pure, Except.pure] at h) <;>
    (repeat' split at h) <;>
    (try simp only [Except.ok.injEq, Option.some.injEq] at h) <;>
    (try subst_vars) <;> simp_all

theorem fpRule9_good (c : Ctx) :
    ∀ p, fpRule9 c = .ok (some p) → p.1 = true ∧ p.2.isSome = true := by
  intro p h
  unfold fpRule9 at h
  (try simp only [bind, Except.bind, pure, Except.pure] at h) <;>
    (repeat' split at h) <;>
    (try simp only [Except.ok.injEq, Option.some.injEq] at h) <;>
    (try subst_vars) <;> simp_all

theorem fpRule9b_good (c : Ctx) :
    ∀ p, fpRule9b c = .ok (some p) → p.1 = true ∧ p.2.isSome = true := by
  intro p h
  unfold fpRule9b at h
  (try simp only [bind, Except.bind, pure, Except.pure] at h) <;>
    (repeat' split at h) <;>
    (try simp only [Except.ok.injEq, Option.some.injEq] at h) <;>
    (try subst_vars) <;> simp_all

theorem fpRule10_good (c : Ctx) :
    ∀ p, fpRule10 c = .ok (some p) → p.1 = true ∧ p.2.isSome = true := by
  intro p h
  unfold fpRule10 at h
  (try simp only [bind, Except.bind, pure, Except.pure] at h) <;>
    (repeat' split at h) <;>
    (try simp only [Except.ok.injEq, Option.some.injEq] at h) <;>
    (try subst_vars) <;> simp_all

theorem fpRule13_good (c : Ctx) :
    ∀ p, fpRule13 c = .ok (some p) → p.1 = true ∧ p.2.isSome = true := by
  intro p h
  unfold fpRule13 at h
  (try simp only [bind, Except.bind, pure, Except.pure] at h) <;>
    (repeat' split at h) <;>
    (try simp only [Except.ok.injEq, Option.some.injEq] at h) <;>
    (try subst_vars) <;> simp_all

theorem fpRule15_good (c : Ctx) :
    ∀ p, fpRule15 c = .ok (some p) → p.1 = true ∧ p.2.isSome = true := by
  intro p h
  unfold fpRule15 at h
  (try simp only [bind, Except.bind, pure, Except.pure] at h) <;>
    (repeat' split at h) <;>
    (try simp only [Except.ok.injEq, Option.some.injEq] at h) <;>
    (try subst_vars) <;> simp_all

theorem fpRule16_good (c : Ctx) :
    ∀ p, fpRule16 c = .ok (some p) → p.1 = true ∧ p.2.isSome = true := by
  intro p h
  unfold fpRule16 at h
  (try simp only [bind, Except.bind, pure, Except.pure] at h) <;>
    (repeat' split at h) <;>
    (try simp only [Except.ok.injEq, Option.some.injEq] at h) <;>
    (try subst_vars) <;> simp_all

theorem fpRule12_good (c : Ctx) :
    ∀ p, fpRule12 c = .ok (some p) → p.1 = true ∧ p.2.isSome = true := by
  intro p h
  unfold fpRule12 at h
  (try simp only [bind, Except.bind, pure, Except.pure] at h) <;>
    (repeat' split at h) <;>
    (try simp only [Except.ok.injEq, Option.some.injEq] at h) <;>
    (try subst_vars) <;> simp_all

theorem fpRule17_good (c : Ctx) :
    ∀ p, fpRule17 c = .ok (some p) → p.1 = true ∧ p.2.isSome = true := by
  intro p h
  unfold fpRule17 at h
  (try simp only [bind, Except.bind, pure, Except.pure] at h) <;>
    (repeat' split at h) <;>
    (try simp only [Except.ok.injEq, Option.some.injEq] at h) <;>
    (try subst_vars) <;> simp_all

theorem fpRule19_good (c : Ctx) :
    ∀ p, fpRule19 c = .ok (some p) → p.1 = true ∧ p.2.isSome = true := by
  intro p h
  unfold fpRule19 at h
  (try simp only [bind, Except.bind, pure, Except.pure] at h) <;>
    (repeat' split at h) <;>
    (try simp only [Except.ok.injEq, Option.some.injEq] at h) <;>
    (try subst_vars) <;> simp_all

theorem fpRule20_good (c : Ctx) :
    ∀ p, fpRule20 c = .ok (some p) → p.1 = true ∧ p.2.isSome = true := by
  intro p h
  unfold fpRule20 at h
  (try simp only [bind, Except.bind, pure, Except.pure] at h) <;>
    (repeat' split at h) <;>
    (try simp only [Except.ok.injEq, Option.some.injEq] at h) <;>
    (try subst_vars) <;> simp_all

theorem fpRule21_good (c : Ctx) :
    ∀ p, fpRule21 c = .ok (some p) → p.1 = true ∧ p.2.isSome = true := by
  intro p h
  unfold fpRule21 at h
  (try simp only [bind, Except.bind, pure, Except.pure] at h) <;>
    (repeat' split at h) <;>
    (try simp only [Except.ok.injEq, Option.some.injEq] at h) <;>
    (try subst_vars) <;> simp_all

theorem fpRule22_good (c : Ctx) :
    ∀ p, fpRule22 c = .ok (some p) → p.1 = true ∧ p.2.isSome = true := by
  intro p h
  unfold fpRule22 at h
  (try simp only [bind, Except.bind, pure, Except.pure] at h) <;>
    (repeat' split at h) <;>
    (try simp only [Except.ok.injEq, Option.some.injEq] at h) <;>
    (try subst_vars) <;> simp_all

theorem fpRule23_good (c : Ctx) :
    ∀ p, fpRule23 c = .ok (some p) → p.1 = true ∧ p.2.isSome = true := by
  intro p h
  unfold fpRule23 at h
  (try simp only [bind, Except.bind, pure, Except.pure] at h) <;>
    (repeat' split at h) <;>
    (try simp only [Except.ok.injEq, Option.some.injEq] at h) <;>
    (try subst_vars) <;> simp_all

theorem fpRule24_good (c : Ctx) :
    ∀ p, fpRule24 c = .ok (some p) → p.1 = true ∧ p.2.isSome = true := by
  intro p h
  unfold fpRule24 at h
  (try simp only [bind, Except.bind, pure, Except.pure] at h) <;>
    (repeat' split at h) <;>
    (try simp only [Except.ok.injEq, Option.some.injEq] at h) <;>
    (try subst_vars) <;> simp_all

theorem fpRule25_good (c : Ctx) :
    ∀ p, fpRule25 c = .ok (some p) → p.1 = true ∧ p.2.isSome = true := by
  intro p h
  unfold fpRule25 at h
  (try simp only [bind, Except.bind, pure, Except.pure] at h) <;>
    (repeat' split at h) <;>
    (try simp only [Except.ok.injEq, Option.some.injEq] at h) <;>
    (try subst_vars) <;> simp_all

theorem fpRule26_good (c : Ctx) :
    ∀ p, fpRule26 c = .ok (some p) → p.1 = true ∧ p.2.isSome = true := by
  intro p h
  unfold fpRule26 at h
  (try simp only [bind, Except.bind, pure, Except.pure] at h) <;>
    (repeat' split at h) <;>
    (try simp only [Except.ok.injEq, Option.some.injEq] at h) <;>
    (try subst_vars) <;> simp_all

theorem fpRule27_good (c : Ctx) :
    ∀ p, fpRule27 c = .ok (some p) → p.1 = true ∧ p.2.isSome = true := by
  intro p h
  unfold fpRule27 at h
  (try simp only [bind, Except.bind, pure, Except.pure] at h) <;>
    (repeat' split at h) <;>
    (try simp only [Except.ok.injEq, Option.some.injEq] at h) <;>
    (try subst_vars) <;> simp_all

theorem fpRule28_good (c : Ctx) :
    ∀ p, fpRule28 c = .ok (some p) → p.1 = true ∧ p.2.isSome = true := by
  intro p h
  unfold fpRule28 at h
  (try simp only [bind, Except.bind, pure, Except.pure] at h) <;>
    (repeat' split at h) <;>
    (try simp only [Except.ok.injEq, Option.some.injEq] at h) <;>
    (try subst_vars) <;> simp_all

theorem fpRule29_good (c : Ctx) :
    ∀ p, fpRule29 c = .ok (some p) → p.1 = true ∧ p.2.isSome = true := by
  intro p h
  unfold fpRule29 at h
  (try simp only [bind, Except.bind, pure, Except.pure] at h) <;>
    (repeat' split at h) <;>
    (try simp only [Except.ok.injEq, Option.some.injEq] at h) <;>
    (try subst_vars) <;> simp_all

theorem fpRule30_good (c : Ctx) :
    ∀ p, fpRule30 c = .ok (some p) → p.1 = true ∧ p.2.isSome = true := by
  intro p h
  unfold fpRule30 at h
  (try simp only [bind, Except.bind, pure, Except.pure] at h) <;>
    (repeat' split at h) <;>
    (try simp only [Except.ok.injEq, Option.some.injEq] at h) <;>
    (try subst_vars) <;> simp_all

theorem fpRule31_good (c : Ctx) :
    ∀ p, fpRule31 c = .ok (some p) → p.1 = true ∧ p.2.isSome = true := by
  intro p h
  unfold fpRule31 at h
  (try simp only [bind, Except.bind, pure, Except.pure] at h) <;>
    (repeat' split at h) <;>
    (try simp only [Except.ok.injEq, Option.some.injEq] at h) <;>
    (try subst_vars) <;> simp_all

theorem fpRule32_good (c : Ctx) :
    ∀ p, fpRule32 c = .ok (some p) → p.1 = true ∧ p.2.isSome = true := by
  intro p h
  unfold fpRule32 at h
  (try simp only [bind, Except.bind, pure, Except.pure] at h) <;>
    (repeat' split at h) <;>
    (try simp only [Except.ok.injEq, Option.some.injEq] at h) <;>
    (try subst_vars) <;> simp_all

theorem fpRule33_good (c : Ctx) :
    ∀ p, fpRule33 c = .ok (some p) → p.1 = true ∧ p.2.isSome = true := by
  intro p h
  unfold fpRule33 at h
  (try simp only [bind, Except.bind, pure, Except.pure] at h) <;>
    (repeat' split at h) <;>
    (try simp only [Except.ok.injEq, Option.some.injEq] at h) <;>
    (try subst_vars) <;> simp_all

theorem fpRule34_good (c : Ctx) :
    ∀ p, fpRule34 c = .ok (some p) → p.1 = true ∧ p.2.isSome = true := by
  intro p h
  unfold fpRule34 at h
  (try simp only [bind, Except.bind, pure, Except.pure] at h) <;>
    (repeat' split at h) <;>
    (try simp only [Except.ok.injEq, Option.some.injEq] at h) <;>
    (try subst_vars) <;> simp_all

theorem fpRule35_good (c : Ctx) :
    ∀ p, fpRule35 c = .ok (some p) → p.1 = true ∧ p.2.isSome = true := by
  intro p h
  unfold fpRule35 at h
  (try simp only [bind, Except.bind, pure, Except.pure] at h) <;>
    (repeat' split at h) <;>
    (try simp only [Except.ok.injEq, Option.some.injEq] at h) <;>
    (try subst_vars) <;> simp_all

theorem fpRule36_good (c : Ctx) :
    ∀ p, fpRule36 c = .ok (some p) → p.1 = true ∧ p.2.isSome = true := by
  intro p h
  unfold fpRule36 at h
  (try simp only [bind, Except.bind, pure, Except.pure] at h) <;>
    (repeat' split at h) <;>
    (try simp only [Except.ok.injEq, Option.some.injEq] at h) <;>
    (try subst_vars) <;> simp_all

theorem fpRule37_good (c : Ctx) :
    ∀ p, fpRule37 c = .ok (some p) → p.1 = true ∧ p.2.isSome = true := by
  intro p h
  unfold fpRule37 at h
  (try simp only [bind, Except.bind, pure, Except.pure] at h) <;>
    (repeat' split at h) <;>
    (try simp only [Except.ok.injEq, Option.some.injEq] at h) <;>
    (try subst_vars) <;> simp_all

theorem fpRule38_good (c : Ctx) :
    ∀ p, fpRule38 c = .ok (some p) → p.1 = true ∧ p.2.isSome = true := by
  intro p h
  unfold fpRule38 at h
  (try simp only [bind, Except.bind, pure, Except.pure] at h) <;>
    (repeat' split at h) <;>
    (try simp only [Except.ok.injEq, Option.some.injEq] at h) <;>
    (try subst_vars) <;> simp_all

theorem fpRule39_good (c : Ctx) :
    ∀ p, fpRule39 c = .ok (some p) → p.1 = true ∧ p.2.isSome = true := by
  intro p h
  unfold fpRule39 at h
  (try simp only [bind, Except.bind, pure, Except.pure] at h) <;>
    (repeat' split at h) <;>
    (try simp only [Except.ok.injEq, Option.some.injEq] at h) <;>
    (try subst_vars) <;> simp_all

theorem fpRule40_good (c : Ctx) :
    ∀ p, fpRule40 c = .ok (some p) → p.1 = true ∧ p.2.isSome = true := by
  intro p h
  unfold fpRule40 at h
  (try simp only [bind, Except.bind, pure, Except.pure] at h) <;>
    (repeat' split at h) <;>
    (try simp only [Except.ok.injEq, Option.some.injEq] at h) <;>
    (try subst_vars) <;> simp_all

theorem rulesGood (c : Ctx) :
    ∀ p, runRules (allRules c) = .ok (some p) → p.1 = true ∧ p.2.isSome = true := by
  unfold allRules
  apply runRules_cons_good (fpRule1_good c)
  apply runRules_cons_good (fpRule2_good c)
  apply runRules_cons_good (fpRule3_good c)
  apply runRules_cons_good (fpRule4_good c)
  apply runRules_cons_good (fpRule4b_good c)
  apply runRules_cons_good (fpRule5_good c)
  apply runRules_cons_good (fpRule6_good c)
  apply runRules_cons_good (fpRule7_good c)
  apply runRules_cons_good (fpRule8_good c)
  apply runRules_cons_good (fpRule9_good c)
  apply runRules_cons_good (fpRule9b_good c)
  apply runRules_cons_good (fpRule10_good c)
  apply runRules_cons_good (fpRule13_good c)
  apply runRules_cons_good (fpRule15_good c)
  apply runRules_cons_good (fpRule16_good c)
  apply runRules_cons_good (fpRule12_good c)
  apply runRules_cons_good (fpRule17_good c)
  apply runRules_cons_good (fpRule19_good c)
  apply runRules_cons_good (fpRule20_good c)
  apply runRules_cons_good (fpRule21_good c)
  apply runRules_cons_good (fpRule22_good c)
  apply runRules_cons_good (fpRule23_good c)
  apply runRules_cons_good (fpRule24_good c)
  apply runRules_cons_good (fpRule25_good c)
  apply runRules_cons_good (fpRule26_good c)
  apply runRules_cons_good (fpRule27_good c)
  apply runRules_cons_good (fpRule28_good c)
  apply runRules_cons_good (fpRule29_good c)
  apply runRules_cons_good (fpRule30_good c)
  apply runRules_cons_good (fpRule31_good c)
  apply runRules_cons_good (fpRule32_good c)
  apply runRules_cons_good (fpRule33_good c)
  apply runRules_cons_good (fpRule34_good c)
  apply runRules_cons_good (fpRule35_good c)
  apply runRules_cons_good (fpRule36_good c)
  apply runRules_cons_good (fpRule37_good c)
  apply runRules_cons_good (fpRule38_good c)
  apply runRules_cons_good (fpRule39_good c)
  apply runRules_cons_good (fpRule40_good c)
  exact runRules_nil_good

/-- Whenever detect_false_positive returns, the returned pair agrees. -/
theorem detect_pair_shape (data : PyDict) (b : Bool) (r : Option String)
    (h : detect_false_positive data = .ok (b, r)) :
    (b = true ∧ r.isSome = true) ∨ (b = false ∧ r = none) := by
  unfold detect_false_positive at h
  rcases h1 : pyGetD (dGetD data "response" (.obj [])) "responseCode" (.num 0) with e | response_code
  · rw [h1, error_bind] at h
    exact absurd h (by simp)
  simp only [h1, ok_bind] at h
  rcases h2 : pyLower (pyOr (dGetN data "resultReason") (.str "")) with e | result_reason
  · rw [h2, error_bind] at h
    exact absurd h (by simp)
  simp only [h2, ok_bind] at h
  rcases h3 : pyLower (pyOr (dGetN data "resultDetails") (.str "")) with e | result_details
  · rw [h3, error_bind] at h
    exact absurd h (by simp)
  simp only [h3, ok_bind] at h
  rcases h4 : pyLower (dGetD data "result" (.str "")) with e | result
  · rw [h4, error_bind] at h
    exact absurd h (by simp)
  simp only [h4, ok_bind] at h
  rcases h5 : pyLower (pyOr (dGetN data "scenario") (.str "")) with e | scenario
  · rw [h5, error_bind] at h
    exact absurd h (by simp)
  simp only [h5, ok_bind] at h
  split at h
  · right
    simp only [pure, Except.pure, Except.ok.injEq, Prod.mk.injEq] at h
    exact ⟨h.1.symm, h.2.symm⟩
  · unfold detectTail at h
    split at h
    · exact absurd h (by simp)
    · rename_i p heq
      left
      have hp := rulesGood _ p heq
      simp only [Except.ok.injEq] at h
      subst h
      exact hp
    · right
      simp only [Except.ok.injEq, Prod.mk.injEq] at h
      exact ⟨h.1.symm, h.2.symm⟩

theorem isStrB_ex (j : Json) (h : isStrB j = true) : ∃ s, j = Json.str s := by
  cases j <;> simp [isStrB] at h <;> exact ⟨_, rfl⟩

theorem lowOk_pyOr (j : Json) (h : lowOkB j = true) :
    ∃ s, pyOr j (.str "") = Json.str s := by
  unfold lowOkB at h
  obtain ⟨s, hs⟩ := isStrB_ex _ h
  exact ⟨s, hs⟩

theorem lowOk_pyLower (j : Json) (h : lowOkB j = true) :
    ∃ s, pyLower (pyOr j (.str "")) = .ok s := by
  obtain ⟨s, hs⟩ := lowOk_pyOr j h
  exact ⟨lowerStr s, by rw [hs]; rfl⟩

/-- C1: whenever detect_false_positive returns a pair, the boolean and the
rule id agree: `(true, r)` with `r` non-null or `(false, null)`; hence the
value `1 if is_fp else 0` that insert_test_record writes into
`is_false_positive` equals 1 exactly when the written `fp_rule` is not
null. -/
theorem claim_C1 (data : PyDict) (b : Bool) (r : Option String)
    (h : detect_false_positive data = .ok (b, r)) :
    ((b = true) ↔ r ≠ none) ∧ (((if b then (1 : Nat) else 0) = 1) ↔ r ≠ none) := by
  rcases detect_pair_shape data b r h with ⟨hb, hr⟩ | ⟨hb, hr⟩ <;> subst hb <;>
    simp_all [Option.isSome_iff_ne_none]

/-- Witness for C1 at a concrete 429 record. -/
theorem claim_C1_witness :
    ((true = true) ↔ (some FP_RULE_RATE_LIMIT ≠ (none : Option String))) ∧
    (((if true then (1 : Nat) else 0) = 1) ↔ (some FP_RULE_RATE_LIMIT ≠ (none : Option String))) :=
  claim_C1 [("result", .str "warn"), ("response", .obj [("responseCode", .num 429)])]
    true (some FP_RULE_RATE_LIMIT) rfl

/-- C2 (amended): a record whose result lowercases to warn/error and whose
response.responseCode is 429 is classified `(true, RATE_LIMIT_429)` for
every value of the fuzzer and path fields, and for every reason, details
and scenario value that is absent, falsy, or a string (a truthy non-string
in those fields makes the prelude's `.lower()` raise instead). -/
theorem claim_C2 (data : PyDict)
    (hres : ∃ s, dGetD data "result" (.str "") = Json.str s ∧
      (lowerStr s = "warn" ∨ lowerStr s = "error"))
    (hrr : lowOkB (dGetN data "resultReason") = true)
    (hrd : lowOkB (dGetN data "resultDetails") = true)
    (hsc : lowOkB (dGetN data "scenario") = true)
    (hrc : pyGetD (dGetD data "response" (.obj [])) "responseCode" (.num 0)
      = .ok (.num 429)) :
    detect_false_positive data = .ok (true, some FP_RULE_RATE_LIMIT) := by
  obtain ⟨s, hs, hwe⟩ := hres
  obtain ⟨rr, hrr2⟩ := lowOk_pyLower _ hrr
  obtain ⟨rd, hrd2⟩ := lowOk_pyLower _ hrd
  obtain ⟨sc, hsc2⟩ := lowOk_pyLower _ hsc
  unfold detect_false_positive
  simp only [hrc, hrr2, hrd2, hsc2, ok_bind]
  rw [hs]
  simp only [pyLower, ok_bind]
  rcases hwe with hw | hw <;> rw [hw] <;>
    simp [allRules, runRules, fpRule1, jEqNum, detectTail]

/-- Counterexample to C2 as frozen: with reason being a (truthy) JSON
array, the classifier raises AttributeError instead of returning the
rate-limit pair, although result is warn and the response code is 429. -/
theorem claim_C2_cex :
    detect_false_positive
      [("result", .str "warn"), ("response", .obj [("responseCode", .num 429)]),
       ("resultReason", .arr [.num 1])] ≠ .ok (true, some FP_RULE_RATE_LIMIT) := by
  intro h
  exact absurd
    (show (Except.error PyError.attributeError :
        Except PyError (Bool × Option String)) = .ok (true, some FP_RULE_RATE_LIMIT) from h)
    (by simp)

/-- Witness for C2 at a record with uppercase result and garbage fuzzer
and path values. -/
theorem claim_C2_witness :
    detect_false_positive
      [("result", .str "WARN"), ("response", .obj [("responseCode", .num 429)]),
       ("fuzzer", .num 3), ("path", .arr [])]
      = .ok (true, some FP_RULE_RATE_LIMIT) :=
  claim_C2 _ ⟨"WARN", rfl, Or.inl rfl⟩ rfl rfl rfl rfl

/-- C3 (amended): a record whose result is a string lowercasing to neither
warn nor error is classified `(false, null)` before any rule runs,
provided the other prelude fields do not raise: reason, details and
scenario absent, falsy or strings, and the response block absent or a
dict. -/
theorem claim_C3 (data : PyDict)
    (hres : ∃ s, dGetD data "result" (.str "") = Json.str s ∧
      lowerStr s ≠ "warn" ∧ lowerStr s ≠ "error")
    (hrr : lowOkB (dGetN data "resultReason") = true)
    (hrd : lowOkB (dGetN data "resultDetails") = true)
    (hsc : lowOkB (dGetN data "scenario") = true)
    (hresp : ∃ kvs, dGetD data "response" (.obj []) = Json.obj kvs) :
    detect_false_positive data = .ok (false, none) := by
  obtain ⟨s, hs, hnw, hne⟩ := hres
  obtain ⟨kvs, hk⟩ := hresp
  obtain ⟨rr, hrr2⟩ := lowOk_pyLower _ hrr
  obtain ⟨rd, hrd2⟩ := lowOk_pyLower _ hrd
  obtain ⟨sc, hsc2⟩ := lowOk_pyLower _ hsc
  have h1 : (lowerStr s == "error") = false := by simp [hne]
  have h2 : (lowerStr s == "warn") = false := by simp [hnw]
  unfold detect_false_positive
  simp only [hk, pyGetD, hrr2, hrd2, hsc2, ok_bind]
  rw [hs]
  simp only [pyLower, ok_bind]
  simp [h1, h2, pure, Except.pure]

/-- Counterexample to C3 as frozen: a success record with a (truthy) JSON
array in scenario makes the prelude raise before the short-circuit, so the
classifier does not return `(false, null)`. -/
theorem claim_C3_cex :
    detect_false_positive
      [("result", .str "success"), ("scenario", .arr [.num 1])]
      ≠ .ok (false, none) := by
  intro h
  exact absurd
    (show (Except.error PyError.attributeError :
        Except PyError (Bool × Option String)) = .ok (false, none) from h)
    (by simp)

/-- Witness for C3 at a concrete success record. -/
theorem claim_C3_witness :
    detect_false_positive
      [("result", .str "success"), ("response", .obj [("responseCode", .num 200)])]
      = .ok (false, none) :=
  claim_C3 _ ⟨"success", rfl, by decide, by decide⟩ rfl rfl rfl
    ⟨[("responseCode", .num 200)], rfl⟩

theorem respShape_ex (j : Json) (h : respShapeB j = true) :
    ∃ kvs, j = Json.obj kvs ∧
      lowOkB ((List.lookup "responseBody" kvs).getD .null) = true ∧
      isStrB ((List.lookup "responseContentType" kvs).getD (.str "")) = true ∧
      ∃ kvs2, pyOr ((List.lookup "jsonBody" kvs).getD .null) (.obj []) = Json.obj kvs2 ∧
        lowOkB ((List.lookup "error_description" kvs2).getD .null) = true := by
  rcases j with _ | b | n | s | l | kvs
  · exact Bool.noConfusion h
  · exact Bool.noConfusion h
  · exact Bool.noConfusion h
  · exact Bool.noConfusion h
  · exact Bool.noConfusion h
  simp only [respShapeB, Bool.and_eq_true] at h
  obtain ⟨⟨h1, h2⟩, h3⟩ := h
  refine ⟨kvs, rfl, h1, h2, ?_⟩
  generalize hjb : pyOr ((List.lookup "jsonBody" kvs).getD .null) (.obj []) = jb at h3
  rcases jb with _ | b2 | n2 | s2 | l2 | kvs2
  · exact Bool.noConfusion h3
  · exact Bool.noConfusion h3
  · exact Bool.noConfusion h3
  · exact Bool.noConfusion h3
  · exact Bool.noConfusion h3
  · exact ⟨kvs2, hjb.symm ▸ rfl, h3⟩

theorem reqShape_ex (j : Json) (h : reqShapeB j = true) :
    ∃ kvs, j = Json.obj kvs ∧
      isStrB ((List.lookup "url" kvs).getD (.str "")) = true ∧
      ∃ l, pyOr ((List.lookup "headers" kvs).getD .null) (.arr []) = Json.arr l ∧
        l.all headerOkB = true := by
  rcases j with _ | b | n | s | l | kvs
  · exact Bool.noConfusion h
  · exact Bool.noConfusion h
  · exact Bool.noConfusion h
  · exact Bool.noConfusion h
  · exact Bool.noConfusion h
  simp only [reqShapeB, Bool.and_eq_true] at h
  obtain ⟨h1, h2⟩ := h
  refine ⟨kvs, rfl, h1, ?_⟩
  generalize hhd : pyOr ((List.lookup "headers" kvs).getD .null) (.arr []) = hd at h2
  rcases hd with _ | b2 | n2 | s2 | l2 | kvs2
  · exact Bool.noConfusion h2
  · exact Bool.noConfusion h2
  · exact Bool.noConfusion h2
  · exact Bool.noConfusion h2
  · exact ⟨l2, hhd.symm ▸ rfl, h2⟩
  · exact Bool.noConfusion h2

theorem findContentType_ok (l : List Json) (h : l.all headerOkB = true) :
    ∃ s, findContentType l = .ok s := by
  induction l with
  | nil => exact ⟨"", rfl⟩
  | cons hd tl ih =>
    simp only [List.all_cons, Bool.and_eq_true] at h
    obtain ⟨hh, ht⟩ := h
    rcases hd with _ | b | n | s | l2 | kvs
    · exact Bool.noConfusion hh
    · exact Bool.noConfusion hh
    · exact Bool.noConfusion hh
    · exact Bool.noConfusion hh
    · exact Bool.noConfusion hh
    simp only [headerOkB, Bool.and_eq_true] at hh
    obtain ⟨hk, hv⟩ := hh
    obtain ⟨ks, hks⟩ := isStrB_ex _ hk
    obtain ⟨vs, hvs⟩ := isStrB_ex _ hv
    unfold findContentType
    simp only [bind, Except.bind, pure, Except.pure, pyGetD, hks, hvs, pyLower]
    split
    · exact ⟨lowerStr vs, rfl⟩
    · exact ih ht

theorem anyEndpointMatch_ok (s : String) (eps : List String) :
    ∃ b, anyEndpointMatch (.str s) eps = .ok b := by
  induction eps with
  | nil => exact ⟨false, rfl⟩
  | cons ep rest ih =>
    unfold anyEndpointMatch
    simp only [bind, Except.bind, pure, Except.pure, pyStartsWith, jEqStr]
    repeat' split
    all_goals first
      | exact ⟨true, rfl⟩
      | exact ih

theorem anyDeletedListMatch_ok (s : String) (pats : List (String × String)) :
    ∃ b, anyDeletedListMatch (.str s) pats = .ok b := by
  induction pats with
  | nil => exact ⟨false, rfl⟩
  | cons pr rest ih =>
    obtain ⟨pat, patStripped⟩ := pr
    unfold anyDeletedListMatch
    simp only [bind, Except.bind, pure, Except.pure, pyStartsWith, jEqStr]
    repeat' split
    all_goals first
      | exact ⟨true, rfl⟩
      | exact ih

theorem fpRule1_ok (c : Ctx)
    (hf : ∃ s, c.fuzzer = Json.str s)
    (hp : ∃ s, dGetD c.data "path" (.str "") = Json.str s)
    (hresp : respShapeB (dGetD c.data "response" (.obj [])) = true)
    (hreq : reqShapeB (dGetD c.data "request" (.obj [])) = true) :
    ∃ v, fpRule1 c = .ok v := by
  obtain ⟨fs, hfs⟩ := hf
  obtain ⟨ps, hps⟩ := hp
  obtain ⟨kvsR, hkR, hrb, hct, kvsJ, hjb, hed⟩ := respShape_ex _ hresp
  obtain ⟨kvsQ, hkQ, hurl, lH, hhd, hall⟩ := reqShape_ex _ hreq
  obtain ⟨rb, hrb2⟩ := lowOk_pyLower _ hrb
  obtain ⟨ed, hed2⟩ := lowOk_pyLower _ hed
  obtain ⟨cts, hcts⟩ := isStrB_ex _ hct
  obtain ⟨urls, hurls⟩ := isStrB_ex _ hurl
  obtain ⟨bEp, hbEp⟩ := anyEndpointMatch_ok ps list_endpoints
  obtain ⟨bDl, hbDl⟩ := anyDeletedListMatch_ok ps deleted_resource_list_patterns
  obtain ⟨ctS, hctS⟩ := findContentType_ok lH hall
  unfold fpRule1
  try simp only [hfs, hps, hkR, hkQ]
  try simp only [bind, Except.bind, pure, Except.pure, pyGetD, pyGetN]
  try simp only [hjb, hhd, hcts, hurls]
  try simp only [hrb2, hed2, hbEp, hbDl, hctS]
  try simp only [bind, Except.bind, pure, Except.pure, pyLower, pyStartsWith,
    pyEndsWith, pyContains, jEqStr]
  repeat' split
  all_goals exact ⟨_, rfl⟩

theorem fpRule2_ok (c : Ctx)
    (hf : ∃ s, c.fuzzer = Json.str s)
    (hp : ∃ s, dGetD c.data "path" (.str "") = Json.str s)
    (hresp : respShapeB (dGetD c.data "response" (.obj [])) = true)
    (hreq : reqShapeB (dGetD c.data "request" (.obj [])) = true) :
    ∃ v, fpRule2 c = .ok v := by
  obtain ⟨fs, hfs⟩ := hf
  obtain ⟨ps, hps⟩ := hp
  obtain ⟨kvsR, hkR, hrb, hct, kvsJ, hjb, hed⟩ := respShape_ex _ hresp
  obtain ⟨kvsQ, hkQ, hurl, lH, hhd, hall⟩ := reqShape_ex _ hreq
  obtain ⟨rb, hrb2⟩ := lowOk_pyLower _ hrb
  obtain ⟨ed, hed2⟩ := lowOk_pyLower _ hed
  obtain ⟨cts, hcts⟩ := isStrB_ex _ hct
  obtain ⟨urls, hurls⟩ := isStrB_ex _ hurl
  obtain ⟨bEp, hbEp⟩ := anyEndpointMatch_ok ps list_endpoints
  obtain ⟨bDl, hbDl⟩ := anyDeletedListMatch_ok ps deleted_resource_list_patterns
  obtain ⟨ctS, hctS⟩ := findContentType_ok lH hall
  unfold fpRule2
  try simp only [hfs, hps, hkR, hkQ]
  try simp only [bind, Except.bind, pure, Except.pure, pyGetD, pyGetN]
  try simp only [hjb, hhd, hcts, hurls]
  try simp only [hrb2, hed2, hbEp, hbDl, hctS]
  try simp only [bind, Except.bind, pure, Except.pure, pyLower, pyStartsWith,
    pyEndsWith, pyContains, jEqStr]
  repeat' split
  all_goals exact ⟨_, rfl⟩

theorem fpRule3_ok (c : Ctx)
    (hf : ∃ s, c.fuzzer = Json.str s)
    (hp : ∃ s, dGetD c.data "path" (.str "") = Json.str s)
    (hresp : respShapeB (dGetD c.data "response" (.obj [])) = true)
    (hreq : reqShapeB (dGetD c.data "request" (.obj [])) = true) :
    ∃ v, fpRule3 c = .ok v := by
  obtain ⟨fs, hfs⟩ := hf
  obtain ⟨ps, hps⟩ := hp
  obtain ⟨kvsR, hkR, hrb, hct, kvsJ, hjb, hed⟩ := respShape_ex _ hresp
  obtain ⟨kvsQ, hkQ, hurl, lH, hhd, hall⟩ := reqShape_ex _ hreq
  obtain ⟨rb, hrb2⟩ := lowOk_pyLower _ hrb
  obtain ⟨ed, hed2⟩ := lowOk_pyLower _ hed
  obtain ⟨cts, hcts⟩ := isStrB_ex _ hct
  obtain ⟨urls, hurls⟩ := isStrB_ex _ hurl
  obtain ⟨bEp, hbEp⟩ := anyEndpointMatch_ok ps list_endpoints
  obtain ⟨bDl, hbDl⟩ := anyDeletedListMatch_ok ps deleted_resource_list_patterns
  obtain ⟨ctS, hctS⟩ := findContentType_ok lH hall
  unfold fpRule3
  try simp only [hfs, hps, hkR, hkQ]
  try simp only [bind, Except.bind, pure, Except.pure, pyGetD, pyGetN]
  try simp only [hjb, hhd, hcts, hurls]
  try simp only [hrb2, hed2, hbEp, hbDl, hctS]
  try simp only [bind, Except.bind, pure, Except.pure, pyLower, pyStartsWith,
    pyEndsWith, pyContains, jEqStr]
  repeat' split
  all_goals exact ⟨_, rfl⟩

theorem fpRule4_ok (c : Ctx)
    (hf : ∃ s, c.fuzzer = Json.str s)
    (hp : ∃ s, dGetD c.data "path" (.str "") = Json.str s)
    (hresp : respShapeB (dGetD c.data "response" (.obj [])) = true)
    (hreq : reqShapeB (dGetD c.data "request" (.obj [])) = true) :
    ∃ v, fpRule4 c = .ok v := by
  obtain ⟨fs, hfs⟩ := hf
  obtain ⟨ps, hps⟩ := hp
  obtain ⟨kvsR, hkR, hrb, hct, kvsJ, hjb, hed⟩ := respShape_ex _ hresp
  obtain ⟨kvsQ, hkQ, hurl, lH, hhd, hall⟩ := reqShape_ex _ hreq
  obtain ⟨rb, hrb2⟩ := lowOk_pyLower _ hrb
  obtain ⟨ed, hed2⟩ := lowOk_pyLower _ hed
  obtain ⟨cts, hcts⟩ := isStrB_ex _ hct
  obtain ⟨urls, hurls⟩ := isStrB_ex _ hurl
  obtain ⟨bEp, hbEp⟩ := anyEndpointMatch_ok ps list_endpoints
  obtain ⟨bDl, hbDl⟩ := anyDeletedListMatch_ok ps deleted_resource_list_patterns
  obtain ⟨ctS, hctS⟩ := findContentType_ok lH hall
  unfold fpRule4
  try simp only [hfs, hps, hkR, hkQ]
  try simp only [bind, Except.bind, pure, Except.pure, pyGetD, pyGetN]
  try simp only [hjb, hhd, hcts, hurls]
  try simp only [hrb2, hed2, hbEp, hbDl, hctS]
  try simp only [bind, Except.bind, pure, Except.pure, pyLower, pyStartsWith,
    pyEndsWith, pyContains, jEqStr]
  repeat' split
  all_goals exact ⟨_, rfl⟩

theorem fpRule4b_ok (c : Ctx)
    (hf : ∃ s, c.fuzzer = Json.str s)
    (hp : ∃ s, dGetD c.data "path" (.str "") = Json.str s)
    (hresp : respShapeB (dGetD c.data "response" (.obj [])) = true)
    (hreq : reqShapeB (dGetD c.data "request" (.obj [])) = true) :
    ∃ v, fpRule4b c = .ok v := by
  obtain ⟨fs, hfs⟩ := hf
  obtain ⟨ps, hps⟩ := hp
  obtain ⟨kvsR, hkR, hrb, hct, kvsJ, hjb, hed⟩ := respShape_ex _ hresp
  obtain ⟨kvsQ, hkQ, hurl, lH, hhd, hall⟩ := reqShape_ex _ hreq
  obtain ⟨rb, hrb2⟩ := lowOk_pyLower _ hrb
  obtain ⟨ed, hed2⟩ := lowOk_pyLower _ hed
  obtain ⟨cts, hcts⟩ := isStrB_ex _ hct
  obtain ⟨urls, hurls⟩ := isStrB_ex _ hurl
  obtain ⟨bEp, hbEp⟩ := anyEndpointMatch_ok ps list_endpoints
  obtain ⟨bDl, hbDl⟩ := anyDeletedListMatch_ok ps deleted_resource_list_patterns
  obtain ⟨ctS, hctS⟩ := findContentType_ok lH hall
  unfold fpRule4b
  try simp only [hfs, hps, hkR, hkQ]
  try simp only [bind, Except.bind, pure, Except.pure, pyGetD, pyGetN]
  try simp only [hjb, hhd, hcts, hurls]
  try simp only [hrb2, hed2, hbEp, hbDl, hctS]
  try simp only [bind, Except.bind, pure, Except.pure, pyLower, pyStartsWith,
    pyEndsWith, pyContains, jEqStr]
  repeat' split
  all_goals exact ⟨_, rfl⟩

theorem fpRule5_ok (c : Ctx)
    (hf : ∃ s, c.fuzzer = Json.str s)
    (hp : ∃ s, dGetD c.data "path" (.str "") = Json.str s)
    (hresp : respShapeB (dGetD c.data "response" (.obj [])) = true)
    (hreq : reqShapeB (dGetD c.data "request" (.obj [])) = true) :
    ∃ v, fpRule5 c = .ok v := by
  obtain ⟨fs, hfs⟩ := hf
  obtain ⟨ps, hps⟩ := hp
  obtain ⟨kvsR, hkR, hrb, hct, kvsJ, hjb, hed⟩ := respShape_ex _ hresp
  obtain ⟨kvsQ, hkQ, hurl, lH, hhd, hall⟩ := reqShape_ex _ hreq
  obtain ⟨rb, hrb2⟩ := lowOk_pyLower _ hrb
  obtain ⟨ed, hed2⟩ := lowOk_pyLower _ hed
  obtain ⟨cts, hcts⟩ := isStrB_ex _ hct
  obtain ⟨urls, hurls⟩ := isStrB_ex _ hurl
  obtain ⟨bEp, hbEp⟩ := anyEndpointMatch_ok ps list_endpoints
  obtain ⟨bDl, hbDl⟩ := anyDeletedListMatch_ok ps deleted_resource_list_patterns
  obtain ⟨ctS, hctS⟩ := findContentType_ok lH hall
  unfold fpRule5
  try simp only [hfs, hps, hkR, hkQ]
  try simp only [bind, Except.bind, pure, Except.pure, pyGetD, pyGetN]
  try simp only [hjb, hhd, hcts, hurls]
  try simp only [hrb2, hed2, hbEp, hbDl, hctS]
  try simp only [bind, Except.bind, pure, Except.pure, pyLower, pyStartsWith,
    pyEndsWith, pyContains, jEqStr]
  repeat' split
  all_goals exact ⟨_, rfl⟩

theorem fpRule6_ok (c : Ctx)
    (hf : ∃ s, c.fuzzer = Json.str s)
    (hp : ∃ s, dGetD c.data "path" (.str "") = Json.str s)
    (hresp : respShapeB (dGetD c.data "response" (.obj [])) = true)
    (hreq : reqShapeB (dGetD c.data "request" (.obj [])) = true) :
    ∃ v, fpRule6 c = .ok v := by
  obtain ⟨fs, hfs⟩ := hf
  obtain ⟨ps, hps⟩ := hp
  obtain ⟨kvsR, hkR, hrb, hct, kvsJ, hjb, hed⟩ := respShape_ex _ hresp
  obtain ⟨kvsQ, hkQ, hurl, lH, hhd, hall⟩ := reqShape_ex _ hreq
  obtain ⟨rb, hrb2⟩ := lowOk_pyLower _ hrb
  obtain ⟨ed, hed2⟩ := lowOk_pyLower _ hed
  obtain ⟨cts, hcts⟩ := isStrB_ex _ hct
  obtain ⟨urls, hurls⟩ := isStrB_ex _ hurl
  obtain ⟨bEp, hbEp⟩ := anyEndpointMatch_ok ps list_endpoints
  obtain ⟨bDl, hbDl⟩ := anyDeletedListMatch_ok ps deleted_resource_list_patterns
  obtain ⟨ctS, hctS⟩ := findContentType_ok lH hall
  unfold fpRule6
  try simp only [hfs, hps, hkR, hkQ]
  try simp only [bind, Except.bind, pure, Except.pure, pyGetD, pyGetN]
  try simp only [hjb, hhd, hcts, hurls]
  try simp only [hrb2, hed2, hbEp, hbDl, hctS]
  try simp only [bind, Except.bind, pure, Except.pure, pyLower, pyStartsWith,
    pyEndsWith, pyContains, jEqStr]
  repeat' split
  all_goals exact ⟨_, rfl⟩

theorem fpRule7_ok (c : Ctx)
    (hf : ∃ s, c.fuzzer = Json.str s)
    (hp : ∃ s, dGetD c.data "path" (.str "") = Json.str s)
    (hresp : respShapeB (dGetD c.data "response" (.obj [])) = true)
    (hreq : reqShapeB (dGetD c.data "request" (.obj [])) = true) :
    ∃ v, fpRule7 c = .ok v := by
  obtain ⟨fs, hfs⟩ := hf
  obtain ⟨ps, hps⟩ := hp
  obtain ⟨kvsR, hkR, hrb, hct, kvsJ, hjb, hed⟩ := respShape_ex _ hresp
  obtain ⟨kvsQ, hkQ, hurl, lH, hhd, hall⟩ := reqShape_ex _ hreq
  obtain ⟨rb, hrb2⟩ := lowOk_pyLower _ hrb
  obtain ⟨ed, hed2⟩ := lowOk_pyLower _ hed
  obtain ⟨cts, hcts⟩ := isStrB_ex _ hct
  obtain ⟨urls, hurls⟩ := isStrB_ex _ hurl
  obtain ⟨bEp, hbEp⟩ := anyEndpointMatch_ok ps list_endpoints
  obtain ⟨bDl, hbDl⟩ := anyDeletedListMatch_ok ps deleted_resource_list_patterns
  obtain ⟨ctS, hctS⟩ := findContentType_ok lH hall
  unfold fpRule7
  try simp only [hfs, hps, hkR, hkQ]
  try simp only [bind, Except.bind, pure, Except.pure, pyGetD, pyGetN]
  try simp only [hjb, hhd, hcts, hurls]
  try simp only [hrb2, hed2, hbEp, hbDl, hctS]
  try simp only [bind, Except.bind, pure, Except.pure, pyLower, pyStartsWith,
    pyEndsWith, pyContains, jEqStr]
  repeat' split
  all_goals exact ⟨_, rfl⟩

theorem fpRule8_ok (c : Ctx)
    (hf : ∃ s, c.fuzzer = Json.str s)
    (hp : ∃ s, dGetD c.data "path" (.str "") = Json.str s)
    (hresp : respShapeB (dGetD c.data "response" (.obj [])) = true)
    (hreq : reqShapeB (dGetD c.data "request" (.obj [])) = true) :
    ∃ v, fpRule8 c = .ok v := by
  obtain ⟨fs, hfs⟩ := hf
  obtain ⟨ps, hps⟩ := hp
  obtain ⟨kvsR, hkR, hrb, hct, kvsJ, hjb, hed⟩ := respShape_ex _ hresp
  obtain ⟨kvsQ, hkQ, hurl, lH, hhd, hall⟩ := reqShape_ex _ hreq
  obtain ⟨rb, hrb2⟩ := lowOk_pyLower _ hrb
  obtain ⟨ed, hed2⟩ := lowOk_pyLower _ hed
  obtain ⟨cts, hcts⟩ := isStrB_ex _ hct
  obtain ⟨urls, hurls⟩ := isStrB_ex _ hurl
  obtain ⟨bEp, hbEp⟩ := anyEndpointMatch_ok ps list_endpoints
  obtain ⟨bDl, hbDl⟩ := anyDeletedListMatch_ok ps deleted_resource_list_patterns
  obtain ⟨ctS, hctS⟩ := findContentType_ok lH hall
  unfold fpRule8
  try simp only [hfs, hps, hkR, hkQ]
  try simp only [bind, Except.bind, pure, Except.pure, pyGetD, pyGetN]
  try simp only [hjb, hhd, hcts, hurls]
  try simp only [hrb2, hed2, hbEp, hbDl, hctS]
  try simp only [bind, Except.bind, pure, Except.pure, pyLower, pyStartsWith,
    pyEndsWith, pyContains, jEqStr]
  repeat' split
  all_goals exact ⟨_, rfl⟩

theorem fpRule9_ok (c : Ctx)
    (hf : ∃ s, c.fuzzer = Json.str s)
    (hp : ∃ s, dGetD c.data "path" (.str "") = Json.str s)
    (hresp : respShapeB (dGetD c.data "response" (.obj [])) = true)
    (hreq : reqShapeB (dGetD c.data "request" (.obj [])) = true) :
    ∃ v, fpRule9 c = .ok v := by
  obtain ⟨fs, hfs⟩ := hf
  obtain ⟨ps, hps⟩ := hp
  obtain ⟨kvsR, hkR, hrb, hct, kvsJ, hjb, hed⟩ := respShape_ex _ hresp
  obtain ⟨kvsQ, hkQ, hurl, lH, hhd, hall⟩ := reqShape_ex _ hreq
  obtain ⟨rb, hrb2⟩ := lowOk_pyLower _ hrb
  obtain ⟨ed, hed2⟩ := lowOk_pyLower _ hed
  obtain ⟨cts, hcts⟩ := isStrB_ex _ hct
  obtain ⟨urls, hurls⟩ := isStrB_ex _ hurl
  obtain ⟨bEp, hbEp⟩ := anyEndpointMatch_ok ps list_endpoints
  obtain ⟨bDl, hbDl⟩ := anyDeletedListMatch_ok ps deleted_resource_list_patterns
  obtain ⟨ctS, hctS⟩ := findContentType_ok lH hall
  unfold fpRule9
  try simp only [hfs, hps, hkR, hkQ]
  try simp only [bind, Except.bind, pure, Except.pure, pyGetD, pyGetN]
  try simp only [hjb, hhd, hcts, hurls]
  try simp only [hrb2, hed2, hbEp, hbDl, hctS]
  try simp only [bind, Except.bind, pure, Except.pure, pyLower, pyStartsWith,
    pyEndsWith, pyContains, jEqStr]
  repeat' split
  all_goals exact ⟨_, rfl⟩

theorem fpRule9b_ok (c : Ctx)
    (hf : ∃ s, c.fuzzer = Json.str s)
    (hp : ∃ s, dGetD c.data "path" (.str "") = Json.str s)
    (hresp : respShapeB (dGetD c.data "response" (.obj [])) = true)
    (hreq : reqShapeB (dGetD c.data "request" (.obj [])) = true) :
    ∃ v, fpRule9b c = .ok v := by
  obtain ⟨fs, hfs⟩ := hf
  obtain ⟨ps, hps⟩ := hp
  obtain ⟨kvsR, hkR, hrb, hct, kvsJ, hjb, hed⟩ := respShape_ex _ hresp
  obtain ⟨kvsQ, hkQ, hurl, lH, hhd, hall⟩ := reqShape_ex _ hreq
  obtain ⟨rb, hrb2⟩ := lowOk_pyLower _ hrb
  obtain ⟨ed, hed2⟩ := lowOk_pyLower _ hed
  obtain ⟨cts, hcts⟩ := isStrB_ex _ hct
  obtain ⟨urls, hurls⟩ := isStrB_ex _ hurl
  obtain ⟨bEp, hbEp⟩ := anyEndpointMatch_ok ps list_endpoints
  obtain ⟨bDl, hbDl⟩ := anyDeletedListMatch_ok ps deleted_resource_list_patterns
  obtain ⟨ctS, hctS⟩ := findContentType_ok lH hall
  unfold fpRule9b
  try simp only [hfs, hps, hkR, hkQ]
  try simp only [bind, Except.bind, pure, Except.pure, pyGetD, pyGetN]
  try simp only [hjb, hhd, hcts, hurls]
  try simp only [hrb2, hed2, hbEp, hbDl, hctS]
  try simp only [bind, Except.bind, pure, Except.pure, pyLower, pyStartsWith,
    pyEndsWith, pyContains, jEqStr]
  repeat' split
  all_goals exact ⟨_, rfl⟩

theorem fpRule10_ok (c : Ctx)
    (hf : ∃ s, c.fuzzer = Json.str s)
    (hp : ∃ s, dGetD c.data "path" (.str "") = Json.str s)
    (hresp : respShapeB (dGetD c.data "response" (.obj [])) = true)
    (hreq : reqShapeB (dGetD c.data "request" (.obj [])) = true) :
    ∃ v, fpRule10 c = .ok v := by
  obtain ⟨fs, hfs⟩ := hf
  obtain ⟨ps, hps⟩ := hp
  obtain ⟨kvsR, hkR, hrb, hct, kvsJ, hjb, hed⟩ := respShape_ex _ hresp
  obtain ⟨kvsQ, hkQ, hurl, lH, hhd, hall⟩ := reqShape_ex _ hreq
  obtain ⟨rb, hrb2⟩ := lowOk_pyLower _ hrb
  obtain ⟨ed, hed2⟩ := lowOk_pyLower _ hed
  obtain ⟨cts, hcts⟩ := isStrB_ex _ hct
  obtain ⟨urls, hurls⟩ := isStrB_ex _ hurl
  obtain ⟨bEp, hbEp⟩ := anyEndpointMatch_ok ps list_endpoints
  obtain ⟨bDl, hbDl⟩ := anyDeletedListMatch_ok ps deleted_resource_list_patterns
  obtain ⟨ctS, hctS⟩ := findContentType_ok lH hall
  unfold fpRule10
  try simp only [hfs, hps, hkR, hkQ]
  try simp only [bind, Except.bind, pure, Except.pure, pyGetD, pyGetN]
  try simp only [hjb, hhd, hcts, hurls]
  try simp only [hrb2, hed2, hbEp, hbDl, hctS]
  try simp only [bind, Except.bind, pure, Except.pure, pyLower, pyStartsWith,
    pyEndsWith, pyContains, jEqStr]
  repeat' split
  all_goals exact ⟨_, rfl⟩

theorem fpRule13_ok (c : Ctx)
    (hf : ∃ s, c.fuzzer = Json.str s)
    (hp : ∃ s, dGetD c.data "path" (.str "") = Json.str s)
    (hresp : respShapeB (dGetD c.data "response" (.obj [])) = true)
    (hreq : reqShapeB (dGetD c.data "request" (.obj [])) = true) :
    ∃ v, fpRule13 c = .ok v := by
  obtain ⟨fs, hfs⟩ := hf
  obtain ⟨ps, hps⟩ := hp
  obtain ⟨kvsR, hkR, hrb, hct, kvsJ, hjb, hed⟩ := respShape_ex _ hresp
  obtain ⟨kvsQ, hkQ, hurl, lH, hhd, hall⟩ := reqShape_ex _ hreq
  obtain ⟨rb, hrb2⟩ := lowOk_pyLower _ hrb
  obtain ⟨ed, hed2⟩ := lowOk_pyLower _ hed
  obtain ⟨cts, hcts⟩ := isStrB_ex _ hct
  obtain ⟨urls, hurls⟩ := isStrB_ex _ hurl
  obtain ⟨bEp, hbEp⟩ := anyEndpointMatch_ok ps list_endpoints
  obtain ⟨bDl, hbDl⟩ := anyDeletedListMatch_ok ps deleted_resource_list_patterns
  obtain ⟨ctS, hctS⟩ := findContentType_ok lH hall
  unfold fpRule13
  try simp only [hfs, hps, hkR, hkQ]
  try simp only [bind, Except.bind, pure, Except.pure, pyGetD, pyGetN]
  try simp only [hjb, hhd, hcts, hurls]
  try simp only [hrb2, hed2, hbEp, hbDl, hctS]
  try simp only [bind, Except.bind, pure, Except.pure, pyLower, pyStartsWith,
    pyEndsWith, pyContains, jEqStr]
  repeat' split
  all_goals exact ⟨_, rfl⟩

theorem fpRule15_ok (c : Ctx)
    (hf : ∃ s, c.fuzzer = Json.str s)
    (hp : ∃ s, dGetD c.data "path" (.str "") = Json.str s)
    (hresp : respShapeB (dGetD c.data "response" (.obj [])) = true)
    (hreq : reqShapeB (dGetD c.data "request" (.obj [])) = true) :
    ∃ v, fpRule15 c = .ok v := by
  obtain ⟨fs, hfs⟩ := hf
  obtain ⟨ps, hps⟩ := hp
  obtain ⟨kvsR, hkR, hrb, hct, kvsJ, hjb, hed⟩ := respShape_ex _ hresp
  obtain ⟨kvsQ, hkQ, hurl, lH, hhd, hall⟩ := reqShape_ex _ hreq
  obtain ⟨rb, hrb2⟩ := lowOk_pyLower _ hrb
  obtain ⟨ed, hed2⟩ := lowOk_pyLower _ hed
  obtain ⟨cts, hcts⟩ := isStrB_ex _ hct
  obtain ⟨urls, hurls⟩ := isStrB_ex _ hurl
  obtain ⟨bEp, hbEp⟩ := anyEndpointMatch_ok ps list_endpoints
  obtain ⟨bDl, hbDl⟩ := anyDeletedListMatch_ok ps deleted_resource_list_patterns
  obtain ⟨ctS, hctS⟩ := findContentType_ok lH hall
  unfold fpRule15
  try simp only [hfs, hps, hkR, hkQ]
  try simp only [bind, Except.bind, pure, Except.pure, pyGetD, pyGetN]
  try simp only [hjb, hhd, hcts, hurls]
  try simp only [hrb2, hed2, hbEp, hbDl, hctS]
  try simp only [bind, Except.bind, pure, Except.pure, pyLower, pyStartsWith,
    pyEndsWith, pyContains, jEqStr]
  repeat' split
  all_goals exact ⟨_, rfl⟩

theorem fpRule16_ok (c : Ctx)
    (hf : ∃ s, c.fuzzer = Json.str s)
    (hp : ∃ s, dGetD c.data "path" (.str "") = Json.str s)
    (hresp : respShapeB (dGetD c.data "response" (.obj [])) = true)
    (hreq : reqShapeB (dGetD c.data "request" (.obj [])) = true) :
    ∃ v, fpRule16 c = .ok v := by
  obtain ⟨fs, hfs⟩ := hf
  obtain ⟨ps, hps⟩ := hp
  obtain ⟨kvsR, hkR, hrb, hct, kvsJ, hjb, hed⟩ := respShape_ex _ hresp
  obtain ⟨kvsQ, hkQ, hurl, lH, hhd, hall⟩ := reqShape_ex _ hreq
  obtain ⟨rb, hrb2⟩ := lowOk_pyLower _ hrb
  obtain ⟨ed, hed2⟩ := lowOk_pyLower _ hed
  obtain ⟨cts, hcts⟩ := isStrB_ex _ hct
  obtain ⟨urls, hurls⟩ := isStrB_ex _ hurl
  obtain ⟨bEp, hbEp⟩ := anyEndpointMatch_ok ps list_endpoints
  obtain ⟨bDl, hbDl⟩ := anyDeletedListMatch_ok ps deleted_resource_list_patterns
  obtain ⟨ctS, hctS⟩ := findContentType_ok lH hall
  unfold fpRule16
  try simp only [hfs, hps, hkR, hkQ]
  try simp only [bind, Except.bind, pure, Except.pure, pyGetD, pyGetN]
  try simp only [hjb, hhd, hcts, hurls]
  try simp only [hrb2, hed2, hbEp, hbDl, hctS]
  try simp only [bind, Except.bind, pure, Except.pure, pyLower, pyStartsWith,
    pyEndsWith, pyContains, jEqStr]
  repeat' split
  all_goals exact ⟨_, rfl⟩

theorem fpRule12_ok (c : Ctx)
    (hf : ∃ s, c.fuzzer = Json.str s)
    (hp : ∃ s, dGetD c.data "path" (.str "") = Json.str s)
    (hresp : respShapeB (dGetD c.data "response" (.obj [])) = true)
    (hreq : reqShapeB (dGetD c.data "request" (.obj [])) = true) :
    ∃ v, fpRule12 c = .ok v := by
  obtain ⟨fs, hfs⟩ := hf
  obtain ⟨ps, hps⟩ := hp
  obtain ⟨kvsR, hkR, hrb, hct, kvsJ, hjb, hed⟩ := respShape_ex _ hresp
  obtain ⟨kvsQ, hkQ, hurl, lH, hhd, hall⟩ := reqShape_ex _ hreq
  obtain ⟨rb, hrb2⟩ := lowOk_pyLower _ hrb
  obtain ⟨ed, hed2⟩ := lowOk_pyLower _ hed
  obtain ⟨cts, hcts⟩ := isStrB_ex _ hct
  obtain ⟨urls, hurls⟩ := isStrB_ex _ hurl
  obtain ⟨bEp, hbEp⟩ := anyEndpointMatch_ok ps list_endpoints
  obtain ⟨bDl, hbDl⟩ := anyDeletedListMatch_ok ps deleted_resource_list_patterns
  obtain ⟨ctS, hctS⟩ := findContentType_ok lH hall
  unfold fpRule12
  try simp only [hfs, hps, hkR, hkQ]
  try simp only [bind, Except.bind, pure, Except.pure, pyGetD, pyGetN]
  try simp only [hjb, hhd, hcts, hurls]
  try simp only [hrb2, hed2, hbEp, hbDl, hctS]
  try simp only [bind, Except.bind, pure, Except.pure, pyLower, pyStartsWith,
    pyEndsWith, pyContains, jEqStr]
  repeat' split
  all_goals exact ⟨_, rfl⟩

theorem fpRule17_ok (c : Ctx)
    (hf : ∃ s, c.fuzzer = Json.str s)
    (hp : ∃ s, dGetD c.data "path" (.str "") = Json.str s)
    (hresp : respShapeB (dGetD c.data "response" (.obj [])) = true)
    (hreq : reqShapeB (dGetD c.data "request" (.obj [])) = true) :
    ∃ v, fpRule17 c = .ok v := by
  obtain ⟨fs, hfs⟩ := hf
  obtain ⟨ps, hps⟩ := hp
  obtain ⟨kvsR, hkR, hrb, hct, kvsJ, hjb, hed⟩ := respShape_ex _ hresp
  obtain ⟨kvsQ, hkQ, hurl, lH, hhd, hall⟩ := reqShape_ex _ hreq
  obtain ⟨rb, hrb2⟩ := lowOk_pyLower _ hrb
  obtain ⟨ed, hed2⟩ := lowOk_pyLower _ hed
  obtain ⟨cts, hcts⟩ := isStrB_ex _ hct
  obtain ⟨urls, hurls⟩ := isStrB_ex _ hurl
  obtain ⟨bEp, hbEp⟩ := anyEndpointMatch_ok ps list_endpoints
  obtain ⟨bDl, hbDl⟩ := anyDeletedListMatch_ok ps deleted_resource_list_patterns
  obtain ⟨ctS, hctS⟩ := findContentType_ok lH hall
  unfold fpRule17
  try simp only [hfs, hps, hkR, hkQ]
  try simp only [bind, Except.bind, pure, Except.pure, pyGetD, pyGetN]
  try simp only [hjb, hhd, hcts, hurls]
  try simp only [hrb2, hed2, hbEp, hbDl, hctS]
  try simp only [bind, Except.bind, pure, Except.pure, pyLower, pyStartsWith,
    pyEndsWith, pyContains, jEqStr]
  repeat' split
  all_goals exact ⟨_, rfl⟩

theorem fpRule19_ok (c : Ctx)
    (hf : ∃ s, c.fuzzer = Json.str s)
    (hp : ∃ s, dGetD c.data "path" (.str "") = Json.str s)
    (hresp : respShapeB (dGetD c.data "response" (.obj [])) = true)
    (hreq : reqShapeB (dGetD c.data "request" (.obj [])) = true) :
    ∃ v, fpRule19 c = .ok v := by
  obtain ⟨fs, hfs⟩ := hf
  obtain ⟨ps, hps⟩ := hp
  obtain ⟨kvsR, hkR, hrb, hct, kvsJ, hjb, hed⟩ := respShape_ex _ hresp
  obtain ⟨kvsQ, hkQ, hurl, lH, hhd, hall⟩ := reqShape_ex _ hreq
  obtain ⟨rb, hrb2⟩ := lowOk_pyLower _ hrb
  obtain ⟨ed, hed2⟩ := lowOk_pyLower _ hed
  obtain ⟨cts, hcts⟩ := isStrB_ex _ hct
  obtain ⟨urls, hurls⟩ := isStrB_ex _ hurl
  obtain ⟨bEp, hbEp⟩ := anyEndpointMatch_ok ps list_endpoints
  obtain ⟨bDl, hbDl⟩ := anyDeletedListMatch_ok ps deleted_resource_list_patterns
  obtain ⟨ctS, hctS⟩ := findContentType_ok lH hall
  unfold fpRule19
  try simp only [hfs, hps, hkR, hkQ]
  try simp only [bind, Except.bind, pure, Except.pure, pyGetD, pyGetN]
  try simp only [hjb, hhd, hcts, hurls]
  try simp only [hrb2, hed2, hbEp, hbDl, hctS]
  try simp only [bind, Except.bind, pure, Except.pure, pyLower, pyStartsWith,
    pyEndsWith, pyContains, jEqStr]
  repeat' split
  all_goals exact ⟨_, rfl⟩

theorem fpRule20_ok (c : Ctx)
    (hf : ∃ s, c.fuzzer = Json.str s)
    (hp : ∃ s, dGetD c.data "path" (.str "") = Json.str s)
    (hresp : respShapeB (dGetD c.data "response" (.obj [])) = true)
    (hreq : reqShapeB (dGetD c.data "request" (.obj [])) = true) :
    ∃ v, fpRule20 c = .ok v := by
  obtain ⟨fs, hfs⟩ := hf
  obtain ⟨ps, hps⟩ := hp
  obtain ⟨kvsR, hkR, hrb, hct, kvsJ, hjb, hed⟩ := respShape_ex _ hresp
  obtain ⟨kvsQ, hkQ, hurl, lH, hhd, hall⟩ := reqShape_ex _ hreq
  obtain ⟨rb, hrb2⟩ := lowOk_pyLower _ hrb
  obtain ⟨ed, hed2⟩ := lowOk_pyLower _ hed
  obtain ⟨cts, hcts⟩ := isStrB_ex _ hct
  obtain ⟨urls, hurls⟩ := isStrB_ex _ hurl
  obtain ⟨bEp, hbEp⟩ := anyEndpointMatch_ok ps list_endpoints
  obtain ⟨bDl, hbDl⟩ := anyDeletedListMatch_ok ps deleted_resource_list_patterns
  obtain ⟨ctS, hctS⟩ := findContentType_ok lH hall
  unfold fpRule20
  try simp only [hfs, hps, hkR, hkQ]
  try simp only [bind, Except.bind, pure, Except.pure, pyGetD, pyGetN]
  try simp only [hjb, hhd, hcts, hurls]
  try simp only [hrb2, hed2, hbEp, hbDl, hctS]
  try simp only [bind, Except.bind, pure, Except.pure, pyLower, pyStartsWith,
    pyEndsWith, pyContains, jEqStr]
  repeat' split
  all_goals exact ⟨_, rfl⟩

theorem fpRule21_ok (c : Ctx)
    (hf : ∃ s, c.fuzzer = Json.str s)
    (hp : ∃ s, dGetD c.data "path" (.str "") = Json.str s)
    (hresp : respShapeB (dGetD c.data "response" (.obj [])) = true)
    (hreq : reqShapeB (dGetD c.data "request" (.obj [])) = true) :
    ∃ v, fpRule21 c = .ok v := by
  obtain ⟨fs, hfs⟩ := hf
  obtain ⟨ps, hps⟩ := hp
  obtain ⟨kvsR, hkR, hrb, hct, kvsJ, hjb, hed⟩ := respShape_ex _ hresp
  obtain ⟨kvsQ, hkQ, hurl, lH, hhd, hall⟩ := reqShape_ex _ hreq
  obtain ⟨rb, hrb2⟩ := lowOk_pyLower _ hrb
  obtain ⟨ed, hed2⟩ := lowOk_pyLower _ hed
  obtain ⟨cts, hcts⟩ := isStrB_ex _ hct
  obtain ⟨urls, hurls⟩ := isStrB_ex _ hurl
  obtain ⟨bEp, hbEp⟩ := anyEndpointMatch_ok ps list_endpoints
  obtain ⟨bDl, hbDl⟩ := anyDeletedListMatch_ok ps deleted_resource_list_patterns
  obtain ⟨ctS, hctS⟩ := findContentType_ok lH hall
  unfold fpRule21
  try simp only [hfs, hps, hkR, hkQ]
  try simp only [bind, Except.bind, pure, Except.pure, pyGetD, pyGetN]
  try simp only [hjb, hhd, hcts, hurls]
  try simp only [hrb2, hed2, hbEp, hbDl, hctS]
  try simp only [bind, Except.bind, pure, Except.pure, pyLower, pyStartsWith,
    pyEndsWith, pyContains, jEqStr]
  repeat' split
  all_goals exact ⟨_, rfl⟩

theorem fpRule22_ok (c : Ctx)
    (hf : ∃ s, c.fuzzer = Json.str s)
    (hp : ∃ s, dGetD c.data "path" (.str "") = Json.str s)
    (hresp : respShapeB (dGetD c.data "response" (.obj [])) = true)
    (hreq : reqShapeB (dGetD c.data "request" (.obj [])) = true) :
    ∃ v, fpRule22 c = .ok v := by
  obtain ⟨fs, hfs⟩ := hf
  obtain ⟨ps, hps⟩ := hp
  obtain ⟨kvsR, hkR, hrb, hct, kvsJ, hjb, hed⟩ := respShape_ex _ hresp
  obtain ⟨kvsQ, hkQ, hurl, lH, hhd, hall⟩ := reqShape_ex _ hreq
  obtain ⟨rb, hrb2⟩ := lowOk_pyLower _ hrb
  obtain ⟨ed, hed2⟩ := lowOk_pyLower _ hed
  obtain ⟨cts, hcts⟩ := isStrB_ex _ hct
  obtain ⟨urls, hurls⟩ := isStrB_ex _ hurl
  obtain ⟨bEp, hbEp⟩ := anyEndpointMatch_ok ps list_endpoints
  obtain ⟨bDl, hbDl⟩ := anyDeletedListMatch_ok ps deleted_resource_list_patterns
  obtain ⟨ctS, hctS⟩ := findContentType_ok lH hall
  unfold fpRule22
  try simp only [hfs, hps, hkR, hkQ]
  try simp only [bind, Except.bind, pure, Except.pure, pyGetD, pyGetN]
  try simp only [hjb, hhd, hcts, hurls]
  try simp only [hrb2, hed2, hbEp, hbDl, hctS]
  try simp only [bind, Except.bind, pure, Except.pure, pyLower, pyStartsWith,
    pyEndsWith, pyContains, jEqStr]
  repeat' split
  all_goals exact ⟨_, rfl⟩

theorem fpRule23_ok (c : Ctx)
    (hf : ∃ s, c.fuzzer = Json.str s)
    (hp : ∃ s, dGetD c.data "path" (.str "") = Json.str s)
    (hresp : respShapeB (dGetD c.data "response" (.obj [])) = true)
    (hreq : reqShapeB (dGetD c.data "request" (.obj [])) = true) :
    ∃ v, fpRule23 c = .ok v := by
  obtain ⟨fs, hfs⟩ := hf
  obtain ⟨ps, hps⟩ := hp
  obtain ⟨kvsR, hkR, hrb, hct, kvsJ, hjb, hed⟩ := respShape_ex _ hresp
  obtain ⟨kvsQ, hkQ, hurl, lH, hhd, hall⟩ := reqShape_ex _ hreq
  obtain ⟨rb, hrb2⟩ := lowOk_pyLower _ hrb
  obtain ⟨ed, hed2⟩ := lowOk_pyLower _ hed
  obtain ⟨cts, hcts⟩ := isStrB_ex _ hct
  obtain ⟨urls, hurls⟩ := isStrB_ex _ hurl
  obtain ⟨bEp, hbEp⟩ := anyEndpointMatch_ok ps list_endpoints
  obtain ⟨bDl, hbDl⟩ := anyDeletedListMatch_ok ps deleted_resource_list_patterns
  obtain ⟨ctS, hctS⟩ := findContentType_ok lH hall
  unfold fpRule23
  try simp only [hfs, hps, hkR, hkQ]
  try simp only [bind, Except.bind, pure, Except.pure, pyGetD, pyGetN]
  try simp only [hjb, hhd, hcts, hurls]
  try simp only [hrb2, hed2, hbEp, hbDl, hctS]
  try simp only [bind, Except.bind, pure, Except.pure, pyLower, pyStartsWith,
    pyEndsWith, pyContains, jEqStr]
  repeat' split
  all_goals exact ⟨_, rfl⟩

theorem fpRule24_ok (c : Ctx)
    (hf : ∃ s, c.fuzzer = Json.str s)
    (hp : ∃ s, dGetD c.data "path" (.str "") = Json.str s)
    (hresp : respShapeB (dGetD c.data "response" (.obj [])) = true)
    (hreq : reqShapeB (dGetD c.data "request" (.obj [])) = true) :
    ∃ v, fpRule24 c = .ok v := by
  obtain ⟨fs, hfs⟩ := hf
  obtain ⟨ps, hps⟩ := hp
  obtain ⟨kvsR, hkR, hrb, hct, kvsJ, hjb, hed⟩ := respShape_ex _ hresp
  obtain ⟨kvsQ, hkQ, hurl, lH, hhd, hall⟩ := reqShape_ex _ hreq
  obtain ⟨rb, hrb2⟩ := lowOk_pyLower _ hrb
  obtain ⟨ed, hed2⟩ := lowOk_pyLower _ hed
  obtain ⟨cts, hcts⟩ := isStrB_ex _ hct
  obtain ⟨urls, hurls⟩ := isStrB_ex _ hurl
  obtain ⟨bEp, hbEp⟩ := anyEndpointMatch_ok ps list_endpoints
  obtain ⟨bDl, hbDl⟩ := anyDeletedListMatch_ok ps deleted_resource_list_patterns
  obtain ⟨ctS, hctS⟩ := findContentType_ok lH hall
  unfold fpRule24
  try simp only [hfs, hps, hkR, hkQ]
  try simp only [bind, Except.bind, pure, Except.pure, pyGetD, pyGetN]
  try simp only [hjb, hhd, hcts, hurls]
  try simp only [hrb2, hed2, hbEp, hbDl, hctS]
  try simp only [bind, Except.bind, pure, Except.pure, pyLower, pyStartsWith,
    pyEndsWith, pyContains, jEqStr]
  repeat' split
  all_goals exact ⟨_, rfl⟩

theorem fpRule25_ok (c : Ctx)
    (hf : ∃ s, c.fuzzer = Json.str s)
    (hp : ∃ s, dGetD c.data "path" (.str "") = Json.str s)
    (hresp : respShapeB (dGetD c.data "response" (.obj [])) = true)
    (hreq : reqShapeB (dGetD c.data "request" (.obj [])) = true) :
    ∃ v, fpRule25 c = .ok v := by
  obtain ⟨fs, hfs⟩ := hf
  obtain ⟨ps, hps⟩ := hp
  obtain ⟨kvsR, hkR, hrb, hct, kvsJ, hjb, hed⟩ := respShape_ex _ hresp
  obtain ⟨kvsQ, hkQ, hurl, lH, hhd, hall⟩ := reqShape_ex _ hreq
  obtain ⟨rb, hrb2⟩ := lowOk_pyLower _ hrb
  obtain ⟨ed, hed2⟩ := lowOk_pyLower _ hed
  obtain ⟨cts, hcts⟩ := isStrB_ex _ hct
  obtain ⟨urls, hurls⟩ := isStrB_ex _ hurl
  obtain ⟨bEp, hbEp⟩ := anyEndpointMatch_ok ps list_endpoints
  obtain ⟨bDl, hbDl⟩ := anyDeletedListMatch_ok ps deleted_resource_list_patterns
  obtain ⟨ctS, hctS⟩ := findContentType_ok lH hall
  unfold fpRule25
  try simp only [hfs, hps, hkR, hkQ]
  try simp only [bind, Except.bind, pure, Except.pure, pyGetD, pyGetN]
  try simp only [hjb, hhd, hcts, hurls]
  try simp only [hrb2, hed2, hbEp, hbDl, hctS]
  try simp only [bind, Except.bind, pure, Except.pure, pyLower, pyStartsWith,
    pyEndsWith, pyContains, jEqStr]
  repeat' split
  all_goals exact ⟨_, rfl⟩

theorem fpRule26_ok (c : Ctx)
    (hf : ∃ s, c.fuzzer = Json.str s)
    (hp : ∃ s, dGetD c.data "path" (.str "") = Json.str s)
    (hresp : respShapeB (dGetD c.data "response" (.obj [])) = true)
    (hreq : reqShapeB (dGetD c.data "request" (.obj [])) = true) :
    ∃ v, fpRule26 c = .ok v := by
  obtain ⟨fs, hfs⟩ := hf
  obtain ⟨ps, hps⟩ := hp
  obtain ⟨kvsR, hkR, hrb, hct, kvsJ, hjb, hed⟩ := respShape_ex _ hresp
  obtain ⟨kvsQ, hkQ, hurl, lH, hhd, hall⟩ := reqShape_ex _ hreq
  obtain ⟨rb, hrb2⟩ := lowOk_pyLower _ hrb
  obtain ⟨ed, hed2⟩ := lowOk_pyLower _ hed
  obtain ⟨cts, hcts⟩ := isStrB_ex _ hct
  obtain ⟨urls, hurls⟩ := isStrB_ex _ hurl
  obtain ⟨bEp, hbEp⟩ := anyEndpointMatch_ok ps list_endpoints
  obtain ⟨bDl, hbDl⟩ := anyDeletedListMatch_ok ps deleted_resource_list_patterns
  obtain ⟨ctS, hctS⟩ := findContentType_ok lH hall
  unfold fpRule26
  try simp only [hfs, hps, hkR, hkQ]
  try simp only [bind, Except.bind, pure, Except.pure, pyGetD, pyGetN]
  try simp only [hjb, hhd, hcts, hurls]
  try simp only [hrb2, hed2, hbEp, hbDl, hctS]
  try simp only [bind, Except.bind, pure, Except.pure, pyLower, pyStartsWith,
    pyEndsWith, pyContains, jEqStr]
  repeat' split
  all_goals exact ⟨_, rfl⟩

theorem fpRule27_ok (c : Ctx)
    (hf : ∃ s, c.fuzzer = Json.str s)
    (hp : ∃ s, dGetD c.data "path" (.str "") = Json.str s)
    (hresp : respShapeB (dGetD c.data "response" (.obj [])) = true)
    (hreq : reqShapeB (dGetD c.data "request" (.obj [])) = true) :
    ∃ v, fpRule27 c = .ok v := by
  obtain ⟨fs, hfs⟩ := hf
  obtain ⟨ps, hps⟩ := hp
  obtain ⟨kvsR, hkR, hrb, hct, kvsJ, hjb, hed⟩ := respShape_ex _ hresp
  obtain ⟨kvsQ, hkQ, hurl, lH, hhd, hall⟩ := reqShape_ex _ hreq
  obtain ⟨rb, hrb2⟩ := lowOk_pyLower _ hrb
  obtain ⟨ed, hed2⟩ := lowOk_pyLower _ hed
  obtain ⟨cts, hcts⟩ := isStrB_ex _ hct
  obtain ⟨urls, hurls⟩ := isStrB_ex _ hurl
  obtain ⟨bEp, hbEp⟩ := anyEndpointMatch_ok ps list_endpoints
  obtain ⟨bDl, hbDl⟩ := anyDeletedListMatch_ok ps deleted_resource_list_patterns
  obtain ⟨ctS, hctS⟩ := findContentType_ok lH hall
  unfold fpRule27
  try simp only [hfs, hps, hkR, hkQ]
  try simp only [bind, Except.bind, pure, Except.pure, pyGetD, pyGetN]
  try simp only [hjb, hhd, hcts, hurls]
  try simp only [hrb2, hed2, hbEp, hbDl, hctS]
  try simp only [bind, Except.bind, pure, Except.pure, pyLower, pyStartsWith,
    pyEndsWith, pyContains, jEqStr]
  repeat' split
  all_goals exact ⟨_, rfl⟩

theorem fpRule28_ok (c : Ctx)
    (hf : ∃ s, c.fuzzer = Json.str s)
    (hp : ∃ s, dGetD c.data "path" (.str "") = Json.str s)
    (hresp : respShapeB (dGetD c.data "response" (.obj [])) = true)
    (hreq : reqShapeB (dGetD c.data "request" (.obj [])) = true) :
    ∃ v, fpRule28 c = .ok v := by
  obtain ⟨fs, hfs⟩ := hf
  obtain ⟨ps, hps⟩ := hp
  obtain ⟨kvsR, hkR, hrb, hct, kvsJ, hjb, hed⟩ := respShape_ex _ hresp
  obtain ⟨kvsQ, hkQ, hurl, lH, hhd, hall⟩ := reqShape_ex _ hreq
  obtain ⟨rb, hrb2⟩ := lowOk_pyLower _ hrb
  obtain ⟨ed, hed2⟩ := lowOk_pyLower _ hed
  obtain ⟨cts, hcts⟩ := isStrB_ex _ hct
  obtain ⟨urls, hurls⟩ := isStrB_ex _ hurl
  obtain ⟨bEp, hbEp⟩ := anyEndpointMatch_ok ps list_endpoints
  obtain ⟨bDl, hbDl⟩ := anyDeletedListMatch_ok ps deleted_resource_list_patterns
  obtain ⟨ctS, hctS⟩ := findContentType_ok lH hall
  unfold fpRule28
  try simp only [hfs, hps, hkR, hkQ]
  try simp only [bind, Except.bind, pure, Except.pure, pyGetD, pyGetN]
  try simp only [hjb, hhd, hcts, hurls]
  try simp only [hrb2, hed2, hbEp, hbDl, hctS]
  try simp only [bind, Except.bind, pure, Except.pure, pyLower, pyStartsWith,
    pyEndsWith, pyContains, jEqStr]
  repeat' split
  all_goals exact ⟨_, rfl⟩

theorem fpRule29_ok (c : Ctx)
    (hf : ∃ s, c.fuzzer = Json.str s)
    (hp : ∃ s, dGetD c.data "path" (.str "") = Json.str s)
    (hresp : respShapeB (dGetD c.data "response" (.obj [])) = true)
    (hreq : reqShapeB (dGetD c.data "request" (.obj [])) = true) :
    ∃ v, fpRule29 c = .ok v := by
  obtain ⟨fs, hfs⟩ := hf
  obtain ⟨ps, hps⟩ := hp
  obtain ⟨kvsR, hkR, hrb, hct, kvsJ, hjb, hed⟩ := respShape_ex _ hresp
  obtain ⟨kvsQ, hkQ, hurl, lH, hhd, hall⟩ := reqShape_ex _ hreq
  obtain ⟨rb, hrb2⟩ := lowOk_pyLower _ hrb
  obtain ⟨ed, hed2⟩ := lowOk_pyLower _ hed
  obtain ⟨cts, hcts⟩ := isStrB_ex _ hct
  obtain ⟨urls, hurls⟩ := isStrB_ex _ hurl
  obtain ⟨bEp, hbEp⟩ := anyEndpointMatch_ok ps list_endpoints
  obtain ⟨bDl, hbDl⟩ := anyDeletedListMatch_ok ps deleted_resource_list_patterns
  obtain ⟨ctS, hctS⟩ := findContentType_ok lH hall
  unfold fpRule29
  try simp only [hfs, hps, hkR, hkQ]
  try simp only [bind, Except.bind, pure, Except.pure, pyGetD, pyGetN]
  try simp only [hjb, hhd, hcts, hurls]
  try simp only [hrb2, hed2, hbEp, hbDl, hctS]
  try simp only [bind, Except.bind, pure, Except.pure, pyLower, pyStartsWith,
    pyEndsWith, pyContains, jEqStr]
  repeat' split
  all_goals exact ⟨_, rfl⟩

theorem fpRule30_ok (c : Ctx)
    (hf : ∃ s, c.fuzzer = Json.str s)
    (hp : ∃ s, dGetD c.data "path" (.str "") = Json.str s)
    (hresp : respShapeB (dGetD c.data "response" (.obj [])) = true)
    (hreq : reqShapeB (dGetD c.data "request" (.obj [])) = true) :
    ∃ v, fpRule30 c = .ok v := by
  obtain ⟨fs, hfs⟩ := hf
  obtain ⟨ps, hps⟩ := hp
  obtain ⟨kvsR, hkR, hrb, hct, kvsJ, hjb, hed⟩ := respShape_ex _ hresp
  obtain ⟨kvsQ, hkQ, hurl, lH, hhd, hall⟩ := reqShape_ex _ hreq
  obtain ⟨rb, hrb2⟩ := lowOk_pyLower _ hrb
  obtain ⟨ed, hed2⟩ := lowOk_pyLower _ hed
  obtain ⟨cts, hcts⟩ := isStrB_ex _ hct
  obtain ⟨urls, hurls⟩ := isStrB_ex _ hurl
  obtain ⟨bEp, hbEp⟩ := anyEndpointMatch_ok ps list_endpoints
  obtain ⟨bDl, hbDl⟩ := anyDeletedListMatch_ok ps deleted_resource_list_patterns
  obtain ⟨ctS, hctS⟩ := findContentType_ok lH hall
  unfold fpRule30
  try simp only [hfs, hps, hkR, hkQ]
  try simp only [bind, Except.bind, pure, Except.pure, pyGetD, pyGetN]
  try simp only [hjb, hhd, hcts, hurls]
  try simp only [hrb2, hed2, hbEp, hbDl, hctS]
  try simp only [bind, Except.bind, pure, Except.pure, pyLower, pyStartsWith,
    pyEndsWith, pyContains, jEqStr]
  repeat' split
  all_goals exact ⟨_, rfl⟩

theorem fpRule31_ok (c : Ctx)
    (hf : ∃ s, c.fuzzer = Json.str s)
    (hp : ∃ s, dGetD c.data "path" (.str "") = Json.str s)
    (hresp : respShapeB (dGetD c.data "response" (.obj [])) = true)
    (hreq : reqShapeB (dGetD c.data "request" (.obj [])) = true) :
    ∃ v, fpRule31 c = .ok v := by
  obtain ⟨fs, hfs⟩ := hf
  obtain ⟨ps, hps⟩ := hp
  obtain ⟨kvsR, hkR, hrb, hct, kvsJ, hjb, hed⟩ := respShape_ex _ hresp
  obtain ⟨kvsQ, hkQ, hurl, lH, hhd, hall⟩ := reqShape_ex _ hreq
  obtain ⟨rb, hrb2⟩ := lowOk_pyLower _ hrb
  obtain ⟨ed, hed2⟩ := lowOk_pyLower _ hed
  obtain ⟨cts, hcts⟩ := isStrB_ex _ hct
  obtain ⟨urls, hurls⟩ := isStrB_ex _ hurl
  obtain ⟨bEp, hbEp⟩ := anyEndpointMatch_ok ps list_endpoints
  obtain ⟨bDl, hbDl⟩ := anyDeletedListMatch_ok ps deleted_resource_list_patterns
  obtain ⟨ctS, hctS⟩ := findContentType_ok lH hall
  unfold fpRule31
  try simp only [hfs, hps, hkR, hkQ]
  try simp only [bind, Except.bind, pure, Except.pure, pyGetD, pyGetN]
  try simp only [hjb, hhd, hcts, hurls]
  try simp only [hrb2, hed2, hbEp, hbDl, hctS]
  try simp only [bind, Except.bind, pure, Except.pure, pyLower, pyStartsWith,
    pyEndsWith, pyContains, jEqStr]
  repeat' split
  all_goals exact ⟨_, rfl⟩

theorem fpRule32_ok (c : Ctx)
    (hf : ∃ s, c.fuzzer = Json.str s)
    (hp : ∃ s, dGetD c.data "path" (.str "") = Json.str s)
    (hresp : respShapeB (dGetD c.data "response" (.obj [])) = true)
    (hreq : reqShapeB (dGetD c.data "request" (.obj [])) = true) :
    ∃ v, fpRule32 c = .ok v := by
  obtain ⟨fs, hfs⟩ := hf
  obtain ⟨ps, hps⟩ := hp
  obtain ⟨kvsR, hkR, hrb, hct, kvsJ, hjb, hed⟩ := respShape_ex _ hresp
  obtain ⟨kvsQ, hkQ, hurl, lH, hhd, hall⟩ := reqShape_ex _ hreq
  obtain ⟨rb, hrb2⟩ := lowOk_pyLower _ hrb
  obtain ⟨ed, hed2⟩ := lowOk_pyLower _ hed
  obtain ⟨cts, hcts⟩ := isStrB_ex _ hct
  obtain ⟨urls, hurls⟩ := isStrB_ex _ hurl
  obtain ⟨bEp, hbEp⟩ := anyEndpointMatch_ok ps list_endpoints
  obtain ⟨bDl, hbDl⟩ := anyDeletedListMatch_ok ps deleted_resource_list_patterns
  obtain ⟨ctS, hctS⟩ := findContentType_ok lH hall
  unfold fpRule32
  try simp only [hfs, hps, hkR, hkQ]
  try simp only [bind, Except.bind, pure, Except.pure, pyGetD, pyGetN]
  try simp only [hjb, hhd, hcts, hurls]
  try simp only [hrb2, hed2, hbEp, hbDl, hctS]
  try simp only [bind, Except.bind, pure, Except.pure, pyLower, pyStartsWith,
    pyEndsWith, pyContains, jEqStr]
  repeat' split
  all_goals exact ⟨_, rfl⟩

theorem fpRule33_ok (c : Ctx)
    (hf : ∃ s, c.fuzzer = Json.str s)
    (hp : ∃ s, dGetD c.data "path" (.str "") = Json.str s)
    (hresp : respShapeB (dGetD c.data "response" (.obj [])) = true)
    (hreq : reqShapeB (dGetD c.data "request" (.obj [])) = true) :
    ∃ v, fpRule33 c = .ok v := by
  obtain ⟨fs, hfs⟩ := hf
  obtain ⟨ps, hps⟩ := hp
  obtain ⟨kvsR, hkR, hrb, hct, kvsJ, hjb, hed⟩ := respShape_ex _ hresp
  obtain ⟨kvsQ, hkQ, hurl, lH, hhd, hall⟩ := reqShape_ex _ hreq
  obtain ⟨rb, hrb2⟩ := lowOk_pyLower _ hrb
  obtain ⟨ed, hed2⟩ := lowOk_pyLower _ hed
  obtain ⟨cts, hcts⟩ := isStrB_ex _ hct
  obtain ⟨urls, hurls⟩ := isStrB_ex _ hurl
  obtain ⟨bEp, hbEp⟩ := anyEndpointMatch_ok ps list_endpoints
  obtain ⟨bDl, hbDl⟩ := anyDeletedListMatch_ok ps deleted_resource_list_patterns
  obtain ⟨ctS, hctS⟩ := findContentType_ok lH hall
  unfold fpRule33
  try simp only [hfs, hps, hkR, hkQ]
  try simp only [bind, Except.bind, pure, Except.pure, pyGetD, pyGetN]
  try simp only [hjb, hhd, hcts, hurls]
  try simp only [hrb2, hed2, hbEp, hbDl, hctS]
  try simp only [bind, Except.bind, pure, Except.pure, pyLower, pyStartsWith,
    pyEndsWith, pyContains, jEqStr]
  repeat' split
  all_goals exact ⟨_, rfl⟩

theorem fpRule34_ok (c : Ctx)
    (hf : ∃ s, c.fuzzer = Json.str s)
    (hp : ∃ s, dGetD c.data "path" (.str "") = Json.str s)
    (hresp : respShapeB (dGetD c.data "response" (.obj [])) = true)
    (hreq : reqShapeB (dGetD c.data "request" (.obj [])) = true) :
    ∃ v, fpRule34 c = .ok v := by
  obtain ⟨fs, hfs⟩ := hf
  obtain ⟨ps, hps⟩ := hp
  obtain ⟨kvsR, hkR, hrb, hct, kvsJ, hjb, hed⟩ := respShape_ex _ hresp
  obtain ⟨kvsQ, hkQ, hurl, lH, hhd, hall⟩ := reqShape_ex _ hreq
  obtain ⟨rb, hrb2⟩ := lowOk_pyLower _ hrb
  obtain ⟨ed, hed2⟩ := lowOk_pyLower _ hed
  obtain ⟨cts, hcts⟩ := isStrB_ex _ hct
  obtain ⟨urls, hurls⟩ := isStrB_ex _ hurl
  obtain ⟨bEp, hbEp⟩ := anyEndpointMatch_ok ps list_endpoints
  obtain ⟨bDl, hbDl⟩ := anyDeletedListMatch_ok ps deleted_resource_list_patterns
  obtain ⟨ctS, hctS⟩ := findContentType_ok lH hall
  unfold fpRule34
  try simp only [hfs, hps, hkR, hkQ]
  try simp only [bind, Except.bind, pure, Except.pure, pyGetD, pyGetN]
  try simp only [hjb, hhd, hcts, hurls]
  try simp only [hrb2, hed2, hbEp, hbDl, hctS]
  try simp only [bind, Except.bind, pure, Except.pure, pyLower, pyStartsWith,
    pyEndsWith, pyContains, jEqStr]
  repeat' split
  all_goals exact ⟨_, rfl⟩

theorem fpRule35_ok (c : Ctx)
    (hf : ∃ s, c.fuzzer = Json.str s)
    (hp : ∃ s, dGetD c.data "path" (.str "") = Json.str s)
    (hresp : respShapeB (dGetD c.data "response" (.obj [])) = true)
    (hreq : reqShapeB (dGetD c.data "request" (.obj [])) = true) :
    ∃ v, fpRule35 c = .ok v := by
  obtain ⟨fs, hfs⟩ := hf
  obtain ⟨ps, hps⟩ := hp
  obtain ⟨kvsR, hkR, hrb, hct, kvsJ, hjb, hed⟩ := respShape_ex _ hresp
  obtain ⟨kvsQ, hkQ, hurl, lH, hhd, hall⟩ := reqShape_ex _ hreq
  obtain ⟨rb, hrb2⟩ := lowOk_pyLower _ hrb
  obtain ⟨ed, hed2⟩ := lowOk_pyLower _ hed
  obtain ⟨cts, hcts⟩ := isStrB_ex _ hct
  obtain ⟨urls, hurls⟩ := isStrB_ex _ hurl
  obtain ⟨bEp, hbEp⟩ := anyEndpointMatch_ok ps list_endpoints
  obtain ⟨bDl, hbDl⟩ := anyDeletedListMatch_ok ps deleted_resource_list_patterns
  obtain ⟨ctS, hctS⟩ := findContentType_ok lH hall
  unfold fpRule35
  try simp only [hfs, hps, hkR, hkQ]
  try simp only [bind, Except.bind, pure, Except.pure, pyGetD, pyGetN]
  try simp only [hjb, hhd, hcts, hurls]
  try simp only [hrb2, hed2, hbEp, hbDl, hctS]
  try simp only [bind, Except.bind, pure, Except.pure, pyLower, pyStartsWith,
    pyEndsWith, pyContains, jEqStr]
  repeat' split
  all_goals exact ⟨_, rfl⟩

theorem fpRule36_ok (c : Ctx)
    (hf : ∃ s, c.fuzzer = Json.str s)
    (hp : ∃ s, dGetD c.data "path" (.str "") = Json.str s)
    (hresp : respShapeB (dGetD c.data "response" (.obj [])) = true)
    (hreq : reqShapeB (dGetD c.data "request" (.obj [])) = true) :
    ∃ v, fpRule36 c = .ok v := by
  obtain ⟨fs, hfs⟩ := hf
  obtain ⟨ps, hps⟩ := hp
  obtain ⟨kvsR, hkR, hrb, hct, kvsJ, hjb, hed⟩ := respShape_ex _ hresp
  obtain ⟨kvsQ, hkQ, hurl, lH, hhd, hall⟩ := reqShape_ex _ hreq
  obtain ⟨rb, hrb2⟩ := lowOk_pyLower _ hrb
  obtain ⟨ed, hed2⟩ := lowOk_pyLower _ hed
  obtain ⟨cts, hcts⟩ := isStrB_ex _ hct
  obtain ⟨urls, hurls⟩ := isStrB_ex _ hurl
  obtain ⟨bEp, hbEp⟩ := anyEndpointMatch_ok ps list_endpoints
  obtain ⟨bDl, hbDl⟩ := anyDeletedListMatch_ok ps deleted_resource_list_patterns
  obtain ⟨ctS, hctS⟩ := findContentType_ok lH hall
  unfold fpRule36
  try simp only [hfs, hps, hkR, hkQ]
  try simp only [bind, Except.bind, pure, Except.pure, pyGetD, pyGetN]
  try simp only [hjb, hhd, hcts, hurls]
  try simp only [hrb2, hed2, hbEp, hbDl, hctS]
  try simp only [bind, Except.bind, pure, Except.pure, pyLower, pyStartsWith,
    pyEndsWith, pyContains, jEqStr]
  repeat' split
  all_goals exact ⟨_, rfl⟩

theorem fpRule37_ok (c : Ctx)
    (hf : ∃ s, c.fuzzer = Json.str s)
    (hp : ∃ s, dGetD c.data "path" (.str "") = Json.str s)
    (hresp : respShapeB (dGetD c.data "response" (.obj [])) = true)
    (hreq : reqShapeB (dGetD c.data "request" (.obj [])) = true) :
    ∃ v, fpRule37 c = .ok v := by
  obtain ⟨fs, hfs⟩ := hf
  obtain ⟨ps, hps⟩ := hp
  obtain ⟨kvsR, hkR, hrb, hct, kvsJ, hjb, hed⟩ := respShape_ex _ hresp
  obtain ⟨kvsQ, hkQ, hurl, lH, hhd, hall⟩ := reqShape_ex _ hreq
  obtain ⟨rb, hrb2⟩ := lowOk_pyLower _ hrb
  obtain ⟨ed, hed2⟩ := lowOk_pyLower _ hed
  obtain ⟨cts, hcts⟩ := isStrB_ex _ hct
  obtain ⟨urls, hurls⟩ := isStrB_ex _ hurl
  obtain ⟨bEp, hbEp⟩ := anyEndpointMatch_ok ps list_endpoints
  obtain ⟨bDl, hbDl⟩ := anyDeletedListMatch_ok ps deleted_resource_list_patterns
  obtain ⟨ctS, hctS⟩ := findContentType_ok lH hall
  unfold fpRule37
  try simp only [hfs, hps, hkR, hkQ]
  try simp only [bind, Except.bind, pure, Except.pure, pyGetD, pyGetN]
  try simp only [hjb, hhd, hcts, hurls]
  try simp only [hrb2, hed2, hbEp, hbDl, hctS]
  try simp only [bind, Except.bind, pure, Except.pure, pyLower, pyStartsWith,
    pyEndsWith, pyContains, jEqStr]
  repeat' split
  all_goals exact ⟨_, rfl⟩

theorem fpRule38_ok (c : Ctx)
    (hf : ∃ s, c.fuzzer = Json.str s)
    (hp : ∃ s, dGetD c.data "path" (.str "") = Json.str s)
    (hresp : respShapeB (dGetD c.data "response" (.obj [])) = true)
    (hreq : reqShapeB (dGetD c.data "request" (.obj [])) = true) :
    ∃ v, fpRule38 c = .ok v := by
  obtain ⟨fs, hfs⟩ := hf
  obtain ⟨ps, hps⟩ := hp
  obtain ⟨kvsR, hkR, hrb, hct, kvsJ, hjb, hed⟩ := respShape_ex _ hresp
  obtain ⟨kvsQ, hkQ, hurl, lH, hhd, hall⟩ := reqShape_ex _ hreq
  obtain ⟨rb, hrb2⟩ := lowOk_pyLower _ hrb
  obtain ⟨ed, hed2⟩ := lowOk_pyLower _ hed
  obtain ⟨cts, hcts⟩ := isStrB_ex _ hct
  obtain ⟨urls, hurls⟩ := isStrB_ex _ hurl
  obtain ⟨bEp, hbEp⟩ := anyEndpointMatch_ok ps list_endpoints
  obtain ⟨bDl, hbDl⟩ := anyDeletedListMatch_ok ps deleted_resource_list_patterns
  obtain ⟨ctS, hctS⟩ := findContentType_ok lH hall
  unfold fpRule38
  try simp only [hfs, hps, hkR, hkQ]
  try simp only [bind, Except.bind, pure, Except.pure, pyGetD, pyGetN]
  try simp only [hjb, hhd, hcts, hurls]
  try simp only [hrb2, hed2, hbEp, hbDl, hctS]
  try simp only [bind, Except.bind, pure, Except.pure, pyLower, pyStartsWith,
    pyEndsWith, pyContains, jEqStr]
  repeat' split
  all_goals exact ⟨_, rfl⟩

theorem fpRule39_ok (c : Ctx)
    (hf : ∃ s, c.fuzzer = Json.str s)
    (hp : ∃ s, dGetD c.data "path" (.str "") = Json.str s)
    (hresp : respShapeB (dGetD c.data "response" (.obj [])) = true)
    (hreq : reqShapeB (dGetD c.data "request" (.obj [])) = true) :
    ∃ v, fpRule39 c = .ok v := by
  obtain ⟨fs, hfs⟩ := hf
  obtain ⟨ps, hps⟩ := hp
  obtain ⟨kvsR, hkR, hrb, hct, kvsJ, hjb, hed⟩ := respShape_ex _ hresp
  obtain ⟨kvsQ, hkQ, hurl, lH, hhd, hall⟩ := reqShape_ex _ hreq
  obtain ⟨rb, hrb2⟩ := lowOk_pyLower _ hrb
  obtain ⟨ed, hed2⟩ := lowOk_pyLower _ hed
  obtain ⟨cts, hcts⟩ := isStrB_ex _ hct
  obtain ⟨urls, hurls⟩ := isStrB_ex _ hurl
  obtain ⟨bEp, hbEp⟩ := anyEndpointMatch_ok ps list_endpoints
  obtain ⟨bDl, hbDl⟩ := anyDeletedListMatch_ok ps deleted_resource_list_patterns
  obtain ⟨ctS, hctS⟩ := findContentType_ok lH hall
  unfold fpRule39
  try simp only [hfs, hps, hkR, hkQ]
  try simp only [bind, Except.bind, pure, Except.pure, pyGetD, pyGetN]
  try simp only [hjb, hhd, hcts, hurls]
  try simp only [hrb2, hed2, hbEp, hbDl, hctS]
  try simp only [bind, Except.bind, pure, Except.pure, pyLower, pyStartsWith,
    pyEndsWith, pyContains, jEqStr]
  repeat' split
  all_goals exact ⟨_, rfl⟩

theorem fpRule40_ok (c : Ctx)
    (hf : ∃ s, c.fuzzer = Json.str s)
    (hp : ∃ s, dGetD c.data "path" (.str "") = Json.str s)
    (hresp : respShapeB (dGetD c.data "response" (.obj [])) = true)
    (hreq : reqShapeB (dGetD c.data "request" (.obj [])) = true) :
    ∃ v, fpRule40 c = .ok v := by
  obtain ⟨fs, hfs⟩ := hf
  obtain ⟨ps, hps⟩ := hp
  obtain ⟨kvsR, hkR, hrb, hct, kvsJ, hjb, hed⟩ := respShape_ex _ hresp
  obtain ⟨kvsQ, hkQ, hurl, lH, hhd, hall⟩ := reqShape_ex _ hreq
  obtain ⟨rb, hrb2⟩ := lowOk_pyLower _ hrb
  obtain ⟨ed, hed2⟩ := lowOk_pyLower _ hed
  obtain ⟨cts, hcts⟩ := isStrB_ex _ hct
  obtain ⟨urls, hurls⟩ := isStrB_ex _ hurl
  obtain ⟨bEp, hbEp⟩ := anyEndpointMatch_ok ps list_endpoints
  obtain ⟨bDl, hbDl⟩ := anyDeletedListMatch_ok ps deleted_resource_list_patterns
  obtain ⟨ctS, hctS⟩ := findContentType_ok lH hall
  unfold fpRule40
  try simp only [hfs, hps, hkR, hkQ]
  try simp only [bind, Except.bind, pure, Except.pure, pyGetD, pyGetN]
  try simp only [hjb, hhd, hcts, hurls]
  try simp only [hrb2, hed2, hbEp, hbDl, hctS]
  try simp only [bind, Except.bind, pure, Except.pure, pyLower, pyStartsWith,
    pyEndsWith, pyContains, jEqStr]
  repeat' split
  all_goals exact ⟨_, rfl⟩

theorem runRules_nil_ok : ∃ v, runRules [] = .ok v := ⟨none, rfl⟩

theorem runRules_cons_ok {e : RuleR} {rest : List RuleR}
    (he : ∃ v, e = .ok v) (hr : ∃ v, runRules rest = .ok v) :
    ∃ v, runRules (e :: rest) = .ok v := by
  obtain ⟨v, hv⟩ := he
  obtain ⟨w, hw⟩ := hr
  unfold runRules
  rw [hv]
  cases v
  · exact ⟨w, hw⟩
  · exact ⟨_, rfl⟩

theorem rulesAllOk (c : Ctx)
    (hf : ∃ s, c.fuzzer = Json.str s)
    (hp : ∃ s, dGetD c.data "path" (.str "") = Json.str s)
    (hresp : respShapeB (dGetD c.data "response" (.obj [])) = true)
    (hreq : reqShapeB (dGetD c.data "request" (.obj [])) = true) :
    ∃ v, runRules (allRules c) = .ok v := by
  unfold allRules
  apply runRules_cons_ok (fpRule1_ok c hf hp hresp hreq)
  apply runRules_cons_ok (fpRule2_ok c hf hp hresp hreq)
  apply runRules_cons_ok (fpRule3_ok c hf hp hresp hreq)
  apply runRules_cons_ok (fpRule4_ok c hf hp hresp hreq)
  apply runRules_cons_ok (fpRule4b_ok c hf hp hresp hreq)
  apply runRules_cons_ok (fpRule5_ok c hf hp hresp hreq)
  apply runRules_cons_ok (fpRule6_ok c hf hp hresp hreq)
  apply runRules_cons_ok (fpRule7_ok c hf hp hresp hreq)
  apply runRules_cons_ok (fpRule8_ok c hf hp hresp hreq)
  apply runRules_cons_ok (fpRule9_ok c hf hp hresp hreq)
  apply runRules_cons_ok (fpRule9b_ok c hf hp hresp hreq)
  apply runRules_cons_ok (fpRule10_ok c hf hp hresp hreq)
  apply runRules_cons_ok (fpRule13_ok c hf hp hresp hreq)
  apply runRules_cons_ok (fpRule15_ok c hf hp hresp hreq)
  apply runRules_cons_ok (fpRule16_ok c hf hp hresp hreq)
  apply runRules_cons_ok (fpRule12_ok c hf hp hresp hreq)
  apply runRules_cons_ok (fpRule17_ok c hf hp hresp hreq)
  apply runRules_cons_ok (fpRule19_ok c hf hp hresp hreq)
  apply runRules_cons_ok (fpRule20_ok c hf hp hresp hreq)
  apply runRules_cons_ok (fpRule21_ok c hf hp hresp hreq)
  apply runRules_cons_ok (fpRule22_ok c hf hp hresp hreq)
  apply runRules_cons_ok (fpRule23_ok c hf hp hresp hreq)
  apply runRules_cons_ok (fpRule24_ok c hf hp hresp hreq)
  apply runRules_cons_ok (fpRule25_ok c hf hp hresp hreq)
  apply runRules_cons_ok (fpRule26_ok c hf hp hresp hreq)
  apply runRules_cons_ok (fpRule27_ok c hf hp hresp hreq)
  apply runRules_cons_ok (fpRule28_ok c hf hp hresp hreq)
  apply runRules_cons_ok (fpRule29_ok c hf hp hresp hreq)
  apply runRules_cons_ok (fpRule30_ok c hf hp hresp hreq)
  apply runRules_cons_ok (fpRule31_ok c hf hp hresp hreq)
  apply runRules_cons_ok (fpRule32_ok c hf hp hresp hreq)
  apply runRules_cons_ok (fpRule33_ok c hf hp hresp hreq)
  apply runRules_cons_ok (fpRule34_ok c hf hp hresp hreq)
  apply runRules_cons_ok (fpRule35_ok c hf hp hresp hreq)
  apply runRules_cons_ok (fpRule36_ok c hf hp hresp hreq)
  apply runRules_cons_ok (fpRule37_ok c hf hp hresp hreq)
  apply runRules_cons_ok (fpRule38_ok c hf hp hresp hreq)
  apply runRules_cons_ok (fpRule39_ok c hf hp hresp hreq)
  apply runRules_cons_ok (fpRule40_ok c hf hp hresp hreq)
  exact runRules_nil_ok

theorem detect_tail_ok (c : Ctx)
    (hf : ∃ s, c.fuzzer = Json.str s)
    (hp : ∃ s, dGetD c.data "path" (.str "") = Json.str s)
    (hresp : respShapeB (dGetD c.data "response" (.obj [])) = true)
    (hreq : reqShapeB (dGetD c.data "request" (.obj [])) = true) :
    ∃ p, detectTail (runRules (allRules c)) = .ok p := by
  obtain ⟨v, hv⟩ := rulesAllOk c hf hp hresp hreq
  rw [hv]
  unfold detectTail
  cases v
  · exact ⟨_, rfl⟩
  · exact ⟨_, rfl⟩

/-- C4 (amended): the classifier cannot raise on a record whose fields,
where present, have the JSON shapes it dereferences (strings for the text
fields, dicts for request/response, a list of string-keyed dicts for
headers); on such records it always returns a (bool, rule) pair.  On other
shapes it can raise, so the frozen universal never-raises claim is false. -/
theorem claim_C4 (data : PyDict) (h : wellShaped data = true) :
    ∃ p, detect_false_positive data = .ok p := by
  unfold wellShaped at h
  simp only [Bool.and_eq_true] at h
  obtain ⟨⟨⟨⟨⟨⟨⟨h1, h2⟩, h3⟩, h4⟩, h5⟩, h6⟩, h7⟩, h8⟩ := h
  obtain ⟨rs, hrs⟩ := isStrB_ex _ h1
  obtain ⟨fz, hfz⟩ := isStrB_ex _ h2
  obtain ⟨pz, hpz⟩ := isStrB_ex _ h3
  obtain ⟨rr, hrr⟩ := lowOk_pyLower _ h4
  obtain ⟨rd, hrd⟩ := lowOk_pyLower _ h5
  obtain ⟨sc, hsc⟩ := lowOk_pyLower _ h6
  obtain ⟨kvsR, hkR, hx1, hx2, kvsJ, hx3, hx4⟩ := respShape_ex _ h7
  unfold detect_false_positive
  simp only [hkR, pyGetD, ok_bind, hrr, hrd, hsc]
  rw [hrs]
  simp only [pyLower, ok_bind]
  split
  · exact ⟨(false, none), rfl⟩
  · exact detect_tail_ok _ ⟨fz, hfz⟩ ⟨pz, hpz⟩ h7 h8

/-- Counterexample to C4 as frozen: a record whose result field is the
number 1 makes `data.get('result', '').lower()` raise AttributeError, so
detect_false_positive does not return a pair for every input
dictionary. -/
theorem claim_C4_cex :
    detect_false_positive [("result", .num 1)] = .error .attributeError := rfl

/-- Witness for C4 at a concrete well-shaped record. -/
theorem claim_C4_witness :
    wellShaped (sampleDict 1) = true ∧
      ∃ p, detect_false_positive (sampleDict 1) = .ok p :=
  ⟨by decide, claim_C4 (sampleDict 1) (by decide)⟩

theorem runRecsLoop_spec (batch : List PRec) :
    runRecsLoop batch =
      (batch.filterMap recRow,
       batch.countP (fun r => (recRow r).isSome),
       batch.countP (fun r => (recRow r).isNone)) := by
  induction batch with
  | nil => rfl
  | cons r t ih =>
    unfold runRecsLoop
    rw [ih]
    cases hr : recRow r <;>
      simp [List.filterMap_cons, List.countP_cons, hr]

theorem runBatch_true_spec (batch : List PRec) (st : RunSt) :
    runBatch true batch st =
      { rows := st.rows ++ batch.filterMap recRow,
        processed := st.processed + batch.countP (fun r => (recRow r).isSome),
        errors := st.errors + batch.countP (fun r => (recRow r).isNone),
        skipped := st.skipped } := by
  unfold runBatch
  rw [runRecsLoop_spec]
  rfl

theorem runBatch_false_spec (batch : List PRec) (st : RunSt) :
    runBatch false batch st =
      { rows := st.rows,
        processed := st.processed + batch.countP (fun r => (recRow r).isSome),
        errors := st.errors + batch.countP (fun r => (recRow r).isNone) + batch.length,
        skipped := st.skipped } := by
  unfold runBatch
  rw [runRecsLoop_spec]
  rfl

theorem processLoop_spec (bs : Nat) :
    ∀ (files : List FileRec) (batch : List PRec) (bIdx : Nat) (st : RunSt),
      files ≠ [] →
      processLoop bs (fun _ => true) files batch bIdx st =
        { rows := st.rows ++ (batch ++ parsedRecs files).filterMap recRow,
          processed := st.processed +
            (batch ++ parsedRecs files).countP (fun r => (recRow r).isSome),
          errors := st.errors +
            (batch ++ parsedRecs files).countP (fun r => (recRow r).isNone),
          skipped := st.skipped +
            files.countP (fun f => (parse_json_file f.content).isNone) } := by
  intro files
  induction files with
  | nil => exact fun batch bIdx st hne => absurd rfl hne
  | cons f rest ih =>
    intro batch bIdx st hne
    by_cases hrest : rest = []
    · subst hrest
      unfold processLoop
      cases hpf : parse_json_file f.content <;>
        simp only [hpf, List.isEmpty_nil, Bool.or_true, if_true] <;>
        unfold processLoop <;>
        rw [runBatch_true_spec] <;>
        simp [parsedRecs, hpf, List.filterMap_cons, List.countP_cons,
          List.filterMap_append, List.countP_append]
    · have hre : rest.isEmpty = false := by
        cases rest
        · exact absurd rfl hrest
        · rfl
      unfold processLoop
      cases hpf : parse_json_file f.content with
      | none =>
        simp only [hpf, hre, Bool.or_false]
        by_cases hlen : bs ≤ batch.length
        · simp only [hlen, decide_true_eq_true, decide_eq_true_eq, if_true, if_pos]
          rw [ih _ _ _ hrest, runBatch_true_spec]
          simp [parsedRecs, hpf, List.filterMap_cons, List.countP_cons,
            List.filterMap_append, List.countP_append, Nat.add_assoc,
            Nat.add_comm, Nat.add_left_comm]
        · simp only [hlen, if_neg, decide_eq_true_eq, if_false]
          rw [ih _ _ _ hrest]
          simp [parsedRecs, hpf, List.filterMap_cons, List.countP_cons,
            List.filterMap_append, List.countP_append, Nat.add_assoc,
            Nat.add_comm, Nat.add_left_comm]
      | some d =>
        simp only [hpf, hre, Bool.or_false]
        by_cases hlen : bs ≤ (batch ++ [(⟨f.stem, d, f.insRaises⟩ : PRec)]).length
        · simp only [hlen, decide_eq_true_eq, if_true, if_pos]
          rw [ih _ _ _ hrest, runBatch_true_spec]
          simp [parsedRecs, hpf, List.filterMap_cons, List.countP_cons,
            List.filterMap_append, List.countP_append, Nat.add_assoc,
            Nat.add_comm, Nat.add_left_comm] <;>
            cases recRow (⟨f.stem, d, f.insRaises⟩ : PRec) <;> simp
        · simp only [hlen, if_neg, decide_eq_true_eq, if_false]
          rw [ih _ _ _ hrest]
          simp [parsedRecs, hpf, List.filterMap_cons, List.countP_cons,
            List.filterMap_append, List.countP_append, Nat.add_assoc,
            Nat.add_comm, Nat.add_left_comm] <;>
            cases recRow (⟨f.stem, d, f.insRaises⟩ : PRec) <;> simp

set_option maxRecDepth 40000

/-- C5: within a batch every record's insert is individually guarded — on a
committing batch each non-raising record's rows are appended and each
raising record only bumps the error counter, while a failure escaping the
per-record guards (a failed commit) keeps the store unchanged and counts
the whole batch as failed.  For Scenario D (150 valid records, batch size
100, exactly one record of the first batch raising a persistence
exception) the final state has 149 inserted rows and error counter 1. -/
theorem claim_C5 :
    (∀ (batch : List PRec) (st : RunSt),
        runBatch true batch st =
          { rows := st.rows ++ batch.filterMap recRow,
            processed := st.processed + batch.countP (fun r => (recRow r).isSome),
            errors := st.errors + batch.countP (fun r => (recRow r).isNone),
            skipped := st.skipped } ∧
        runBatch false batch st =
          { rows := st.rows,
            processed := st.processed + batch.countP (fun r => (recRow r).isSome),
            errors := st.errors + batch.countP (fun r => (recRow r).isNone) + batch.length,
            skipped := st.skipped }) ∧
    (process_directory 100 (fun _ => true) filesC5 ⟨[], 0, 0, 0⟩).rows.length = 149 ∧
    (process_directory 100 (fun _ => true) filesC5 ⟨[], 0, 0, 0⟩).errors = 1 ∧
    (process_directory 100 (fun _ => true) filesC5 ⟨[], 0, 0, 0⟩).processed = 149 ∧
    (process_directory 100 (fun _ => true) filesC5 ⟨[], 0, 0, 0⟩).skipped = 0 := by
  refine ⟨fun batch st => ⟨runBatch_true_spec batch st, runBatch_false_spec batch st⟩,
    ?_, ?_, ?_, ?_⟩ <;> decide

/-- C6: a file that fails JSON decoding or misses a required field only
bumps the skipped counter — the committed rows are exactly those of the
accepted records, the remaining files are still processed, and the exit
code stays 0; in particular one invalid file among two valid ones yields 2
rows, skipped = 1, exit code 0. -/
theorem claim_C6 :
    (∀ (env : Env) (files : List FileRec) (bs : Nat),
        hasTablesOf env = true → env.analyzeRaises = false → env.reportRaises = false →
        sortFiles files ≠ [] →
        mainRun env files bs (fun _ => true) =
          (0, { rows := (parsedRecs (sortFiles files)).filterMap recRow,
                processed :=
                  (parsedRecs (sortFiles files)).countP (fun r => (recRow r).isSome),
                errors :=
                  (parsedRecs (sortFiles files)).countP (fun r => (recRow r).isNone),
                skipped :=
                  (sortFiles files).countP
                    (fun f => (parse_json_file f.content).isNone) })) ∧
    (mainRun ⟨true, false, false, false, false⟩ filesC6 100 (fun _ => true)).1 = 0 ∧
    (mainRun ⟨true, false, false, false, false⟩ filesC6 100 (fun _ => true)).2.rows.length = 2 ∧
    (mainRun ⟨true, false, false, false, false⟩ filesC6 100 (fun _ => true)).2.skipped = 1 := by
  refine ⟨?_, by decide, by decide, by decide⟩
  intro env files bs ht ha hr hne
  unfold mainRun process_directory
  rw [ht]
  simp only [Bool.not_true, Bool.false_eq_true, if_false]
  have hempty : (sortFiles files).isEmpty = false := by
    cases hsf : sortFiles files
    · exact absurd hsf hne
    · rfl
  rw [hempty]
  simp only [Bool.false_eq_true, if_false]
  rw [processLoop_spec bs (sortFiles files) [] 0 ⟨[], 0, 0, 0⟩ hne]
  rw [ha, hr]
  simp

/-- Witness for C6: the general part applied to the Scenario C input. -/
theorem claim_C6_witness :
    mainRun ⟨true, false, false, false, false⟩ filesC6 100 (fun _ => true) =
      (0, { rows := (parsedRecs (sortFiles filesC6)).filterMap recRow,
            processed :=
              (parsedRecs (sortFiles filesC6)).countP (fun r => (recRow r).isSome),
            errors :=
              (parsedRecs (sortFiles filesC6)).countP (fun r => (recRow r).isNone),
            skipped :=
              (sortFiles filesC6).countP
                (fun f => (parse_json_file f.content).isNone) }) :=
  claim_C6.1 ⟨true, false, false, false, false⟩ filesC6 100 rfl rfl rfl (by
    intro h
    have h3 : (sortFiles filesC6).length = 3 := by decide
    rw [h] at h3
    exact absurd h3 (by decide))

theorem insertByKey_perm (key : FileRec → Int) (f : FileRec) (l : List FileRec) :
    (insertByKey key f l).Perm (f :: l) := by
  induction l with
  | nil => exact List.Perm.refl _
  | cons g t ih =>
    unfold insertByKey
    split
    · exact List.Perm.refl _
    · exact (ih.cons g).trans (List.Perm.swap f g t)

theorem sortFiles_perm (l : List FileRec) : (sortFiles l).Perm l := by
  induction l with
  | nil => exact List.Perm.refl _
  | cons f t ih =>
    unfold sortFiles
    exact (insertByKey_perm _ f (sortFiles t)).trans (ih.cons f)

theorem insertByKey_pairwise (key : FileRec → Int) (f : FileRec) (l : List FileRec)
    (h : l.Pairwise (fun a b => key a ≤ key b)) :
    (insertByKey key f l).Pairwise (fun a b => key a ≤ key b) := by
  induction l with
  | nil => simp [insertByKey]
  | cons g t ih =>
    rcases List.pairwise_cons.mp h with ⟨hg, ht⟩
    unfold insertByKey
    split
    · next hle =>
      refine List.pairwise_cons.mpr ⟨?_, h⟩
      intro b hb
      rcases List.mem_cons.mp hb with rfl | hbt
      · exact hle
      · exact le_trans hle (hg b hbt)
    · next hgt =>
      have hfg : key g ≤ key f := le_of_not_le hgt
      refine List.pairwise_cons.mpr ⟨?_, ih ht⟩
      intro b hb
      rcases List.mem_cons.mp ((insertByKey_perm key f t).mem_iff.mp hb) with rfl | hbt
      · exact hfg
      · exact hg b hbt

theorem sortFiles_pairwise (l : List FileRec) :
    (sortFiles l).Pairwise
      (fun a b => extract_test_number a.stem ≤ extract_test_number b.stem) := by
  induction l with
  | nil => simp [sortFiles]
  | cons f t ih => exact insertByKey_pairwise _ f _ ih

/-- C7: the pipeline processes files in ascending order of the extracted
numeric test-sequence key, and the ingested content is enumeration-order
independent: two runs over the same set of files (any two enumeration
orders) produce the same rows with the same classifications — equal as a
multiset — and the same processed/error/skipped counts. -/
theorem claim_C7 (bs : Nat) (l1 l2 : List FileRec) (hperm : l1.Perm l2) :
    ((sortFiles l1).Pairwise
      (fun a b => extract_test_number a.stem ≤ extract_test_number b.stem)) ∧
    ((process_directory bs (fun _ => true) l1 ⟨[], 0, 0, 0⟩).rows.Perm
      (process_directory bs (fun _ => true) l2 ⟨[], 0, 0, 0⟩).rows) ∧
    (process_directory bs (fun _ => true) l1 ⟨[], 0, 0, 0⟩).processed
      = (process_directory bs (fun _ => true) l2 ⟨[], 0, 0, 0⟩).processed ∧
    (process_directory bs (fun _ => true) l1 ⟨[], 0, 0, 0⟩).errors
      = (process_directory bs (fun _ => true) l2 ⟨[], 0, 0, 0⟩).errors ∧
    (process_directory bs (fun _ => true) l1 ⟨[], 0, 0, 0⟩).skipped
      = (process_directory bs (fun _ => true) l2 ⟨[], 0, 0, 0⟩).skipped := by
  refine ⟨sortFiles_pairwise l1, ?_⟩
  have hs : (sortFiles l1).Perm (sortFiles l2) :=
    (sortFiles_perm l1).trans (hperm.trans (sortFiles_perm l2).symm)
  unfold process_directory
  cases h1 : sortFiles l1 with
  | nil =>
    have h2 : sortFiles l2 = [] := by
      have hq := hs
      rw [h1] at hq
      exact hq.symm.eq_nil
    rw [h2]
    simp
  | cons a t =>
    have h2ne : sortFiles l2 ≠ [] := by
      intro h2
      have hq := hs
      rw [h1, h2] at hq
      exact absurd hq.eq_nil (by simp)
    have he2 : (sortFiles l2).isEmpty = false := by
      cases hx : sortFiles l2
      · exact absurd hx h2ne
      · rfl
    rw [h1] at hs
    simp only [List.isEmpty_cons, he2, Bool.false_eq_true, if_false]
    rw [processLoop_spec bs (a :: t) [] 0 ⟨[], 0, 0, 0⟩ (by simp),
        processLoop_spec bs (sortFiles l2) [] 0 ⟨[], 0, 0, 0⟩ h2ne]
    have hpr : (parsedRecs (a :: t)).Perm (parsedRecs (sortFiles l2)) :=
      hs.filterMap _
    exact ⟨by simpa using hpr.filterMap recRow,
      by simpa using hpr.countP_eq _,
      by simpa using hpr.countP_eq _,
      by simpa using hs.countP_eq _⟩

/-- Witness for C7 at two enumeration orders of the same two files. -/
theorem claim_C7_witness :
    ((sortFiles [⟨"Test 2", some (sampleDict 2), false⟩,
                 ⟨"Test 1", some (sampleDict 1), false⟩]).Pairwise
      (fun a b => extract_test_number a.stem ≤ extract_test_number b.stem)) ∧
    ((process_directory 100 (fun _ => true)
        [⟨"Test 2", some (sampleDict 2), false⟩, ⟨"Test 1", some (sampleDict 1), false⟩]
        ⟨[], 0, 0, 0⟩).rows.Perm
      (process_directory 100 (fun _ => true)
        [⟨"Test 1", some (sampleDict 1), false⟩, ⟨"Test 2", some (sampleDict 2), false⟩]
        ⟨[], 0, 0, 0⟩).rows) ∧
    (process_directory 100 (fun _ => true)
        [⟨"Test 2", some (sampleDict 2), false⟩, ⟨"Test 1", some (sampleDict 1), false⟩]
        ⟨[], 0, 0, 0⟩).processed
      = (process_directory 100 (fun _ => true)
        [⟨"Test 1", some (sampleDict 1), false⟩, ⟨"Test 2", some (sampleDict 2), false⟩]
        ⟨[], 0, 0, 0⟩).processed ∧
    (process_directory 100 (fun _ => true)
        [⟨"Test 2", some (sampleDict 2), false⟩, ⟨"Test 1", some (sampleDict 1), false⟩]
        ⟨[], 0, 0, 0⟩).errors
      = (process_directory 100 (fun _ => true)
        [⟨"Test 1", some (sampleDict 1), false⟩, ⟨"Test 2", some (sampleDict 2), false⟩]
        ⟨[], 0, 0, 0⟩).errors ∧
    (process_directory 100 (fun _ => true)
        [⟨"Test 2", some (sampleDict 2), false⟩, ⟨"Test 1", some (sampleDict 1), false⟩]
        ⟨[], 0, 0, 0⟩).skipped
      = (process_directory 100 (fun _ => true)
        [⟨"Test 1", some (sampleDict 1), false⟩, ⟨"Test 2", some (sampleDict 2), false⟩]
        ⟨[], 0, 0, 0⟩).skipped :=
  claim_C7 100 _ _ (List.Perm.swap _ _ _)

/-- C9 (amended): an error raised while producing the post-run report is
caught by main's single top-level try/except, which logs it and calls
sys.exit(1) even though ingestion completed and its results stand; the
exit code is 0 only when the post-ingestion steps do not raise.  The
frozen claim (exit stays 0) is false on the code. -/
theorem claim_C9 (env : Env) (files : List FileRec) (bs : Nat) (cOk : Nat → Bool)
    (ht : hasTablesOf env = true) (ha : env.analyzeRaises = false)
    (hr : env.reportRaises = true) :
    mainRun env files bs cOk =
      (1, process_directory bs cOk files ⟨[], 0, 0, 0⟩) := by
  unfold mainRun
  rw [ht, ha, hr]
  simp

/-- Counterexample to C9 as frozen: with one successfully ingested record
and a raising reporting step, the process exits 1, not 0. -/
theorem claim_C9_cex :
    (mainRun ⟨true, false, false, false, true⟩
      [⟨"Test 1", some (sampleDict 1), false⟩] 100 (fun _ => true)).1 ≠ 0 := by decide

/-- Witness for C9 at a concrete environment. -/
theorem claim_C9_witness :
    mainRun ⟨true, false, false, false, true⟩
      [⟨"Test 1", some (sampleDict 1), false⟩] 100 (fun _ => true) =
      (1, process_directory 100 (fun _ => true)
        [⟨"Test 1", some (sampleDict 1), false⟩] ⟨[], 0, 0, 0⟩) :=
  claim_C9 _ _ _ _ rfl rfl rfl

/-- C10: without --create-schema and with a previously non-existent output
path, sqlite3.connect has already created the (empty) database file before
main's existence check, so the schema-creation branch never fires
(schemaCreatedOf is false) and the first query against the missing tables
raises; the top-level handler turns that into exit code 1 with no records
ingested. -/
theorem claim_C10 (env : Env) (files : List FileRec) (bs : Nat) (cOk : Nat → Bool)
    (hflag : env.createSchemaFlag = false) (hex : env.outputExistsBefore = false) :
    schemaCreatedOf env = false ∧
    mainRun env files bs cOk = (1, ⟨[], 0, 0, 0⟩) := by
  have h1 : schemaCreatedOf env = false := by
    unfold schemaCreatedOf
    rw [hflag]
    rfl
  refine ⟨h1, ?_⟩
  unfold mainRun hasTablesOf
  rw [h1, hex]
  simp

/-- Witness for C10 at a concrete environment with input files present. -/
theorem claim_C10_witness :
    schemaCreatedOf ⟨false, false, true, false, false⟩ = false ∧
    mainRun ⟨false, false, true, false, false⟩
      [⟨"Test 1", some (sampleDict 1), false⟩] 100 (fun _ => true) =
      (1, ⟨[], 0, 0, 0⟩) :=
  claim_C10 _ _ _ _ rfl rfl

theorem find?_append_none {α : Type} (p : α → Bool) (l1 l2 : List α)
    (h : l1.find? p = none) : (l1 ++ l2).find? p = l2.find? p := by
  induction l1 with
  | nil => rfl
  | cons a t ih =>
    cases hp : p a with
    | false =>
      rw [List.find?_cons_of_neg _ (by simp [hp])] at h
      rw [List.cons_append, List.find?_cons_of_neg _ (by simp [hp])]
      exact ih h
    | true =>
      rw [List.find?_cons_of_pos _ hp] at h
      exact absurd h (by simp)

theorem lookup_append_self {α β : Type} [BEq α] [LawfulBEq α]
    (k : α) (v : β) (c : List (α × β)) (h : List.lookup k c = none) :
    List.lookup k (c ++ [(k, v)]) = some v := by
  induction c with
  | nil => simp [List.lookup]
  | cons a t ih =>
    obtain ⟨k1, v1⟩ := a
    simp only [List.cons_append, List.lookup] at h ⊢
    cases hk : k == k1
    · simp only [hk] at h ⊢
      exact ih h
    · simp only [hk] at h
      exact absurd h (by simp)

theorem mem_eq_of_countP_le_one {α : Type} {p : α → Bool} {l : List α}
    (h : l.countP p ≤ 1) {a b : α} (ha : a ∈ l) (hb : b ∈ l)
    (pa : p a = true) (pb : p b = true) : a = b := by
  induction l with
  | nil => cases ha
  | cons x t ih =>
    rw [List.countP_cons] at h
    rcases List.mem_cons.mp ha with rfl | hat <;> rcases List.mem_cons.mp hb with rfl | hbt
    · rfl
    · exfalso
      simp only [pa, if_true] at h
      have hpos : 0 < t.countP p := List.countP_pos.mpr ⟨b, hbt, pb⟩
      omega
    · exfalso
      simp only [pb, if_true] at h
      have hpos : 0 < t.countP p := List.countP_pos.mpr ⟨a, hat, pa⟩
      omega
    · exact ih (le_trans (Nat.le_add_right _ _) h) hat hbt

theorem gocf_cache_hit (name : String) (st : FuzzerSt) (i : Nat)
    (h : List.lookup name st.cache = some i) :
    get_or_create_fuzzer name st = .ok (i, st) := by
  unfold get_or_create_fuzzer
  rw [h]

theorem gocf_spec (name : String) (st : FuzzerSt)
    (huniq : ∀ n, st.rows.countP (fun r => r.2 == n) ≤ 1)
    (hcache : ∀ k i, List.lookup k st.cache = some i → (i, k) ∈ st.rows) :
    ∃ i st2,
      get_or_create_fuzzer name st = .ok (i, st2) ∧
      st2.rows.countP (fun r => r.2 == name) = 1 ∧
      (∀ n, st2.rows.countP (fun r => r.2 == n) ≤ 1) ∧
      get_or_create_fuzzer name st2 = .ok (i, st2) ∧
      (∀ j, (j, name) ∈ st.rows → i = j) ∧
      (st2.rows = st.rows ∨ st2.rows = st.rows ++ [(st.nextId, name)]) := by
  cases hc : List.lookup name st.cache with
  | some i =>
    have hmem : (i, name) ∈ st.rows := hcache _ _ hc
    have hcall : get_or_create_fuzzer name st = .ok (i, st) := gocf_cache_hit name st i hc
    refine ⟨i, st, hcall, ?_, huniq, hcall, ?_, Or.inl rfl⟩
    · have hpos : 0 < st.rows.countP (fun r => r.2 == name) :=
        List.countP_pos.mpr ⟨(i, name), hmem, by simp⟩
      have := huniq name
      omega
    · intro j hj
      have h2 := mem_eq_of_countP_le_one (huniq name) hmem hj (by simp) (by simp)
      exact congrArg Prod.fst h2
  | none =>
    cases hfresh : st.rows.all (fun r => r.2 != name) with
    | true =>
      have hnone : st.rows.find? (fun r => r.2 == name) = none := by
        rw [List.find?_eq_none]
        intro x hx
        have hne := (List.all_eq_true.mp hfresh) x hx
        simp only [bne_iff_ne, ne_eq] at hne
        simp [hne]
      have hfind : (st.rows ++ [(st.nextId, name)]).find? (fun r => r.2 == name)
          = some (st.nextId, name) := by
        rw [find?_append_none _ _ _ hnone]
        simp [List.find?]
      have hcnt0 : st.rows.countP (fun r => r.2 == name) = 0 := by
        rw [List.countP_eq_zero]
        intro x hx
        have hne := (List.all_eq_true.mp hfresh) x hx
        simpa using hne
      have hcall : get_or_create_fuzzer name st =
          .ok (st.nextId,
            ⟨st.rows ++ [(st.nextId, name)], st.cache ++ [(name, st.nextId)],
             st.nextId + 1⟩) := by
        unfold get_or_create_fuzzer
        simp only [hc, hfresh, if_true, hfind]
      refine ⟨st.nextId,
        ⟨st.rows ++ [(st.nextId, name)], st.cache ++ [(name, st.nextId)], st.nextId + 1⟩,
        hcall, ?_, ?_, ?_, ?_, Or.inr rfl⟩
      · simp [List.countP_append, hcnt0, List.countP_cons]
      · intro n
        by_cases hn : name = n
        · subst hn
          simp [List.countP_append, hcnt0, List.countP_cons]
        · have hne2 : ((st.nextId, name).2 == n) = false := by simp [hn]
          have := huniq n
          simp [List.countP_append, List.countP_cons, hne2]
          omega
      · exact gocf_cache_hit name _ st.nextId
          (lookup_append_self name st.nextId st.cache hc)
      · intro j hj
        exfalso
        have hpos : 0 < st.rows.countP (fun r => r.2 == name) :=
          List.countP_pos.mpr ⟨(j, name), hj, by simp⟩
        omega
    | false =>
      have hex : ∃ x ∈ st.rows, x.2 = name := by
        rcases List.all_eq_false.mp hfresh with ⟨x, hx, hpx⟩
        exact ⟨x, hx, by simpa using hpx⟩
      obtain ⟨x, hxmem, hx⟩ := hex
      have hsome : (st.rows.find? (fun r => r.2 == name)).isSome := by
        rw [List.find?_isSome]
        exact ⟨x, hxmem, by simp [hx]⟩
      obtain ⟨r, hr⟩ := Option.isSome_iff_exists.mp hsome
      have hpr : ((fun r => r.2 == name) r) = true :=
        @List.find?_some _ (fun r => r.2 == name) r st.rows hr
      have hrmem : r ∈ st.rows := List.mem_of_find?_eq_some hr
      have hcall : get_or_create_fuzzer name st =
          .ok (r.1, ⟨st.rows, st.cache ++ [(name, r.1)], st.nextId⟩) := by
        unfold get_or_create_fuzzer
        rw [hc, hfresh]
        simp [hr]
      refine ⟨r.1, ⟨st.rows, st.cache ++ [(name, r.1)], st.nextId⟩,
        hcall, ?_, huniq, ?_, ?_, Or.inl rfl⟩
      · show st.rows.countP (fun r => r.2 == name) = 1
        have hpos : 0 < st.rows.countP (fun r => r.2 == name) :=
          List.countP_pos.mpr ⟨r, hrmem, hpr⟩
        have := huniq name
        omega
      · exact gocf_cache_hit name _ r.1 (lookup_append_self name r.1 st.cache hc)
      · intro j hj
        have h2 := mem_eq_of_countP_le_one (huniq name) hrmem hj hpr (by simp)
        exact congrArg Prod.fst h2

theorem cpMatches_refl (o : Option String) : cpMatches o o = true := by
  cases o <;> simp [cpMatches]

theorem gocp_cache_hit (path contract_path : String) (st : PathSt) (i : Nat)
    (h : List.lookup (path, contract_path) st.cache = some i) :
    get_or_create_path path contract_path st = .ok (i, st) := by
  unfold get_or_create_path
  simp only [h]

theorem gocp_spec (path contract_path : String) (st : PathSt)
    (huniq : ∀ p, st.rows.countP (fun r => r.2.1 == p) ≤ 1)
    (hcache : ∀ k i, List.lookup k st.cache = some i →
      ∃ r ∈ st.rows, r.1 = i ∧ r.2.1 = k.1)
    (hcomp : ∀ r ∈ st.rows, r.2.1 = path →
      cpMatches r.2.2 (if contract_path == "" then none else some contract_path) = true) :
    ∃ i st2,
      get_or_create_path path contract_path st = .ok (i, st2) ∧
      st2.rows.countP (fun r => r.2.1 == path) = 1 ∧
      (∀ p, st2.rows.countP (fun r => r.2.1 == p) ≤ 1) ∧
      get_or_create_path path contract_path st2 = .ok (i, st2) ∧
      (st2.rows = st.rows ∨
        st2.rows = st.rows ++ [(st.nextId, path,
          if contract_path == "" then none else some contract_path)]) := by
  cases hc : List.lookup (path, contract_path) st.cache with
  | some i =>
    obtain ⟨r, hrmem, hri, hrp⟩ := hcache _ _ hc
    have hcall := gocp_cache_hit path contract_path st i hc
    refine ⟨i, st, hcall, ?_, huniq, hcall, Or.inl rfl⟩
    have hpos : 0 < st.rows.countP (fun r => r.2.1 == path) :=
      List.countP_pos.mpr ⟨r, hrmem, by simp [hrp]⟩
    have := huniq path
    omega
  | none =>
    cases hfresh : st.rows.all (fun r => r.2.1 != path) with
    | true =>
      have hnone : st.rows.find? (fun r => r.2.1 == path &&
          cpMatches r.2.2 (if contract_path == "" then none else some contract_path))
          = none := by
        rw [List.find?_eq_none]
        intro x hx
        have hne := (List.all_eq_true.mp hfresh) x hx
        simp only [bne_iff_ne, ne_eq] at hne
        simp [hne]
      have hfind : ((st.rows ++ [(st.nextId, path,
          if contract_path == "" then none else some contract_path)]).find?
          (fun r => r.2.1 == path &&
            cpMatches r.2.2 (if contract_path == "" then none else some contract_path)))
          = some (st.nextId, path,
            if contract_path == "" then none else some contract_path) := by
        rw [find?_append_none _ _ _ hnone]
        simp [List.find?, cpMatches_refl]
      have hcnt0 : st.rows.countP (fun r => r.2.1 == path) = 0 := by
        rw [List.countP_eq_zero]
        intro x hx
        have hne := (List.all_eq_true.mp hfresh) x hx
        simpa using hne
      have hcall : get_or_create_path path contract_path st =
          .ok (st.nextId,
            ⟨st.rows ++ [(st.nextId, path,
              if contract_path == "" then none else some contract_path)],
             st.cache ++ [((path, contract_path), st.nextId)], st.nextId + 1⟩) := by
        unfold get_or_create_path
        simp only [hc, hfresh, if_true, hfind]
      refine ⟨st.nextId,
        ⟨st.rows ++ [(st.nextId, path,
          if contract_path == "" then none else some contract_path)],
         st.cache ++ [((path, contract_path), st.nextId)], st.nextId + 1⟩,
        hcall, ?_, ?_, ?_, Or.inr rfl⟩
      · simp [List.countP_append, hcnt0, List.countP_cons]
      · intro p
        by_cases hp : path = p
        · subst hp
          simp [List.countP_append, hcnt0, List.countP_cons]
        · have hne2 : (((st.nextId, path,
              (if contract_path == "" then none else some contract_path))).2.1 == p)
              = false := by simp [hp]
          have := huniq p
          simp [List.countP_append, List.countP_cons, hne2]
          omega
      · exact gocp_cache_hit path contract_path _ st.nextId
          (lookup_append_self (path, contract_path) st.nextId st.cache hc)
    | false =>
      have hex : ∃ x ∈ st.rows, x.2.1 = path := by
        rcases List.all_eq_false.mp hfresh with ⟨x, hx, hpx⟩
        exact ⟨x, hx, by simpa using hpx⟩
      obtain ⟨x, hxmem, hx⟩ := hex
      have hsome : (st.rows.find? (fun r => r.2.1 == path &&
          cpMatches r.2.2 (if contract_path == "" then none else some contract_path))).isSome := by
        rw [List.find?_isSome]
        refine ⟨x, hxmem, ?_⟩
        have hcx := hcomp x hxmem hx
        simp only [hx, beq_self_eq_true, Bool.true_and]
        exact hcx
      obtain ⟨r, hr⟩ := Option.isSome_iff_exists.mp hsome
      have hpr : ((fun r => r.2.1 == path &&
          cpMatches r.2.2 (if contract_path == "" then none else some contract_path)) r)
          = true :=
        @List.find?_some _ (fun r => r.2.1 == path &&
          cpMatches r.2.2 (if contract_path == "" then none else some contract_path))
          r st.rows hr
      have hr1 : (r.2.1 == path) = true := by
        have hpr2 := hpr
        simp only [Bool.and_eq_true] at hpr2
        exact hpr2.1
      have hrmem : r ∈ st.rows := List.mem_of_find?_eq_some hr
      have hcall : get_or_create_path path contract_path st =
          .ok (r.1, ⟨st.rows, st.cache ++ [((path, contract_path), r.1)], st.nextId⟩) := by
        unfold get_or_create_path
        simp only [hc, hfresh, Bool.false_eq_true, if_false]
        rw [hr]
      refine ⟨r.1, ⟨st.rows, st.cache ++ [((path, contract_path), r.1)], st.nextId⟩,
        hcall, ?_, huniq, ?_, Or.inl rfl⟩
      · show st.rows.countP (fun r => r.2.1 == path) = 1
        have hpos : 0 < st.rows.countP (fun r => r.2.1 == path) :=
          List.countP_pos.mpr ⟨r, hrmem, hr1⟩
        have := huniq path
        omega
      · exact gocp_cache_hit path contract_path _ r.1
          (lookup_append_self (path, contract_path) r.1 st.cache hc)

/-- C8 (corrected): dimension resolution for fuzzers is idempotent and
duplicate-free unconditionally (given a duplicate-free store with a sound
cache): get_or_create_fuzzer succeeds, leaves exactly one row for the
name, preserves duplicate-freedom, and returns the same id on a repeated
call. For paths the same holds, but ONLY under the extra proviso that
every pre-existing row with the same path has a matching contract_path:
the UNIQUE constraint is on path alone while the SELECT matches path AND
contract_path, so a path collision with a different contract_path makes
fetchone() return None and the subscript [0] raise TypeError (see
claim_C8_cex). -/
theorem claim_C8 :
    (∀ (name : String) (st : FuzzerSt),
      (∀ n, st.rows.countP (fun r => r.2 == n) ≤ 1) →
      (∀ k i, List.lookup k st.cache = some i → (i, k) ∈ st.rows) →
      ∃ i st2,
        get_or_create_fuzzer name st = .ok (i, st2) ∧
        st2.rows.countP (fun r => r.2 == name) = 1 ∧
        (∀ n, st2.rows.countP (fun r => r.2 == n) ≤ 1) ∧
        get_or_create_fuzzer name st2 = .ok (i, st2) ∧
        (∀ j, (j, name) ∈ st.rows → i = j) ∧
        (st2.rows = st.rows ∨ st2.rows = st.rows ++ [(st.nextId, name)])) ∧
    (∀ (path contract_path : String) (st : PathSt),
      (∀ p, st.rows.countP (fun r => r.2.1 == p) ≤ 1) →
      (∀ k i, List.lookup k st.cache = some i →
        ∃ r ∈ st.rows, r.1 = i ∧ r.2.1 = k.1) →
      (∀ r ∈ st.rows, r.2.1 = path →
        cpMatches r.2.2 (if contract_path == "" then none else some contract_path) = true) →
      ∃ i st2,
        get_or_create_path path contract_path st = .ok (i, st2) ∧
        st2.rows.countP (fun r => r.2.1 == path) = 1 ∧
        (∀ p, st2.rows.countP (fun r => r.2.1 == p) ≤ 1) ∧
        get_or_create_path path contract_path st2 = .ok (i, st2) ∧
        (st2.rows = st.rows ∨
          st2.rows = st.rows ++ [(st.nextId, path,
            if contract_path == "" then none else some contract_path)])) :=
  ⟨fun name st huniq hcache => gocf_spec name st huniq hcache,
   fun path contract_path st huniq hcache hcomp =>
     gocp_spec path contract_path st huniq hcache hcomp⟩

/-- C8 counterexample: with an existing paths row ("x", contract_path "a"),
resolving ("x", contract_path "b") raises TypeError instead of succeeding:
INSERT OR IGNORE is a no-op because UNIQUE(path) already holds, the SELECT
matches path AND contract_path and finds nothing, and fetchone()[0]
subscripts None. -/
theorem claim_C8_cex :
    get_or_create_path "x" "b" ⟨[(1, "x", some "a")], [], 2⟩ = .error .typeError := rfl

/-- C8 witness: the fuzzer and path parts of claim_C8 instantiated at the
empty store, discharging the invariants there. -/
theorem claim_C8_witness :
    (∃ i st2,
      get_or_create_fuzzer "happyPath" ⟨[], [], 1⟩ = .ok (i, st2) ∧
      st2.rows.countP (fun r => r.2 == "happyPath") = 1 ∧
      (∀ n, st2.rows.countP (fun r => r.2 == n) ≤ 1) ∧
      get_or_create_fuzzer "happyPath" st2 = .ok (i, st2) ∧
      (∀ j, (j, "happyPath") ∈ ([] : List (Nat × String)) → i = j) ∧
      (st2.rows = [] ∨ st2.rows = [] ++ [(1, "happyPath")])) ∧
    (∃ i st2,
      get_or_create_path "/users" "/users" ⟨[], [], 1⟩ = .ok (i, st2) ∧
      st2.rows.countP (fun r => r.2.1 == "/users") = 1 ∧
      (∀ p, st2.rows.countP (fun r => r.2.1 == p) ≤ 1) ∧
      get_or_create_path "/users" "/users" st2 = .ok (i, st2) ∧
      (st2.rows = [] ∨ st2.rows = [] ++ [(1, "/users",
        if ("/users" == "") = true then none else some "/users")])) :=
  ⟨claim_C8.1 "happyPath" ⟨[], [], 1⟩ (fun n => by simp)
      (fun k i h => by simp [List.lookup] at h),
   claim_C8.2 "/users" "/users" ⟨[], [], 1⟩ (fun p => by simp)
      (fun k i h => by simp [List.lookup] at h)
      (fun r hr => by simp at hr)⟩
